import Mathlib

/-!
# The blend tool's gradient editor (app/tools/gimpblendtool-editor.c)

A shallow embedding of the slider/segment mapping of the blend tool editor.

* `gdouble` positions are exact rationals (`ℚ`); `fabs` is the absolute value.
  The rounding of `gdouble` is modelled apart (`double_round`), for the one
  claim that depends on it.
* The doubly linked segment chain `gradient->segments` is a `List`; a segment
  pointer is the position of the segment in that list.
* `gint` values are `Int`.
* A failed `g_assert` (or a NULL dereference) is the result `none`.
-/

namespace BlendEditor

/-! ## Data model -/

/-- The constant `EPSILON` (`#define EPSILON 1e-10`). -/
def EPSILON : ℚ := 1 / 10000000000

/-- The colour type of a segment end (`GimpGradientColor`, core/core-enums.h). -/
inductive GimpGradientColor where
  | FIXED
  | FOREGROUND
  | FOREGROUND_TRANSPARENT
  | BACKGROUND
  | BACKGROUND_TRANSPARENT
  deriving DecidableEq, Repr

/-- An RGBA colour (`GimpRGB`). -/
structure GimpRGB where
  r : ℚ
  g : ℚ
  b : ℚ
  a : ℚ
  deriving DecidableEq

/-- The fields of `GimpGradientSegment` that the editor reads or writes.  The
`next`/`prev` links are the list structure of the chain. -/
structure GimpGradientSegment where
  left : ℚ
  middle : ℚ
  right : ℚ
  left_color_type : GimpGradientColor := GimpGradientColor.FIXED
  left_color : GimpRGB := { r := 0, g := 0, b := 0, a := 1 }
  right_color_type : GimpGradientColor := GimpGradientColor.FIXED
  right_color : GimpRGB := { r := 1, g := 1, b := 1, a := 1 }
  deriving DecidableEq

/-- The shape of a handle (`GimpHandleType`, display/display-enums.h); the
editor names only `GIMP_HANDLE_FILLED_CIRCLE`. -/
inductive GimpHandleType where
  | SQUARE
  | FILLED_SQUARE
  | CIRCLE
  | FILLED_CIRCLE
  | DIAMOND
  | FILLED_DIAMOND
  | CROSS
  | CROSSHAIR
  deriving DecidableEq, Repr

/-- The fields of `GimpControllerSlider` that the editor sets.  `data` is the
segment index stored with `GINT_TO_POINTER`. -/
structure GimpControllerSlider where
  value : ℚ
  min : ℚ
  max : ℚ
  visible : Bool
  movable : Bool
  removable : Bool
  autohide : Bool
  type : GimpHandleType
  size : ℚ
  data : Int
  deriving DecidableEq

/-! ## `gimp_blend_tool_editor_update_sliders`: building the slider array

The macro `GIMP_CONTROLLER_SLIDER_DEFAULT` is defined outside the file; it is
the parameter `dflt` of everything below. -/

/-- The body of the first loop of `update_sliders`: the gradient-stop slider
between `seg` and `seg->next`, for the loop counter `i`. -/
def stop_slider (dflt : GimpControllerSlider) (editable : Bool)
    (seg nxt : GimpGradientSegment) (i : Int) : GimpControllerSlider :=
  { dflt with
    value := seg.right
    min := seg.left
    max := nxt.right
    movable := editable
    removable := editable
    data := i }

/-- The first loop of `update_sliders`:
`for (seg = segments, i = 0; seg->next; seg = seg->next, i++)`, one
gradient-stop slider for each adjacent pair of segments. -/
def stop_sliders (dflt : GimpControllerSlider) (editable : Bool) :
    List GimpGradientSegment → Int → List GimpControllerSlider
  | seg :: nxt :: rest, i =>
      stop_slider dflt editable seg nxt i :: stop_sliders dflt editable (nxt :: rest) (i + 1)
  | _, _ => []

/-- The body of the second loop of `update_sliders`: the midpoint slider of
`seg`, for the loop counter `i`.  A midpoint whose range is not longer than
`EPSILON` is hidden. -/
def midpoint_slider (dflt : GimpControllerSlider) (editable : Bool)
    (seg : GimpGradientSegment) (i : Int) : GimpControllerSlider :=
  { dflt with
    value := seg.middle
    min := seg.left
    max := seg.right
    visible := decide (|seg.right - seg.left| > EPSILON)
    movable := editable
    autohide := true
    type := GimpHandleType.FILLED_CIRCLE
    size := 3 / 5
    data := i }

/-- The second loop of `update_sliders`:
`for (seg = segments, i = 0; seg; seg = seg->next, i++)`, one midpoint slider
for each segment. -/
def midpoint_sliders (dflt : GimpControllerSlider) (editable : Bool) :
    List GimpGradientSegment → Int → List GimpControllerSlider
  | [], _ => []
  | seg :: rest, i =>
      midpoint_slider dflt editable seg i :: midpoint_sliders dflt editable rest (i + 1)

/-- The body of the reversal loop ("flip the slider limits and values"). -/
def flip_slider (s : GimpControllerSlider) : GimpControllerSlider :=
  { s with
    value := 1 - s.value
    min := 1 - s.max
    max := 1 - s.min }

/-- The body of the offset loop ("adjust the sliders according to the offset"). -/
def offset_slider (offset : ℚ) (s : GimpControllerSlider) : GimpControllerSlider :=
  { s with
    value := (1 - offset) * s.value + offset
    min := (1 - offset) * s.min + offset
    max := (1 - offset) * s.max + offset }

/-- The array after the two initialisation loops (stops, then midpoints). -/
def initial_sliders (dflt : GimpControllerSlider) (editable : Bool)
    (segments : List GimpGradientSegment) : List GimpControllerSlider :=
  stop_sliders dflt editable segments 0 ++ midpoint_sliders dflt editable segments 0

/-- The array after the reversal step: every slider is flipped when
`gradient_reverse` is set. -/
def reversed_sliders (dflt : GimpControllerSlider) (editable : Bool) (reverse : Bool)
    (segments : List GimpGradientSegment) : List GimpControllerSlider :=
  if reverse then (initial_sliders dflt editable segments).map flip_slider
  else initial_sliders dflt editable segments

/-- The array `sliders` that `update_sliders` hands to
`gimp_tool_line_set_sliders`: initialisation, reversal, then the offset remap.
`offset` is the local `options->offset / 100.0`. -/
def update_sliders_array (dflt : GimpControllerSlider) (editable : Bool) (offset : ℚ)
    (reverse : Bool) (segments : List GimpGradientSegment) : List GimpControllerSlider :=
  (reversed_sliders dflt editable reverse segments).map (offset_slider offset)

/-- The conversion of a slider value to a segment value, written out in
`line_add_slider` and in both loops of `line_changed`:
`value = (value - offset) / (1.0 - offset)`, then `value = 1.0 - value` when
the gradient is reversed. -/
def slider_value_to_segment (offset : ℚ) (reverse : Bool) (value : ℚ) : ℚ :=
  let value := (value - offset) / (1 - offset)
  if reverse then 1 - value else value

/-! ## The tool state -/

/-- The options read by the editor (`GimpBlendOptions` and its paint options).
`offset` is the percentage `options->offset`; the editor uses `offset / 100.0`. -/
structure GimpBlendOptions where
  offset : ℚ
  instant : Bool
  modify_active : Bool
  gradient_reverse : Bool
  deriving DecidableEq

/-- A gradient object: its segment chain, whether `gimp_data_is_writable`
holds for it, and the freeze count of `gimp_data_freeze`/`gimp_data_thaw`. -/
structure GimpGradient where
  segments : List GimpGradientSegment
  writable : Bool
  freeze_count : Nat
  deriving DecidableEq

/-- The line widget (`GimpToolLine`): its slider array, its selection and its
two endpoints. -/
structure GimpToolLine where
  sliders : List GimpControllerSlider
  selection : Int
  x1 : ℚ
  y1 : ℚ
  x2 : ℚ
  y2 : ℚ
  deriving DecidableEq

/-- The floating editor dialog (`blend_tool->gui` with its endpoint editor):
whether the dialog and the endpoint editor are shown, and the values last
pushed into the endpoint editor. -/
structure GimpToolGui where
  shown : Bool
  endpoint_editor_shown : Bool
  endpoint_x : ℚ
  endpoint_y : ℚ
  endpoint_color_type : GimpGradientColor
  endpoint_sensitive : Bool
  deriving DecidableEq

/-- The part of `GimpBlendTool` the editor works on.  `gradient` is
`blend_tool->gradient` (`none` is NULL); `gradient_is_custom` says that it is
the object `gimp_gradients_get_custom` returns; `custom` is that object while
another gradient is active (it is not read while `gradient_is_custom` holds). -/
structure GimpBlendTool where
  options : GimpBlendOptions
  gradient : Option GimpGradient
  gradient_is_custom : Bool
  custom : GimpGradient
  widget : Option GimpToolLine
  gui : Option GimpToolGui
  block_handlers_count : Int
  deriving DecidableEq

/-- Modelled from the spec: the endpoint sentinels `START`, `END` (and `NONE`)
are reserved indices outside the slider array; display/gimptoolline.h, which
is not part of the file, defines them as the negative numbers used here. -/
def GIMP_TOOL_LINE_HANDLE_NONE : Int := -3

/-- Modelled from the spec: the reserved index of the start endpoint (see
`GIMP_TOOL_LINE_HANDLE_NONE`). -/
def GIMP_TOOL_LINE_HANDLE_START : Int := -2

/-- Modelled from the spec: the reserved index of the end endpoint (see
`GIMP_TOOL_LINE_HANDLE_NONE`). -/
def GIMP_TOOL_LINE_HANDLE_END : Int := -1

/-! ## The gradient engine (core/gimpgradient.c, outside the file) -/

/-- Modelled from the spec: `gimp_gradient_segment_get_nth` resolves a segment
index by chain traversal; the result is the position itself when the chain has
such a segment and NULL (`none`) otherwise. -/
def gimp_gradient_segment_get_nth (segments : List GimpGradientSegment) (index : Int) :
    Option Nat :=
  if 0 ≤ index ∧ index < (segments.length : Int) then some index.toNat else none

/-- Modelled from the spec: `gimp_gradient_segment_get_last` is the last
segment of the chain (NULL for an empty chain). -/
def gimp_gradient_segment_get_last (segments : List GimpGradientSegment) : Option Nat :=
  if segments.length = 0 then none else some (segments.length - 1)

/-- Modelled from the spec: `gimp_gradient_segment_range_get_n_segments` counts
the segments of the chain from position `range_l` up to and including
`range_r`, or up to the end of the chain when `range_r` is NULL. -/
def gimp_gradient_segment_range_get_n_segments (segments : List GimpGradientSegment)
    (range_l : Nat) (range_r : Option Nat) : Int :=
  match range_r with
  | none => ((segments.length - range_l : Nat) : Int)
  | some r => ((min (r + 1) segments.length - range_l : Nat) : Int)

/-- Modelled from the spec: the position of "the segment containing `value`",
the first segment of the chain whose range `[left, right]` holds `value`
(the length of the chain when there is none). -/
def gimp_gradient_get_segment_at (segments : List GimpGradientSegment) (pos : ℚ) : Nat :=
  segments.findIdx (fun seg => decide (seg.left ≤ pos ∧ pos ≤ seg.right))

/-- Modelled from the spec: `split_at(value) → (leftSeg, rightSeg)` splits the
segment containing `value` into the two segments `[left, value]` and
`[value, right]` and reports the new left segment; the result is the new chain
and the position of that left segment.  The spec leaves the new middles and
the colour at the new boundary to the gradient engine: here each half gets its
centre as middle and keeps the colour fields of the segment it comes from.
The spec says nothing for a `value` that no segment contains (`none`). -/
def gimp_gradient_split_at (segments : List GimpGradientSegment) (pos : ℚ) :
    Option (List GimpGradientSegment × Nat) :=
  let k := gimp_gradient_get_segment_at segments pos
  match segments[k]? with
  | none => none
  | some seg =>
      let newl := { seg with right := pos, middle := (seg.left + pos) / 2 }
      let newr := { seg with left := pos, middle := (pos + seg.right) / 2 }
      some (segments.take k ++ newl :: newr :: segments.drop (k + 1), k)

/-- The function `gimp_data_freeze` on a gradient. -/
def gimp_data_freeze (g : GimpGradient) : GimpGradient :=
  { g with freeze_count := g.freeze_count + 1 }

/-- The function `gimp_data_thaw` on a gradient. -/
def gimp_data_thaw (g : GimpGradient) : GimpGradient :=
  { g with freeze_count := g.freeze_count - 1 }

/-! ## The editor's private functions -/

/-- The function `gimp_blend_tool_editor_is_gradient_editable`
(`gimp_data_is_writable` of a NULL gradient is FALSE). -/
def is_gradient_editable (bt : GimpBlendTool) : Bool :=
  !bt.options.modify_active ||
    (match bt.gradient with
     | none => false
     | some g => g.writable)

/-- The function `gimp_blend_tool_editor_handle_is_endpoint`. -/
def handle_is_endpoint (handle : Int) : Bool :=
  handle == GIMP_TOOL_LINE_HANDLE_START || handle == GIMP_TOOL_LINE_HANDLE_END

/-- The function `gimp_blend_tool_editor_handle_is_stop`; `n_sliders` is the
length of the widget's slider array, so `n_sliders / 2` is the C division of a
non-negative number.  Without a widget `n_sliders` is never set (`none`). -/
def handle_is_stop (bt : GimpBlendTool) (handle : Int) : Option Bool :=
  match bt.widget with
  | none => none
  | some line =>
      let n_sliders : Int := line.sliders.length
      some (decide (handle ≥ 0 ∧ handle < n_sliders / 2))

/-- The function `gimp_blend_tool_editor_handle_is_midpoint`. -/
def handle_is_midpoint (bt : GimpBlendTool) (handle : Int) : Option Bool :=
  match bt.widget with
  | none => none
  | some line =>
      let n_sliders : Int := line.sliders.length
      some (decide (handle ≥ n_sliders / 2))

/-- The function `gimp_blend_tool_editor_handle_get_segment`.  The outer
`Option` is `none` when the function does not return (NULL gradient or widget,
failed `g_assert`); the inner one is the returned segment pointer, a position
in the chain or NULL. -/
def handle_get_segment (bt : GimpBlendTool) (handle : Int) : Option (Option Nat) :=
  match bt.gradient with
  | none => none
  | some g =>
      if handle = GIMP_TOOL_LINE_HANDLE_START then
        some (if g.segments.length = 0 then none else some 0)
      else if handle = GIMP_TOOL_LINE_HANDLE_END then
        some (gimp_gradient_segment_get_last g.segments)
      else
        match bt.widget with
        | none => none
        | some line =>
            let n_sliders : Int := line.sliders.length
            if handle ≥ 0 ∧ handle < n_sliders then
              match line.sliders[handle.toNat]? with
              | none => none
              | some slider => some (gimp_gradient_segment_get_nth g.segments slider.data)
            else none

/-- The function `gimp_blend_tool_editor_block_handlers`. -/
def block_handlers (bt : GimpBlendTool) : GimpBlendTool :=
  { bt with block_handlers_count := bt.block_handlers_count + 1 }

/-- The function `gimp_blend_tool_editor_unblock_handlers`; `none` is the failed
`g_assert (blend_tool->block_handlers_count > 0)`. -/
def unblock_handlers (bt : GimpBlendTool) : Option GimpBlendTool :=
  if bt.block_handlers_count > 0 then
    some { bt with block_handlers_count := bt.block_handlers_count - 1 }
  else none

/-- The function `gimp_blend_tool_editor_are_handlers_blocked`. -/
def are_handlers_blocked (bt : GimpBlendTool) : Bool :=
  decide (bt.block_handlers_count > 0)

/-- The function `gimp_blend_tool_editor_freeze_gradient`.  A tool without a
gradient cannot be frozen (`none`).  In the second branch the active gradient
is copied into the custom gradient, which becomes the active one. -/
def freeze_gradient (bt : GimpBlendTool) : Option GimpBlendTool :=
  let bt := block_handlers bt
  match bt.gradient with
  | none => none
  | some g =>
      if bt.gradient_is_custom || bt.options.modify_active then
        if is_gradient_editable bt then
          some { bt with gradient := some (gimp_data_freeze g) }
        else none
      else
        let custom := { gimp_data_freeze bt.custom with segments := g.segments }
        let bt := { bt with gradient := some custom, gradient_is_custom := true }
        if is_gradient_editable bt then some bt else none

/-- Modelled from the spec: `set_sliders(array)` of the line widget replaces
its slider array. -/
def gimp_tool_line_set_sliders (line : GimpToolLine)
    (sliders : List GimpControllerSlider) : GimpToolLine :=
  { line with sliders := sliders }

/-- The function `gimp_blend_tool_editor_update_sliders`.  It returns at once
without a widget or in instant mode; otherwise it builds the slider array of
the current chain and hands it to the widget with the handlers blocked.  An
empty chain (`gradient->segments == NULL`) or a NULL gradient is a NULL
dereference. -/
def update_sliders (dflt : GimpControllerSlider) (bt : GimpBlendTool) :
    Option GimpBlendTool :=
  match bt.widget with
  | none => some bt
  | some line =>
      if bt.options.instant then some bt
      else
        let offset := bt.options.offset / 100
        let editable := is_gradient_editable bt
        match bt.gradient with
        | none => none
        | some g =>
            if g.segments.length = 0 then none
            else
              let sliders := update_sliders_array dflt editable offset
                bt.options.gradient_reverse g.segments
              let bt := block_handlers bt
              let bt := { bt with widget := some (gimp_tool_line_set_sliders line sliders) }
              unblock_handlers bt

/-- The function `gimp_blend_tool_editor_update_endpoint_gui` on the dialog
`gui`, for a selection that is `START` or `END` (anything else is
`g_assert_not_reached`).  The title and the flat colour shown in the colour
panel are left out. -/
def update_endpoint_gui (bt : GimpBlendTool) (line : GimpToolLine) (gui : GimpToolGui)
    (selection : Int) : Option GimpToolGui :=
  let editable := is_gradient_editable bt
  if ¬ (selection = GIMP_TOOL_LINE_HANDLE_START ∨ selection = GIMP_TOOL_LINE_HANDLE_END) then
    none
  else
    let x := if selection = GIMP_TOOL_LINE_HANDLE_START then line.x1 else line.x2
    let y := if selection = GIMP_TOOL_LINE_HANDLE_START then line.y1 else line.y2
    let selection :=
      if bt.options.gradient_reverse then
        (if selection = GIMP_TOOL_LINE_HANDLE_START then GIMP_TOOL_LINE_HANDLE_END
         else GIMP_TOOL_LINE_HANDLE_START)
      else selection
    match bt.gradient, handle_get_segment bt selection with
    | some g, some (some i) =>
        match g.segments[i]? with
        | none => none
        | some seg =>
            let color_type :=
              if selection = GIMP_TOOL_LINE_HANDLE_START then seg.left_color_type
              else seg.right_color_type
            some { gui with
                   endpoint_x := x
                   endpoint_y := y
                   endpoint_color_type := color_type
                   endpoint_sensitive := editable
                   endpoint_editor_shown := true }
    | _, _ => none

/-- The dialog as `gimp_tool_gui_new` and `init_endpoint_gui` create it. -/
def gimp_tool_gui_new : GimpToolGui :=
  { shown := false
    endpoint_editor_shown := false
    endpoint_x := 0
    endpoint_y := 0
    endpoint_color_type := GimpGradientColor.FIXED
    endpoint_sensitive := true }

/-- The function `gimp_blend_tool_editor_update_gui`. -/
def update_gui (bt : GimpBlendTool) : Option GimpBlendTool :=
  let hide : Option GimpBlendTool :=
    some { bt with gui := bt.gui.map (fun gui => { gui with shown := false }) }
  match bt.gradient, bt.widget with
  | some _, some line =>
      if bt.options.instant then hide
      else
        let selection := line.selection
        if selection = GIMP_TOOL_LINE_HANDLE_NONE then hide
        else
          let gui := bt.gui.getD gimp_tool_gui_new
          let bt := block_handlers bt
          let gui? :=
            if handle_is_endpoint selection then update_endpoint_gui bt line gui selection
            else some { gui with endpoint_editor_shown := false }
          match gui? with
          | none => none
          | some gui =>
              match unblock_handlers { bt with gui := some gui } with
              | none => none
              | some bt => some { bt with gui := some { gui with shown := true } }
  | _, _ => hide

/-- The function `gimp_blend_tool_editor_thaw_gradient`. -/
def thaw_gradient (dflt : GimpControllerSlider) (bt : GimpBlendTool) :
    Option GimpBlendTool :=
  let bt := { bt with gradient := bt.gradient.map gimp_data_thaw }
  match update_sliders dflt bt with
  | none => none
  | some bt =>
      match update_gui bt with
      | none => none
      | some bt => unblock_handlers bt

/-- The function `gimp_blend_tool_editor_add_stop`: the new tool state and the
returned `stop`.  `seg` is the segment `gimp_gradient_split_at` reports in
`&seg`; the count runs from the first segment of the chain to `seg`. -/
def add_stop (dflt : GimpControllerSlider) (bt : GimpBlendTool) (value : ℚ) :
    Option (GimpBlendTool × Int) :=
  match freeze_gradient bt with
  | none => none
  | some bt =>
      match bt.gradient with
      | none => none
      | some g =>
          match gimp_gradient_split_at g.segments value with
          | none => none
          | some (segments, seg) =>
              let bt := { bt with gradient := some { g with segments := segments } }
              let stop :=
                gimp_gradient_segment_range_get_n_segments segments 0 (some seg) - 1
              match thaw_gradient dflt bt with
              | none => none
              | some bt => some (bt, stop)

/-- The function `gimp_blend_tool_editor_line_add_slider`. -/
def line_add_slider (dflt : GimpControllerSlider) (bt : GimpBlendTool) (value : ℚ) :
    Option (GimpBlendTool × Int) :=
  let offset := bt.options.offset / 100
  let value := slider_value_to_segment offset bt.options.gradient_reverse value
  add_stop dflt bt value

/-- The function `gimp_blend_tool_editor_line_can_add_slider`. -/
def line_can_add_slider (bt : GimpBlendTool) (value : ℚ) : Bool :=
  let offset := bt.options.offset / 100
  is_gradient_editable bt && decide (value ≥ offset)

/-! ## Editing through the sliders: `gimp_blend_tool_editor_line_changed` -/

/-- Modelled from the spec: `compress(segRange, newLeft, newRight)`
proportionally rescales the contents of a range into `[newLeft, newRight]`.
The editor only compresses ranges of one segment (`range_l == range_r`), so
the model takes that segment: its ends become `new_l` and `new_r` and its
middle keeps its proportion (the centre, for a segment of length zero, where
there is no proportion). -/
def gimp_gradient_segment_range_compress (seg : GimpGradientSegment) (new_l new_r : ℚ) :
    GimpGradientSegment :=
  { seg with
    left := new_l
    right := new_r
    middle :=
      if seg.right - seg.left = 0 then (new_l + new_r) / 2
      else new_l + (seg.middle - seg.left) * ((new_r - new_l) / (seg.right - seg.left)) }

/-- The midpoint loop of `line_changed` once `changed` is TRUE, over the
segments from `seg` to the end of the chain, `i` being the index of the slider
of the first of them: `seg->middle = value` wherever the converted slider
value is further than `EPSILON` from the middle.  Reading past the end of
the slider array is `none`. -/
def line_changed_midpoints_frozen (sliders : List GimpControllerSlider) (offset : ℚ)
    (reverse : Bool) : List GimpGradientSegment → Nat → Option (List GimpGradientSegment)
  | [], _ => some []
  | seg :: rest, i =>
      match sliders[i]? with
      | none => none
      | some slider =>
          let value := slider_value_to_segment offset reverse slider.value
          let seg := if |value - seg.middle| > EPSILON then { seg with middle := value } else seg
          match line_changed_midpoints_frozen sliders offset reverse rest (i + 1) with
          | none => none
          | some rest => some (seg :: rest)

/-- The midpoint loop of `line_changed` while `changed` is FALSE, over the
segments from `seg` to the end of the chain.  At the first midpoint that
moved the gradient is frozen, the segment is fetched again with
`handle_get_segment (blend_tool, i)`, its middle is set, and the loop goes on
from the fetched segment with `changed` TRUE.  The result is the tool and
`changed`. -/
def line_changed_midpoints_search (bt : GimpBlendTool) (sliders : List GimpControllerSlider)
    (offset : ℚ) (reverse : Bool) :
    List GimpGradientSegment → Nat → Option (GimpBlendTool × Bool)
  | [], _ => some (bt, false)
  | seg :: rest, i =>
      match sliders[i]? with
      | none => none
      | some slider =>
          let value := slider_value_to_segment offset reverse slider.value
          if |value - seg.middle| > EPSILON then
            match freeze_gradient bt with
            | none => none
            | some bt1 =>
                match bt1.gradient, handle_get_segment bt1 (i : Int) with
                | some g1, some (some p) =>
                    match g1.segments[p]? with
                    | none => none
                    | some seg1 =>
                        match line_changed_midpoints_frozen sliders offset reverse
                            (g1.segments.drop (p + 1)) (i + 1) with
                        | none => none
                        | some tail =>
                            some ({ bt1 with
                                    gradient := some { g1 with
                                      segments := g1.segments.take p ++
                                        { seg1 with middle := value } :: tail } }, true)
                | _, _ => none
          else line_changed_midpoints_search bt sliders offset reverse rest (i + 1)

/-- The stop loop of `line_changed` once `changed` is TRUE, from the segment
`seg` whose followers are `rest`, `i` being the index of the stop slider
between `seg` and `seg->next`.  The loop ends at the segment without a next
one.  A stop that moved compresses `seg` to `[seg->left, value]` and
`seg->next` to `[value, seg->next->right]`. -/
def line_changed_stops_frozen (sliders : List GimpControllerSlider) (offset : ℚ)
    (reverse : Bool) :
    GimpGradientSegment → List GimpGradientSegment → Nat → Option (List GimpGradientSegment)
  | seg, [], _ => some [seg]
  | seg, nxt :: rest, i =>
      match sliders[i]? with
      | none => none
      | some slider =>
          let value := slider_value_to_segment offset reverse slider.value
          if |value - seg.right| > EPSILON then
            let seg1 := gimp_gradient_segment_range_compress seg seg.left value
            let nxt1 := gimp_gradient_segment_range_compress nxt value nxt.right
            match line_changed_stops_frozen sliders offset reverse nxt1 rest (i + 1) with
            | none => none
            | some tail => some (seg1 :: tail)
          else
            match line_changed_stops_frozen sliders offset reverse nxt rest (i + 1) with
            | none => none
            | some tail => some (seg :: tail)

/-- The stop loop of `line_changed` while `changed` is FALSE.  At the first
stop that moved the gradient is frozen, the segment is fetched again with
`handle_get_segment (blend_tool, i)`, the two compressions are requested on it
and on its next segment, and the loop goes on from there with `changed`
TRUE. -/
def line_changed_stops_search (bt : GimpBlendTool) (sliders : List GimpControllerSlider)
    (offset : ℚ) (reverse : Bool) :
    GimpGradientSegment → List GimpGradientSegment → Nat → Option (GimpBlendTool × Bool)
  | _, [], _ => some (bt, false)
  | seg, nxt :: rest, i =>
      match sliders[i]? with
      | none => none
      | some slider =>
          let value := slider_value_to_segment offset reverse slider.value
          if |value - seg.right| > EPSILON then
            match freeze_gradient bt with
            | none => none
            | some bt1 =>
                match bt1.gradient, handle_get_segment bt1 (i : Int) with
                | some g1, some (some p) =>
                    match g1.segments.drop p with
                    | seg1 :: nxt1 :: rest1 =>
                        let seg2 := gimp_gradient_segment_range_compress seg1 seg1.left value
                        let nxt2 := gimp_gradient_segment_range_compress nxt1 value nxt1.right
                        match line_changed_stops_frozen sliders offset reverse nxt2 rest1
                            (i + 1) with
                        | none => none
                        | some tail =>
                            some ({ bt1 with
                                    gradient := some { g1 with
                                      segments := g1.segments.take p ++ seg2 :: tail } },
                                  true)
                    | _ => none
                | _, _ => none
          else line_changed_stops_search bt sliders offset reverse nxt rest (i + 1)

/-- The stop loop of `line_changed`, from `blend_tool->gradient->segments`,
entered with the value `changed` has after the midpoint loop. -/
def line_changed_stops (bt : GimpBlendTool) (sliders : List GimpControllerSlider)
    (offset : ℚ) (reverse : Bool) (changed : Bool) : Option (GimpBlendTool × Bool) :=
  match bt.gradient with
  | none => none
  | some g =>
      match g.segments with
      | [] => none
      | seg :: rest =>
          if changed then
            match line_changed_stops_frozen sliders offset reverse seg rest 0 with
            | none => none
            | some segments =>
                some ({ bt with gradient := some { g with segments := segments } }, true)
          else line_changed_stops_search bt sliders offset reverse seg rest 0

/-- The function `gimp_blend_tool_editor_line_changed`.  Without a widget the
slider count is never set (`none`). -/
def line_changed (dflt : GimpControllerSlider) (bt : GimpBlendTool) : Option GimpBlendTool :=
  let offset := bt.options.offset / 100
  let reverse := bt.options.gradient_reverse
  if are_handlers_blocked bt then some bt
  else
    match bt.gradient with
    | none => some bt
    | some g =>
        if offset = 1 then some bt
        else
          match bt.widget with
          | none => none
          | some line =>
              let sliders := line.sliders
              let n_sliders := sliders.length
              if n_sliders = 0 then some bt
              else
                match line_changed_midpoints_search bt sliders offset reverse g.segments
                    (n_sliders / 2) with
                | none => none
                | some (bt1, changed1) =>
                    match line_changed_stops bt1 sliders offset reverse changed1 with
                    | none => none
                    | some (bt2, changed2) =>
                        match (if changed2 then thaw_gradient dflt bt2 else some bt2) with
                        | none => none
                        | some bt3 => update_gui bt3

/-! ## Removing a stop, and the handlers of the property panel -/

/-- Modelled from the spec: the segment that `merge(segA, segB)` puts in the
place of the range from `a` to `b`: from the left end of `a` to the right end
of `b`, with their outer colours.  The spec leaves the middle of the merged
segment to the gradient engine: here it is its centre. -/
def merged_segment (a b : GimpGradientSegment) : GimpGradientSegment :=
  { a with
    right := b.right
    right_color_type := b.right_color_type
    right_color := b.right_color
    middle := (a.left + b.right) / 2 }

/-- Modelled from the spec: `merge(segA, segB)` merges the segment at position
`seg_a` with the segments up to position `seg_b` into one segment
(`merged_segment`).  The spec says nothing for positions that are not a range
of the chain (`none`). -/
def gimp_gradient_segment_range_merge (segments : List GimpGradientSegment)
    (seg_a seg_b : Nat) : Option (List GimpGradientSegment) :=
  match segments[seg_a]?, segments[seg_b]? with
  | some a, some b =>
      if seg_a ≤ seg_b then
        some (segments.take seg_a ++ merged_segment a b :: segments.drop (seg_b + 1))
      else none
  | _, _ => none

/-- The function `gimp_blend_tool_editor_line_remove_slider`.  `seg->next` is
the position after the one `handle_get_segment` returns. -/
def line_remove_slider (dflt : GimpControllerSlider) (bt : GimpBlendTool) (slider : Int) :
    Option GimpBlendTool :=
  match freeze_gradient bt with
  | none => none
  | some bt1 =>
      match bt1.gradient, handle_get_segment bt1 slider with
      | some g1, some (some seg) =>
          if seg + 1 < g1.segments.length then
            match gimp_gradient_segment_range_merge g1.segments seg (seg + 1) with
            | none => none
            | some segments =>
                thaw_gradient dflt { bt1 with gradient := some { g1 with segments := segments } }
          else none
      | _, _ => none

/-- The function `gimp_blend_tool_editor_line_selection_changed` (the colour
dialogs it closes are not modelled). -/
def line_selection_changed (bt : GimpBlendTool) : Option GimpBlendTool :=
  update_gui bt

/-- Modelled from the spec: `set_selection(index)` of the line widget stores
the selection and emits `selection_changed`, which the editor handles with
`line_selection_changed`. -/
def gimp_tool_line_set_selection (bt : GimpBlendTool) (handle : Int) : Option GimpBlendTool :=
  match bt.widget with
  | none => none
  | some line =>
      line_selection_changed { bt with widget := some { line with selection := handle } }

/-- The function `gimp_blend_tool_editor_gradient_dirty`. -/
def gradient_dirty (dflt : GimpControllerSlider) (bt : GimpBlendTool) : Option GimpBlendTool :=
  if are_handlers_blocked bt then some bt
  else
    match bt.widget with
    | none => some bt
    | some _ =>
        match update_sliders dflt bt with
        | none => none
        | some bt1 => gimp_tool_line_set_selection bt1 GIMP_TOOL_LINE_HANDLE_NONE

/-- The enumeration `Direction` of the colour entries. -/
inductive Direction where
  | DIRECTION_NONE
  | DIRECTION_LEFT
  | DIRECTION_RIGHT
  deriving DecidableEq, Repr

/-- The common tail of the two colour handlers: with the gradient frozen, swap
the endpoint handles when the gradient is reversed, fetch the segment of the
selection and apply `set_left` to its left end (`START`), `set_right` to its
right end (`END`), or, for a stop, `set_right` to the segment and `set_left`
to its next segment as `direction` and the chain button say; then thaw. -/
def color_entry_apply (dflt : GimpControllerSlider) (bt : GimpBlendTool)
    (set_left set_right : GimpGradientSegment → GimpGradientSegment)
    (direction : Direction) (chain_active : Bool) : Option GimpBlendTool :=
  match bt.widget with
  | none => none
  | some line =>
      let selection := line.selection
      match freeze_gradient bt with
      | none => none
      | some bt1 =>
          let selection :=
            if bt1.options.gradient_reverse then
              (if selection = GIMP_TOOL_LINE_HANDLE_START then GIMP_TOOL_LINE_HANDLE_END
               else if selection = GIMP_TOOL_LINE_HANDLE_END then GIMP_TOOL_LINE_HANDLE_START
               else selection)
            else selection
          match bt1.gradient, handle_get_segment bt1 selection with
          | some g1, some (some p) =>
              match g1.segments[p]? with
              | none => none
              | some seg =>
                  let segments? : Option (List GimpGradientSegment) :=
                    if selection = GIMP_TOOL_LINE_HANDLE_START then
                      some (g1.segments.set p (set_left seg))
                    else if selection = GIMP_TOOL_LINE_HANDLE_END then
                      some (g1.segments.set p (set_right seg))
                    else
                      let segs1 :=
                        if direction = Direction.DIRECTION_LEFT ∨ chain_active = true then
                          g1.segments.set p (set_right seg)
                        else g1.segments
                      if direction = Direction.DIRECTION_RIGHT ∨ chain_active = true then
                        match segs1[p + 1]? with
                        | none => none
                        | some nxt => some (segs1.set (p + 1) (set_left nxt))
                      else some segs1
                  match segments? with
                  | none => none
                  | some segments =>
                      thaw_gradient dflt
                        { bt1 with gradient := some { g1 with segments := segments } }
          | _, _ => none

/-- The function `gimp_blend_tool_editor_color_entry_color_changed`; `color`
is the colour of the button, `direction` and `chain_active` are the data
attached to it (`chain_active` is "there is a chain button and it is
active"). -/
def color_entry_color_changed (dflt : GimpControllerSlider) (bt : GimpBlendTool)
    (color : GimpRGB) (direction : Direction) (chain_active : Bool) : Option GimpBlendTool :=
  if are_handlers_blocked bt then some bt
  else
    color_entry_apply dflt bt
      (fun seg => { seg with left_color := color,
                             left_color_type := GimpGradientColor.FIXED })
      (fun seg => { seg with right_color := color,
                             right_color_type := GimpGradientColor.FIXED })
      direction chain_active

/-- The function `gimp_blend_tool_editor_color_entry_type_changed`;
`color_type` is the active entry of the combo box, `none` when it has none. -/
def color_entry_type_changed (dflt : GimpControllerSlider) (bt : GimpBlendTool)
    (color_type : Option GimpGradientColor) (direction : Direction) (chain_active : Bool) :
    Option GimpBlendTool :=
  if are_handlers_blocked bt then some bt
  else
    match bt.widget, color_type with
    | none, _ => none
    | some _, none => some bt
    | some _, some color_type =>
        color_entry_apply dflt bt
          (fun seg => { seg with left_color_type := color_type })
          (fun seg => { seg with right_color_type := color_type })
          direction chain_active

/-- The function `gimp_blend_tool_editor_endpoint_se_value_changed`; `x` and
`y` are the two values of the size entry. -/
def endpoint_se_value_changed (bt : GimpBlendTool) (x y : ℚ) : Option GimpBlendTool :=
  if are_handlers_blocked bt then some bt
  else
    match bt.widget with
    | none => none
    | some line =>
        let selection := line.selection
        let bt1 := block_handlers bt
        if selection = GIMP_TOOL_LINE_HANDLE_START then
          unblock_handlers { bt1 with widget := some { line with x1 := x, y1 := y } }
        else if selection = GIMP_TOOL_LINE_HANDLE_END then
          unblock_handlers { bt1 with widget := some { line with x2 := x, y2 := y } }
        else none

/-- The kind of a button press (`GimpButtonPressType`, display/display-enums.h);
the editor names only `GIMP_BUTTON_PRESS_DOUBLE`. -/
inductive GimpButtonPressType where
  | NORMAL
  | DOUBLE
  | TRIPLE
  deriving DecidableEq, Repr

/-- The function `gimp_blend_tool_editor_line_handle_clicked`: the tool after
the click and the returned `gboolean` (always FALSE).  `line` is the widget of
the tool; the modifier state is not read.  A double press on a midpoint of an
editable gradient whose value is further than `EPSILON` from both of its limits
calls `add_stop` with `sliders[handle].value` and selects the returned stop.
Without a widget `n_sliders` is never set, and reading past the end of the
slider array has no defined result (`none`). -/
def line_handle_clicked (dflt : GimpControllerSlider) (bt : GimpBlendTool) (handle : Int)
    (press_type : GimpButtonPressType) : Option (GimpBlendTool × Bool) :=
  match handle_is_midpoint bt handle, bt.widget with
  | some true, some line =>
      if press_type = GimpButtonPressType.DOUBLE ∧ is_gradient_editable bt = true then
        match line.sliders[handle.toNat]? with
        | none => none
        | some slider =>
            if slider.value > slider.min + EPSILON ∧ slider.value < slider.max - EPSILON then
              match add_stop dflt bt slider.value with
              | none => none
              | some (bt1, stop) =>
                  match gimp_tool_line_set_selection bt1 stop with
                  | none => none
                  | some bt2 => some (bt2, false)
            else some (bt, false)
      else some (bt, false)
  | some false, _ => some (bt, false)
  | _, _ => none

/-! ## The edit rules in the words of the spec (`ApplySliderEdit`) -/

/-- The spec's midpoint edit: "set `segment.middle = value` directly", skipped
"when `|value - current| ≤ EPSILON`". -/
def spec_apply_midpoint_edit (seg : GimpGradientSegment) (value : ℚ) : GimpGradientSegment :=
  if |value - seg.middle| ≤ EPSILON then seg else { seg with middle := value }

/-- The spec's midpoint pass: the midpoint edit of every segment, with the
values of the midpoint sliders in segment order. -/
def spec_midpoint_pass : List ℚ → List GimpGradientSegment → List GimpGradientSegment
  | value :: values, seg :: rest =>
      spec_apply_midpoint_edit seg value :: spec_midpoint_pass values rest
  | _, segments => segments

/-- The spec's stop pass: for every boundary in segment order, with the values
of the stop sliders, "compress the left segment's range to `[left, value]` and
the right segment's range to `[value, right]`", skipped "when
`|value - current| ≤ EPSILON`". -/
def spec_stop_pass : List ℚ → List GimpGradientSegment → List GimpGradientSegment
  | value :: values, seg :: nxt :: rest =>
      if |value - seg.right| ≤ EPSILON then seg :: spec_stop_pass values (nxt :: rest)
      else
        gimp_gradient_segment_range_compress seg seg.left value ::
          spec_stop_pass values
            (gimp_gradient_segment_range_compress nxt value nxt.right :: rest)
  | _, segments => segments

/-- Whether some midpoint moved: some value of the list is further than
`EPSILON` from the middle of its segment. -/
def any_midpoint_moved : List ℚ → List GimpGradientSegment → Bool
  | value :: values, seg :: rest =>
      decide (|value - seg.middle| > EPSILON) || any_midpoint_moved values rest
  | _, _ => false

/-- Whether some stop moved: some value of the list is further than `EPSILON`
from the right end of its segment. -/
def any_stop_moved : List ℚ → List GimpGradientSegment → Bool
  | value :: values, seg :: nxt :: rest =>
      decide (|value - seg.right| > EPSILON) || any_stop_moved values (nxt :: rest)
  | _, _ => false

/-- The converted values of a slider array (`slider_value_to_segment` of each
slider value). -/
def segment_values (offset : ℚ) (reverse : Bool) (sliders : List GimpControllerSlider) :
    List ℚ :=
  sliders.map (fun slider => slider_value_to_segment offset reverse slider.value)

/-- The slider array carries the segment indices `update_sliders` stored in
it (`data`), for a chain of `n_segments` segments: `i` for the stop `i`, `k`
for the midpoint at index `n_segments - 1 + k`.  Dragging a slider changes its
value, not its `data`. -/
def SlidersInSync (n_segments : Nat) (sliders : List GimpControllerSlider) : Prop :=
  sliders.length = 2 * n_segments - 1 ∧
  ∀ (i : Nat) (slider : GimpControllerSlider), sliders[i]? = some slider →
    slider.data = if i < n_segments - 1 then (i : Int) else ((i - (n_segments - 1) : Nat) : Int)

/-! ## Double arithmetic

The definitions above compute with exact rationals.  The program computes with
`gdouble`: every operation is rounded to IEEE 754 binary64, to nearest with
ties to even.  This section has that rounding, and with it the two conversions
between segment values and slider values and the test of the midpoint loop of
`line_changed`. -/

/-- The exponent `e` with `2^52 ≤ a / 2^e < 2^53` for a positive `a`, searched
from `e` in steps of one, `fuel` steps at most. -/
def double_exponent : Nat → ℚ → Int → Int
  | 0, _, e => e
  | fuel + 1, a, e =>
      if a < 2 ^ 52 * 2 ^ e then double_exponent fuel a (e - 1)
      else if 2 ^ 53 * 2 ^ e ≤ a then double_exponent fuel a (e + 1)
      else e

/-- The binary64 number nearest to `x`, ties to even: a significand of 53 bits
times a power of two.  Overflow and subnormal numbers are left out (every
value below lies between `1e-11` and `100`). -/
def double_round (x : ℚ) : ℚ :=
  if x = 0 then 0
  else
    let a := |x|
    let e := double_exponent 1100 a 0
    let q : ℚ := a / 2 ^ e
    let m : Int := ⌊q⌋
    let r : ℚ := q - m
    let m1 : Int := if r > 1 / 2 ∨ (r = 1 / 2 ∧ m % 2 = 1) then m + 1 else m
    let y : ℚ := m1 * 2 ^ e
    if x > 0 then y else -y

/-- The constant `EPSILON` as the program has it: the double of the literal
`1e-10`. -/
def EPSILON_double : ℚ := double_round (1 / 10000000000)

/-- The local `offset = options->offset / 100.0` of `update_sliders` and
`line_changed`, for the double `percent`. -/
def offset_double (percent : ℚ) : ℚ :=
  double_round (percent / 100)

/-- The value `update_sliders` stores in a slider, in doubles: the reversal
`1.0 - value` when the gradient is reversed, then the offset step
`(1.0 - offset) * value + offset`. -/
def slider_value_double (offset : ℚ) (reverse : Bool) (value : ℚ) : ℚ :=
  let value := if reverse then double_round (1 - value) else value
  double_round (double_round (double_round (1 - offset) * value) + offset)

/-- The conversion of `line_changed` (and `line_add_slider`) in doubles:
`value = (value - offset) / (1.0 - offset)`, then `value = 1.0 - value` when
the gradient is reversed. -/
def slider_value_to_segment_double (offset : ℚ) (reverse : Bool) (value : ℚ) : ℚ :=
  let value := double_round (double_round (value - offset) / double_round (1 - offset))
  if reverse then double_round (1 - value) else value

/-- The test of the midpoint loop of `line_changed` in doubles, for the slider
value `value` and the middle `middle` of the segment:
`fabs (value - seg->middle) > EPSILON` after the conversion. -/
def midpoint_moved_double (offset : ℚ) (reverse : Bool) (value middle : ℚ) : Bool :=
  decide (|double_round (slider_value_to_segment_double offset reverse value - middle)|
    > EPSILON_double)

/-! ## The data-model invariant of a segment chain -/

/-- A valid chain: the first segment starts at `0`, the last one ends at `1`,
`left ≤ middle ≤ right` in each segment, and each segment ends where the next
one starts. -/
def ValidChain (segments : List GimpGradientSegment) : Prop :=
  segments.head?.map (fun seg => seg.left) = some 0 ∧
  segments.getLast?.map (fun seg => seg.right) = some 1 ∧
  (∀ seg ∈ segments, seg.left ≤ seg.middle ∧ seg.middle ≤ seg.right) ∧
  segments.Chain' (fun seg nxt => seg.right = nxt.left)

instance (segments : List GimpGradientSegment) : Decidable (ValidChain segments) := by
  unfold ValidChain
  infer_instance

/-! ## Fixtures for the concrete instances -/

/-- A sample value of the parameter `dflt` (`GIMP_CONTROLLER_SLIDER_DEFAULT`). -/
def sample_slider_default : GimpControllerSlider :=
  { value := 0
    min := 0
    max := 1
    visible := true
    movable := true
    removable := false
    autohide := false
    type := GimpHandleType.CIRCLE
    size := 1
    data := 0 }

/-- The single segment `[0, 1]` with middle `0.5`. -/
def chain_one : List GimpGradientSegment :=
  [{ left := 0, middle := 1 / 2, right := 1 }]

/-- Two equal segments `[0, 0.5]`, `[0.5, 1]`. -/
def chain_two : List GimpGradientSegment :=
  [{ left := 0, middle := 1 / 4, right := 1 / 2 },
   { left := 1 / 2, middle := 3 / 4, right := 1 }]

/-- Three segments `[0, 0.25]`, `[0.25, 0.5]`, `[0.5, 1]`. -/
def chain_three : List GimpGradientSegment :=
  [{ left := 0, middle := 1 / 8, right := 1 / 4 },
   { left := 1 / 4, middle := 3 / 8, right := 1 / 2 },
   { left := 1 / 2, middle := 3 / 4, right := 1 }]

/-- A tool state over `chain_three`: reversed, offset 25 percent, the widget
holding the slider array of the chain, nothing selected. -/
def sample_tool : GimpBlendTool :=
  { options := { offset := 25, instant := false, modify_active := false,
                 gradient_reverse := true }
    gradient := some { segments := chain_three, writable := false, freeze_count := 0 }
    gradient_is_custom := false
    custom := { segments := chain_one, writable := true, freeze_count := 0 }
    widget := some
      { sliders := update_sliders_array sample_slider_default true (25 / 100) true chain_three
        selection := GIMP_TOOL_LINE_HANDLE_NONE
        x1 := 0
        y1 := 0
        x2 := 100
        y2 := 0 }
    gui := none
    block_handlers_count := 0 }

/-- A drag of slider `i` of the line widget to `value`: the widget changes the
value of that slider and nothing else. -/
def drag_slider (sliders : List GimpControllerSlider) (i : Nat) (value : ℚ) :
    List GimpControllerSlider :=
  match sliders[i]? with
  | none => sliders
  | some slider => sliders.set i { slider with value := value }

/-- The slider array of `chain_three` with offset 0, not reversed. -/
def built_sliders : List GimpControllerSlider :=
  update_sliders_array sample_slider_default true 0 false chain_three

/-- A tool over `chain_three` with offset 0, not reversed, handlers not
blocked, nothing selected, the widget holding `sliders`. -/
def plain_tool (sliders : List GimpControllerSlider) : GimpBlendTool :=
  { options := { offset := 0, instant := false, modify_active := false,
                 gradient_reverse := false }
    gradient := some { segments := chain_three, writable := false, freeze_count := 0 }
    gradient_is_custom := false
    custom := { segments := chain_one, writable := true, freeze_count := 0 }
    widget := some
      { sliders := sliders
        selection := GIMP_TOOL_LINE_HANDLE_NONE
        x1 := 0
        y1 := 0
        x2 := 100
        y2 := 0 }
    gui := none
    block_handlers_count := 0 }

/-- The sample tool with the offset at 100 percent (`offset == 1.0`). -/
def degenerate_offset_tool : GimpBlendTool :=
  { sample_tool with options := { sample_tool.options with offset := 100 } }

/-- The sample tool with the handlers blocked once. -/
def blocked_tool : GimpBlendTool :=
  { sample_tool with block_handlers_count := 1 }

/-- The sample tool (reversed, offset 25 percent) with the start endpoint
selected. -/
def start_selected_tool : GimpBlendTool :=
  { sample_tool with
    widget := some
      { sliders := update_sliders_array sample_slider_default true (25 / 100) true chain_three
        selection := GIMP_TOOL_LINE_HANDLE_START
        x1 := 0
        y1 := 0
        x2 := 100
        y2 := 0 } }

/-- A colour for the colour entries: opaque red. -/
def sample_color : GimpRGB :=
  { r := 1, g := 0, b := 0, a := 1 }

/-! ## The slider array: structure lemmas -/

theorem stop_sliders_length (dflt : GimpControllerSlider) (editable : Bool) :
    ∀ (segments : List GimpGradientSegment) (i : Int),
      (stop_sliders dflt editable segments i).length = segments.length - 1
  | [], _ => by simp [stop_sliders]
  | [_], _ => by simp [stop_sliders]
  | _ :: nxt :: rest, i => by
      have ih := stop_sliders_length dflt editable (nxt :: rest) (i + 1)
      simp [stop_sliders, ih]

theorem midpoint_sliders_length (dflt : GimpControllerSlider) (editable : Bool) :
    ∀ (segments : List GimpGradientSegment) (i : Int),
      (midpoint_sliders dflt editable segments i).length = segments.length
  | [], _ => by simp [midpoint_sliders]
  | _ :: rest, i => by
      have ih := midpoint_sliders_length dflt editable rest (i + 1)
      simp [midpoint_sliders, ih]

theorem stop_sliders_getElem? (dflt : GimpControllerSlider) (editable : Bool) :
    ∀ (segments : List GimpGradientSegment) (i : Int) (j : Nat)
      (seg nxt : GimpGradientSegment),
      segments[j]? = some seg → segments[j + 1]? = some nxt →
      (stop_sliders dflt editable segments i)[j]?
        = some (stop_slider dflt editable seg nxt (i + j))
  | [], _, _, _, _ => by simp
  | [_], _, j, _, _ => by
      intro _ h
      simp at h
  | s :: n :: rest, i, 0, seg, nxt => by
      intro h1 h2
      simp at h1 h2
      subst h1 h2
      simp [stop_sliders]
  | s :: n :: rest, i, j + 1, seg, nxt => by
      intro h1 h2
      have h1' : (n :: rest)[j]? = some seg := by simpa using h1
      have h2' : (n :: rest)[j + 1]? = some nxt := by simpa using h2
      have ih := stop_sliders_getElem? dflt editable (n :: rest) (i + 1) j seg nxt h1' h2'
      simp only [stop_sliders, List.getElem?_cons_succ, ih]
      congr 2
      push_cast
      ring

theorem midpoint_sliders_getElem? (dflt : GimpControllerSlider) (editable : Bool) :
    ∀ (segments : List GimpGradientSegment) (i : Int) (j : Nat)
      (seg : GimpGradientSegment),
      segments[j]? = some seg →
      (midpoint_sliders dflt editable segments i)[j]?
        = some (midpoint_slider dflt editable seg (i + j))
  | [], _, _, _ => by simp
  | s :: rest, i, 0, seg => by
      intro h1
      simp at h1
      subst h1
      simp [midpoint_sliders]
  | s :: rest, i, j + 1, seg => by
      intro h1
      have h1' : rest[j]? = some seg := by simpa using h1
      have ih := midpoint_sliders_getElem? dflt editable rest (i + 1) j seg h1'
      simp only [midpoint_sliders, List.getElem?_cons_succ, ih]
      congr 2
      push_cast
      ring

theorem initial_sliders_length (dflt : GimpControllerSlider) (editable : Bool)
    (segments : List GimpGradientSegment) :
    (initial_sliders dflt editable segments).length
      = (segments.length - 1) + segments.length := by
  simp [initial_sliders, stop_sliders_length, midpoint_sliders_length]

theorem initial_sliders_stop (dflt : GimpControllerSlider) (editable : Bool)
    (segments : List GimpGradientSegment) (i : Nat) (seg nxt : GimpGradientSegment)
    (h1 : segments[i]? = some seg) (h2 : segments[i + 1]? = some nxt) :
    (initial_sliders dflt editable segments)[i]?
      = some (stop_slider dflt editable seg nxt i) := by
  have hlt : i + 1 < segments.length := by
    rcases List.getElem?_eq_some_iff.mp h2 with ⟨h, _⟩
    exact h
  have hi : i < (stop_sliders dflt editable segments 0).length := by
    rw [stop_sliders_length]; omega
  have := stop_sliders_getElem? dflt editable segments 0 i seg nxt h1 h2
  rw [initial_sliders, List.getElem?_append_left hi, this]
  simp

theorem initial_sliders_midpoint (dflt : GimpControllerSlider) (editable : Bool)
    (segments : List GimpGradientSegment) (k : Nat) (seg : GimpGradientSegment)
    (h1 : segments[k]? = some seg) :
    (initial_sliders dflt editable segments)[segments.length - 1 + k]?
      = some (midpoint_slider dflt editable seg k) := by
  have hle : (stop_sliders dflt editable segments 0).length ≤ segments.length - 1 + k := by
    rw [stop_sliders_length]; omega
  have := midpoint_sliders_getElem? dflt editable segments 0 k seg h1
  rw [initial_sliders, List.getElem?_append_right hle, stop_sliders_length]
  simpa using this

theorem update_sliders_array_length (dflt : GimpControllerSlider) (editable : Bool)
    (offset : ℚ) (reverse : Bool) (segments : List GimpGradientSegment) :
    (update_sliders_array dflt editable offset reverse segments).length
      = (segments.length - 1) + segments.length := by
  cases reverse <;>
    simp [update_sliders_array, reversed_sliders, initial_sliders_length]

theorem update_sliders_array_getElem? (dflt : GimpControllerSlider) (editable : Bool)
    (offset : ℚ) (reverse : Bool) (segments : List GimpGradientSegment) (i : Nat) :
    (update_sliders_array dflt editable offset reverse segments)[i]?
      = ((initial_sliders dflt editable segments)[i]?).map
          (fun s => offset_slider offset (if reverse then flip_slider s else s)) := by
  cases reverse <;>
    simp [update_sliders_array, reversed_sliders, List.getElem?_map, Option.map_map,
      Function.comp_def]

/-! ## The claims on the slider array -/

/-- C1: round trip of the offset/reversal transform.  For every offset in
`[0, 1)` and every reversed flag, the inverse used by `line_changed` and
`line_add_slider` (`slider_value_to_segment`) applied to the slider value that
the reversal and offset steps of `update_sliders` produce from a value `v` in
`[0, 1]` gives back `v` exactly; and in the array built from any chain, the
inverse of each slider value is the value the slider had before the two
steps. -/
theorem slider_value_round_trip (offset : ℚ) (reverse : Bool)
    (hoff : 0 ≤ offset ∧ offset < 1) :
    (∀ s : GimpControllerSlider, 0 ≤ s.value → s.value ≤ 1 →
      slider_value_to_segment offset reverse
        (offset_slider offset (if reverse then flip_slider s else s)).value = s.value) ∧
    (∀ (dflt : GimpControllerSlider) (editable : Bool)
        (segments : List GimpGradientSegment) (i : Nat) (t : GimpControllerSlider),
      (update_sliders_array dflt editable offset reverse segments)[i]? = some t →
      ∃ u, (initial_sliders dflt editable segments)[i]? = some u ∧
        slider_value_to_segment offset reverse t.value = u.value) := by
  have hne : (1 : ℚ) - offset ≠ 0 := by
    have := hoff.2
    intro h
    linarith
  have key : ∀ s : GimpControllerSlider,
      slider_value_to_segment offset reverse
        (offset_slider offset (if reverse then flip_slider s else s)).value = s.value := by
    intro s
    cases reverse
    · simp only [slider_value_to_segment, offset_slider, Bool.false_eq_true, if_false]
      field_simp
    · simp only [slider_value_to_segment, offset_slider, flip_slider, if_true]
      field_simp
  refine ⟨fun s _ _ => key s, ?_⟩
  intro dflt editable segments i t ht
  rw [update_sliders_array_getElem?] at ht
  cases hu : (initial_sliders dflt editable segments)[i]? with
  | none => simp [hu] at ht
  | some u =>
      refine ⟨u, rfl, ?_⟩
      simp only [hu, Option.map_some', Option.some.injEq] at ht
      rw [← ht]
      exact key u

/-- C1, a concrete instance: offset `0.25`, reversed, the sample slider. -/
theorem slider_value_round_trip_witness :
    (0 ≤ (1 / 4 : ℚ) ∧ (1 / 4 : ℚ) < 1) ∧
    slider_value_to_segment (1 / 4) true
      (offset_slider (1 / 4) (if true then flip_slider sample_slider_default
        else sample_slider_default)).value = sample_slider_default.value :=
  ⟨⟨by norm_num, by norm_num⟩,
   (slider_value_round_trip (1 / 4) true ⟨by norm_num, by norm_num⟩).1
     sample_slider_default (by simp [sample_slider_default])
     (by simp [sample_slider_default])⟩

/-- C2: for a chain of `N ≥ 1` segments the array built by `update_sliders`
has exactly `2N - 1` entries; entry `i` for `i < N - 1` is the gradient-stop
slider of the adjacent pair (segment `i`, segment `i + 1`), and entry
`N - 1 + k` is the midpoint slider of segment `k`, each after the reversal and
offset steps. -/
theorem update_sliders_array_layout (dflt : GimpControllerSlider) (editable : Bool)
    (offset : ℚ) (reverse : Bool) (segments : List GimpGradientSegment)
    (hN : 1 ≤ segments.length) :
    (update_sliders_array dflt editable offset reverse segments).length
      = 2 * segments.length - 1 ∧
    (∀ (i : Nat) (seg nxt : GimpGradientSegment),
      segments[i]? = some seg → segments[i + 1]? = some nxt →
      (update_sliders_array dflt editable offset reverse segments)[i]?
        = some (offset_slider offset
            (if reverse then flip_slider (stop_slider dflt editable seg nxt i)
             else stop_slider dflt editable seg nxt i))) ∧
    (∀ (k : Nat) (seg : GimpGradientSegment),
      segments[k]? = some seg →
      (update_sliders_array dflt editable offset reverse segments)[segments.length - 1 + k]?
        = some (offset_slider offset
            (if reverse then flip_slider (midpoint_slider dflt editable seg k)
             else midpoint_slider dflt editable seg k))) := by
  refine ⟨?_, ?_, ?_⟩
  · rw [update_sliders_array_length]; omega
  · intro i seg nxt h1 h2
    rw [update_sliders_array_getElem?, initial_sliders_stop dflt editable segments i seg nxt h1 h2]
    rfl
  · intro k seg h1
    rw [update_sliders_array_getElem?, initial_sliders_midpoint dflt editable segments k seg h1]
    rfl

/-- C2, a concrete instance: the three-segment chain has five sliders. -/
theorem update_sliders_array_layout_witness :
    1 ≤ chain_three.length ∧
    (update_sliders_array sample_slider_default true (1 / 4) true chain_three).length
      = 2 * chain_three.length - 1 :=
  ⟨by decide,
   (update_sliders_array_layout sample_slider_default true (1 / 4) true chain_three
     (by decide)).1⟩

/-- C3: with `reversed = false` and `offset = 0`, the stop slider at index `i`
(`i < N - 1`) has `value = segment[i].right`, `min = segment[i].left` and
`max = segment[i+1].right`. -/
theorem stop_slider_fields (dflt : GimpControllerSlider) (editable : Bool)
    (segments : List GimpGradientSegment) (i : Nat) (seg nxt : GimpGradientSegment)
    (h1 : segments[i]? = some seg) (h2 : segments[i + 1]? = some nxt) :
    ∃ s, (update_sliders_array dflt editable 0 false segments)[i]? = some s ∧
      s.value = seg.right ∧ s.min = seg.left ∧ s.max = nxt.right := by
  rw [update_sliders_array_getElem?, initial_sliders_stop dflt editable segments i seg nxt h1 h2]
  refine ⟨_, rfl, ?_, ?_, ?_⟩ <;> simp [offset_slider, stop_slider]

/-- C3, a concrete instance: the stop between the two segments of `chain_two`. -/
theorem stop_slider_fields_witness :
    ∃ s, (update_sliders_array sample_slider_default true 0 false chain_two)[0]? = some s ∧
      s.value = 1 / 2 ∧ s.min = 0 ∧ s.max = 1 :=
  stop_slider_fields sample_slider_default true chain_two 0
    { left := 0, middle := 1 / 4, right := 1 / 2 }
    { left := 1 / 2, middle := 3 / 4, right := 1 } rfl rfl

/-- C4: with `reversed = false` and `offset = 0`, the midpoint slider at index
`N - 1 + k` has `value = segment[k].middle`, `min = segment[k].left` and
`max = segment[k].right`; for every offset and reversed flag it is invisible
exactly when `|segment[k].right - segment[k].left| ≤ EPSILON`, so the midpoint
of a zero-length segment is always invisible. -/
theorem midpoint_slider_fields (dflt : GimpControllerSlider) (editable : Bool)
    (segments : List GimpGradientSegment) (k : Nat) (seg : GimpGradientSegment)
    (h1 : segments[k]? = some seg) :
    (∃ s, (update_sliders_array dflt editable 0 false segments)[segments.length - 1 + k]?
        = some s ∧
      s.value = seg.middle ∧ s.min = seg.left ∧ s.max = seg.right) ∧
    (∀ (offset : ℚ) (reverse : Bool),
      ∃ s, (update_sliders_array dflt editable offset reverse segments)[segments.length - 1 + k]?
          = some s ∧
        (s.visible = false ↔ |seg.right - seg.left| ≤ EPSILON) ∧
        (seg.left = seg.middle ∧ seg.middle = seg.right → s.visible = false)) := by
  constructor
  · rw [update_sliders_array_getElem?, initial_sliders_midpoint dflt editable segments k seg h1]
    refine ⟨_, rfl, ?_, ?_, ?_⟩ <;> simp [offset_slider, midpoint_slider]
  · intro offset reverse
    rw [update_sliders_array_getElem?, initial_sliders_midpoint dflt editable segments k seg h1]
    refine ⟨_, rfl, ?_, ?_⟩
    · cases reverse <;> simp [offset_slider, flip_slider, midpoint_slider]
    · rintro ⟨hlm, hmr⟩
      have hz : seg.right - seg.left = 0 := by rw [hlm, hmr]; ring
      cases reverse <;> simp [offset_slider, flip_slider, midpoint_slider, hz, EPSILON]

/-- C4, a concrete instance: the midpoint of the second segment of `chain_two`. -/
theorem midpoint_slider_fields_witness :
    ∃ s, (update_sliders_array sample_slider_default true 0 false chain_two)[chain_two.length - 1 + 1]?
        = some s ∧
      s.value = 3 / 4 ∧ s.min = 1 / 2 ∧ s.max = 1 :=
  (midpoint_slider_fields sample_slider_default true chain_two 1
    { left := 1 / 2, middle := 3 / 4, right := 1 } rfl).1

/-- C5: with `reversed = true` and `offset = 0`, every slider of the built
array has `value = 1 - v`, `min = 1 - oldMax` and `max = 1 - oldMin`, where
`v`, `oldMin`, `oldMax` are the fields of the same slider built with
`reversed = false`; for two equal segments `[0, 0.5]`, `[0.5, 1]` the stop
slider keeps `value = 0.5`, `min = 0`, `max = 1`. -/
theorem reversed_slider_fields (dflt : GimpControllerSlider) (editable : Bool)
    (segments : List GimpGradientSegment) :
    (update_sliders_array dflt editable 0 true segments).length
      = (update_sliders_array dflt editable 0 false segments).length ∧
    (∀ (i : Nat) (s0 : GimpControllerSlider),
      (update_sliders_array dflt editable 0 false segments)[i]? = some s0 →
      ∃ s1, (update_sliders_array dflt editable 0 true segments)[i]? = some s1 ∧
        s1.value = 1 - s0.value ∧ s1.min = 1 - s0.max ∧ s1.max = 1 - s0.min) ∧
    (∃ s, (update_sliders_array dflt editable 0 true chain_two)[0]? = some s ∧
      s.value = 1 / 2 ∧ s.min = 0 ∧ s.max = 1) := by
  refine ⟨?_, ?_, ?_⟩
  · simp [update_sliders_array_length]
  · intro i s0 h0
    rw [update_sliders_array_getElem?] at h0
    rw [update_sliders_array_getElem?]
    cases hu : (initial_sliders dflt editable segments)[i]? with
    | none => simp [hu] at h0
    | some u =>
        simp only [hu, Option.map_some', Option.some.injEq] at h0
        subst h0
        refine ⟨_, rfl, ?_, ?_, ?_⟩ <;> simp [offset_slider, flip_slider]
  · refine ⟨offset_slider 0 (flip_slider (stop_slider dflt editable
        { left := 0, middle := 1 / 4, right := 1 / 2 }
        { left := 1 / 2, middle := 3 / 4, right := 1 } 0)), rfl, ?_, ?_, ?_⟩ <;>
      norm_num [offset_slider, flip_slider, stop_slider]

/-- C5, a concrete instance: the midpoint of the first segment of `chain_two`
(index 1) goes from `0.25` in `[0, 0.5]` to `0.75` in `[0.5, 1]`. -/
theorem reversed_slider_fields_witness :
    ∃ s1, (update_sliders_array sample_slider_default true 0 true chain_two)[1]? = some s1 ∧
      s1.value = 1 - (midpoint_slider sample_slider_default true
          { left := 0, middle := 1 / 4, right := 1 / 2 } 0).value ∧
      s1.min = 1 - (1 / 2 : ℚ) ∧ s1.max = 1 - (0 : ℚ) := by
  have h := (reversed_slider_fields sample_slider_default true chain_two).2.1 1
    (offset_slider 0 (midpoint_slider sample_slider_default true
      { left := 0, middle := 1 / 4, right := 1 / 2 } 0)) rfl
  obtain ⟨s1, h1, h2, h3, h4⟩ := h
  refine ⟨s1, h1, ?_, ?_, ?_⟩
  · rw [h2]; simp [offset_slider]
  · rw [h3]; simp [offset_slider, midpoint_slider]
  · rw [h4]; simp [offset_slider, midpoint_slider]

/-- C6: for every offset and reversed flag, `value`, `min` and `max` of every
slider of the built array are `(1 - offset) * x + offset`, where `x` is the
same field of the same slider after the reversal step (the offset remap comes
last); for the single segment `[0, 1]` with middle `0.5` and `offset = 0.25`
the midpoint slider has `value = 0.625`, `min = 0.25`, `max = 1`. -/
theorem offset_remap_fields (dflt : GimpControllerSlider) (editable : Bool)
    (offset : ℚ) (reverse : Bool) (segments : List GimpGradientSegment) :
    (update_sliders_array dflt editable offset reverse segments).length
      = (reversed_sliders dflt editable reverse segments).length ∧
    (∀ (i : Nat) (x : GimpControllerSlider),
      (reversed_sliders dflt editable reverse segments)[i]? = some x →
      ∃ s, (update_sliders_array dflt editable offset reverse segments)[i]? = some s ∧
        s.value = (1 - offset) * x.value + offset ∧
        s.min = (1 - offset) * x.min + offset ∧
        s.max = (1 - offset) * x.max + offset) ∧
    (∃ s, (update_sliders_array dflt editable (1 / 4) false chain_one)[0]? = some s ∧
      s.value = 5 / 8 ∧ s.min = 1 / 4 ∧ s.max = 1) := by
  refine ⟨?_, ?_, ?_⟩
  · simp [update_sliders_array]
  · intro i x hx
    refine ⟨offset_slider offset x, ?_, rfl, rfl, rfl⟩
    simp [update_sliders_array, List.getElem?_map, hx]
  · refine ⟨offset_slider (1 / 4) (midpoint_slider dflt editable
        { left := 0, middle := 1 / 2, right := 1 } 0), rfl, ?_, ?_, ?_⟩ <;>
      norm_num [offset_slider, midpoint_slider]

/-- C6, a concrete instance: the stop slider of `chain_two`, reversed, with
`offset = 0.5`. -/
theorem offset_remap_fields_witness :
    ∃ s, (update_sliders_array sample_slider_default true (1 / 2) true chain_two)[0]? = some s ∧
      s.value = (1 - 1 / 2) * (1 - 1 / 2 : ℚ) + 1 / 2 := by
  have h := (offset_remap_fields sample_slider_default true (1 / 2) true chain_two).2.1 0
    (flip_slider (stop_slider sample_slider_default true
      { left := 0, middle := 1 / 4, right := 1 / 2 }
      { left := 1 / 2, middle := 3 / 4, right := 1 } 0)) rfl
  obtain ⟨s, h1, h2, _, _⟩ := h
  exact ⟨s, h1, by rw [h2]; simp [flip_slider, stop_slider]⟩

/-! ## Resolving a handle -/

theorem update_sliders_array_data_stop (dflt : GimpControllerSlider) (editable : Bool)
    (offset : ℚ) (reverse : Bool) (segments : List GimpGradientSegment) (i : Nat)
    (hi : i + 1 < segments.length) :
    ∃ s, (update_sliders_array dflt editable offset reverse segments)[i]? = some s ∧
      s.data = i := by
  have h1 : segments[i]? = some (segments[i]) := List.getElem?_eq_getElem (by omega)
  have h2 : segments[i + 1]? = some (segments[i + 1]) := List.getElem?_eq_getElem hi
  rw [update_sliders_array_getElem?, initial_sliders_stop dflt editable segments i _ _ h1 h2]
  refine ⟨_, rfl, ?_⟩
  cases reverse <;> simp [offset_slider, flip_slider, stop_slider]

theorem update_sliders_array_data_midpoint (dflt : GimpControllerSlider) (editable : Bool)
    (offset : ℚ) (reverse : Bool) (segments : List GimpGradientSegment) (k : Nat)
    (hk : k < segments.length) :
    ∃ s, (update_sliders_array dflt editable offset reverse segments)[segments.length - 1 + k]?
        = some s ∧
      s.data = k := by
  have h1 : segments[k]? = some (segments[k]) := List.getElem?_eq_getElem hk
  rw [update_sliders_array_getElem?, initial_sliders_midpoint dflt editable segments k _ h1]
  refine ⟨_, rfl, ?_⟩
  cases reverse <;> simp [offset_slider, flip_slider, midpoint_slider]

theorem gimp_gradient_segment_get_nth_of_lt (segments : List GimpGradientSegment) (k : Nat)
    (hk : k < segments.length) :
    gimp_gradient_segment_get_nth segments (k : Int) = some k := by
  have : (k : Int) < (segments.length : Int) := by exact_mod_cast hk
  simp [gimp_gradient_segment_get_nth, this]

theorem handle_get_segment_slider (bt : GimpBlendTool) (g : GimpGradient)
    (line : GimpToolLine) (k : Nat) (s : GimpControllerSlider)
    (hg : bt.gradient = some g) (hw : bt.widget = some line)
    (hs : line.sliders[k]? = some s) :
    handle_get_segment bt (k : Int) = some (gimp_gradient_segment_get_nth g.segments s.data) := by
  have hk : k < line.sliders.length := by
    rcases List.getElem?_eq_some_iff.mp hs with ⟨h, _⟩
    exact h
  have hk' : (k : Int) < (line.sliders.length : Int) := by exact_mod_cast hk
  have h1 : ¬ ((k : Int) = GIMP_TOOL_LINE_HANDLE_START) := by
    simp only [GIMP_TOOL_LINE_HANDLE_START]; omega
  have h2 : ¬ ((k : Int) = GIMP_TOOL_LINE_HANDLE_END) := by
    simp only [GIMP_TOOL_LINE_HANDLE_END]; omega
  simp [handle_get_segment, hg, hw, h1, h2, hk', hs]

theorem handle_is_stop_natCast (bt : GimpBlendTool) (line : GimpToolLine) (k : Nat)
    (hw : bt.widget = some line) :
    handle_is_stop bt (k : Int) = some (decide (k < line.sliders.length / 2)) := by
  have h : ((k : Int) ≥ 0 ∧ (k : Int) < (line.sliders.length : Int) / 2)
      ↔ k < line.sliders.length / 2 := by
    constructor
    · rintro ⟨_, h⟩
      omega
    · intro h
      constructor <;> omega
  simp only [handle_is_stop, hw, h]

theorem handle_is_midpoint_natCast (bt : GimpBlendTool) (line : GimpToolLine) (k : Nat)
    (hw : bt.widget = some line) :
    handle_is_midpoint bt (k : Int) = some (decide (line.sliders.length / 2 ≤ k)) := by
  have h : ((k : Int) ≥ (line.sliders.length : Int) / 2)
      ↔ line.sliders.length / 2 ≤ k := by
    constructor <;> intro h <;> omega
  simp only [handle_is_midpoint, hw, h]

/-- C7: when the widget holds the slider array built by `update_sliders` from
the current chain, every index `k` below `sliderCount / 2` is a stop, is not a
midpoint, and resolves to the segment at position `k`; every other index
`k < sliderCount` is a midpoint, is not a stop, and resolves to the segment at
position `k - sliderCount / 2`.  For a three-segment chain the count is 5,
index 0 is a stop resolving to segment 0 and indices 2, 3, 4 are midpoints
resolving to segments 0, 1, 2. -/
theorem handle_resolution (dflt : GimpControllerSlider) (editable : Bool) (offset : ℚ)
    (reverse : Bool) (bt : GimpBlendTool) (g : GimpGradient) (line : GimpToolLine)
    (hg : bt.gradient = some g) (hw : bt.widget = some line)
    (hs : line.sliders = update_sliders_array dflt editable offset reverse g.segments) :
    (∀ k : Nat, k < line.sliders.length →
      (k < line.sliders.length / 2 →
        handle_is_stop bt k = some true ∧ handle_is_midpoint bt k = some false ∧
        handle_get_segment bt k = some (some k) ∧ k < g.segments.length) ∧
      (¬ k < line.sliders.length / 2 →
        handle_is_midpoint bt k = some true ∧ handle_is_stop bt k = some false ∧
        handle_get_segment bt k = some (some (k - line.sliders.length / 2)) ∧
        k - line.sliders.length / 2 < g.segments.length)) ∧
    (g.segments.length = 3 →
      line.sliders.length = 5 ∧
      handle_is_stop bt 0 = some true ∧ handle_get_segment bt 0 = some (some 0) ∧
      handle_is_midpoint bt 2 = some true ∧ handle_get_segment bt 2 = some (some 0) ∧
      handle_is_midpoint bt 3 = some true ∧ handle_get_segment bt 3 = some (some 1) ∧
      handle_is_midpoint bt 4 = some true ∧ handle_get_segment bt 4 = some (some 2)) := by
  have hlen : line.sliders.length = (g.segments.length - 1) + g.segments.length := by
    rw [hs, update_sliders_array_length]
  have main : ∀ k : Nat, k < line.sliders.length →
      (k < line.sliders.length / 2 →
        handle_is_stop bt k = some true ∧ handle_is_midpoint bt k = some false ∧
        handle_get_segment bt k = some (some k) ∧ k < g.segments.length) ∧
      (¬ k < line.sliders.length / 2 →
        handle_is_midpoint bt k = some true ∧ handle_is_stop bt k = some false ∧
        handle_get_segment bt k = some (some (k - line.sliders.length / 2)) ∧
        k - line.sliders.length / 2 < g.segments.length) := by
    intro k hk
    have hhalf : line.sliders.length / 2 = g.segments.length - 1 := by omega
    constructor
    · intro hlt
      have hk1 : k + 1 < g.segments.length := by omega
      obtain ⟨s, hsk, hdata⟩ :=
        update_sliders_array_data_stop dflt editable offset reverse g.segments k hk1
      rw [← hs] at hsk
      refine ⟨?_, ?_, ?_, by omega⟩
      · simp [handle_is_stop_natCast bt line k hw, hlt]
      · simp [handle_is_midpoint_natCast bt line k hw, hlt]
      · rw [handle_get_segment_slider bt g line k s hg hw hsk, hdata,
          gimp_gradient_segment_get_nth_of_lt g.segments k (by omega)]
    · intro hge
      have hj : k - line.sliders.length / 2 < g.segments.length := by omega
      obtain ⟨s, hsk, hdata⟩ :=
        update_sliders_array_data_midpoint dflt editable offset reverse g.segments
          (k - line.sliders.length / 2) hj
      have hidx : g.segments.length - 1 + (k - line.sliders.length / 2) = k := by omega
      rw [hidx, ← hs] at hsk
      refine ⟨?_, ?_, ?_, hj⟩
      · simpa [handle_is_midpoint_natCast bt line k hw] using hge
      · simp [handle_is_stop_natCast bt line k hw, hge]
      · rw [handle_get_segment_slider bt g line k s hg hw hsk, hdata,
          gimp_gradient_segment_get_nth_of_lt g.segments _ hj]
  refine ⟨main, ?_⟩
  intro h3
  have h5 : line.sliders.length = 5 := by omega
  have m0 := (main 0 (by omega)).1 (by omega)
  have m2 := (main 2 (by omega)).2 (by omega)
  have m3 := (main 3 (by omega)).2 (by omega)
  have m4 := (main 4 (by omega)).2 (by omega)
  rw [h5] at m2 m3 m4
  exact ⟨h5, m0.1, m0.2.2.1, m2.1, m2.2.2.1, m3.1, m3.2.2.1, m4.1, m4.2.2.1⟩

/-- C7, a concrete instance: the sample tool over the three-segment chain. -/
theorem handle_resolution_witness :
    handle_is_stop sample_tool 0 = some true ∧
    handle_get_segment sample_tool 0 = some (some 0) ∧
    handle_is_midpoint sample_tool 4 = some true ∧
    handle_get_segment sample_tool 4 = some (some 2) := by
  have h := (handle_resolution sample_slider_default true (25 / 100) true sample_tool
    { segments := chain_three, writable := false, freeze_count := 0 }
    { sliders := update_sliders_array sample_slider_default true (25 / 100) true chain_three
      selection := GIMP_TOOL_LINE_HANDLE_NONE
      x1 := 0
      y1 := 0
      x2 := 100
      y2 := 0 } rfl rfl rfl).2 rfl
  exact ⟨h.2.1, h.2.2.1, h.2.2.2.2.2.2.2.1, h.2.2.2.2.2.2.2.2⟩

/-! ## Valid chains -/

theorem chain_adjacent :
    ∀ (segments : List GimpGradientSegment),
      segments.Chain' (fun seg nxt => seg.right = nxt.left) →
      ∀ (i : Nat) (seg nxt : GimpGradientSegment),
        segments[i]? = some seg → segments[i + 1]? = some nxt → seg.right = nxt.left
  | [], _, _, _, _ => by simp
  | [_], _, _, _, _ => by
      intro _ h
      simp at h
  | s :: n :: rest, hc, 0, seg, nxt => by
      intro h1 h2
      simp at h1 h2
      subst h1 h2
      exact (List.chain'_cons.mp hc).1
  | s :: n :: rest, hc, i + 1, seg, nxt => by
      intro h1 h2
      exact chain_adjacent (n :: rest) (List.chain'_cons.mp hc).2 i seg nxt
        (by simpa using h1) (by simpa using h2)

theorem chain_left_lower :
    ∀ (segments : List GimpGradientSegment),
      (∀ seg ∈ segments, seg.left ≤ seg.right) →
      segments.Chain' (fun seg nxt => seg.right = nxt.left) →
      ∀ first, segments.head? = some first → ∀ seg ∈ segments, first.left ≤ seg.left
  | [], _, _, _, _ => by simp
  | [s], _, _, first, hf => by
      simp at hf
      subst hf
      intro seg hseg
      simp at hseg
      subst hseg
      exact le_refl _
  | s :: n :: rest, hord, hc, first, hf => by
      simp at hf
      subst hf
      intro seg hseg
      rcases List.mem_cons.mp hseg with h | h
      · subst h
        exact le_refl _
      · have ih := chain_left_lower (n :: rest)
          (fun x hx => hord x (List.mem_cons_of_mem _ hx))
          (List.chain'_cons.mp hc).2 n rfl seg h
        have h1 : s.left ≤ s.right := hord s (List.mem_cons_self _ _)
        have h2 : s.right = n.left := (List.chain'_cons.mp hc).1
        linarith

theorem chain_right_upper :
    ∀ (segments : List GimpGradientSegment),
      (∀ seg ∈ segments, seg.left ≤ seg.right) →
      segments.Chain' (fun seg nxt => seg.right = nxt.left) →
      ∀ last, segments.getLast? = some last → ∀ seg ∈ segments, seg.right ≤ last.right
  | [], _, _, _, _ => by simp
  | [s], _, _, last, hl => by
      simp at hl
      subst hl
      intro seg hseg
      simp at hseg
      subst hseg
      exact le_refl _
  | s :: n :: rest, hord, hc, last, hl => by
      have hl' : (n :: rest).getLast? = some last := by
        simpa [List.getLast?_cons_cons] using hl
      have ih := chain_right_upper (n :: rest)
        (fun x hx => hord x (List.mem_cons_of_mem _ hx))
        (List.chain'_cons.mp hc).2 last hl'
      intro seg hseg
      rcases List.mem_cons.mp hseg with h | h
      · subst h
        have h1 : n.left ≤ n.right := hord n (by simp)
        have h2 : seg.right = n.left := (List.chain'_cons.mp hc).1
        have h3 := ih n (List.mem_cons_self _ _)
        linarith
      · exact ih seg h

theorem valid_chain_bounds (segments : List GimpGradientSegment) (hv : ValidChain segments)
    (seg : GimpGradientSegment) (hseg : seg ∈ segments) :
    0 ≤ seg.left ∧ seg.left ≤ seg.middle ∧ seg.middle ≤ seg.right ∧ seg.right ≤ 1 := by
  obtain ⟨hfirst, hlast, hord, hc⟩ := hv
  have hord' : ∀ x ∈ segments, x.left ≤ x.right := fun x hx =>
    le_trans (hord x hx).1 (hord x hx).2
  refine ⟨?_, (hord seg hseg).1, (hord seg hseg).2, ?_⟩
  · cases hh : segments.head? with
    | none => simp [hh] at hfirst
    | some first =>
        simp [hh] at hfirst
        have := chain_left_lower segments hord' hc first hh seg hseg
        linarith
  · cases hh : segments.getLast? with
    | none => simp [hh] at hlast
    | some last =>
        simp [hh] at hlast
        have := chain_right_upper segments hord' hc last hh seg hseg
        linarith

theorem initial_sliders_cases (dflt : GimpControllerSlider) (editable : Bool)
    (segments : List GimpGradientSegment) (i : Nat) (u : GimpControllerSlider)
    (hu : (initial_sliders dflt editable segments)[i]? = some u) :
    (∃ seg nxt, segments[i]? = some seg ∧ segments[i + 1]? = some nxt ∧
      u = stop_slider dflt editable seg nxt i) ∨
    (∃ k seg, segments[k]? = some seg ∧ i = segments.length - 1 + k ∧
      u = midpoint_slider dflt editable seg k) := by
  have hi : i < (segments.length - 1) + segments.length := by
    rcases List.getElem?_eq_some_iff.mp hu with ⟨h, _⟩
    rwa [initial_sliders_length] at h
  by_cases hlt : i + 1 < segments.length
  · left
    have h1 : segments[i]? = some (segments[i]) := List.getElem?_eq_getElem (by omega)
    have h2 : segments[i + 1]? = some (segments[i + 1]) := List.getElem?_eq_getElem hlt
    refine ⟨_, _, h1, h2, ?_⟩
    rw [initial_sliders_stop dflt editable segments i _ _ h1 h2] at hu
    exact (Option.some.inj hu).symm
  · right
    have hk : i - (segments.length - 1) < segments.length := by omega
    have h1 : segments[i - (segments.length - 1)]? = some (segments[i - (segments.length - 1)]) :=
      List.getElem?_eq_getElem hk
    have hidx : segments.length - 1 + (i - (segments.length - 1)) = i := by omega
    refine ⟨_, _, h1, hidx.symm, ?_⟩
    have := initial_sliders_midpoint dflt editable segments _ _ h1
    rw [hidx, hu] at this
    exact Option.some.inj this

theorem initial_sliders_bounds (dflt : GimpControllerSlider) (editable : Bool)
    (segments : List GimpGradientSegment) (hv : ValidChain segments)
    (i : Nat) (u : GimpControllerSlider)
    (hu : (initial_sliders dflt editable segments)[i]? = some u) :
    0 ≤ u.min ∧ u.min ≤ u.value ∧ u.value ≤ u.max ∧ u.max ≤ 1 := by
  rcases initial_sliders_cases dflt editable segments i u hu with
    ⟨seg, nxt, h1, h2, rfl⟩ | ⟨k, seg, h1, _, rfl⟩
  · have b1 := valid_chain_bounds segments hv seg (List.getElem?_mem h1)
    have b2 := valid_chain_bounds segments hv nxt (List.getElem?_mem h2)
    have hadj := chain_adjacent segments hv.2.2.2 i seg nxt h1 h2
    simp only [stop_slider]
    refine ⟨b1.1, ?_, ?_, b2.2.2.2⟩ <;> linarith
  · have b1 := valid_chain_bounds segments hv seg (List.getElem?_mem h1)
    simp only [midpoint_slider]
    exact b1

/-- C8: for every valid chain, every offset in `[0, 1]` and every reversed
flag, every slider of the built array satisfies
`offset ≤ min ≤ value ≤ max ≤ 1`; so `value`, `min` and `max` lie in
`[0, 1]`. -/
theorem slider_bounds (dflt : GimpControllerSlider) (editable : Bool) (offset : ℚ)
    (reverse : Bool) (segments : List GimpGradientSegment) (hv : ValidChain segments)
    (ho0 : 0 ≤ offset) (ho1 : offset ≤ 1) (i : Nat) (s : GimpControllerSlider)
    (hs : (update_sliders_array dflt editable offset reverse segments)[i]? = some s) :
    (offset ≤ s.min ∧ s.min ≤ s.value ∧ s.value ≤ s.max ∧ s.max ≤ 1) ∧
    (0 ≤ s.min ∧ s.min ≤ 1) ∧ (0 ≤ s.value ∧ s.value ≤ 1) ∧ (0 ≤ s.max ∧ s.max ≤ 1) := by
  rw [update_sliders_array_getElem?] at hs
  cases hu : (initial_sliders dflt editable segments)[i]? with
  | none => simp [hu] at hs
  | some u =>
      simp only [hu, Option.map_some', Option.some.injEq] at hs
      obtain ⟨b0, b1, b2, b3⟩ := initial_sliders_bounds dflt editable segments hv i u hu
      have hc : 0 ≤ 1 - offset := by linarith
      have key : offset ≤ s.min ∧ s.min ≤ s.value ∧ s.value ≤ s.max ∧ s.max ≤ 1 := by
        subst hs
        cases reverse
        · simp only [offset_slider, Bool.false_eq_true, if_false]
          refine ⟨?_, ?_, ?_, ?_⟩ <;> nlinarith
        · simp only [offset_slider, flip_slider, if_true]
          refine ⟨?_, ?_, ?_, ?_⟩ <;> nlinarith
      obtain ⟨k0, k1, k2, k3⟩ := key
      refine ⟨⟨k0, k1, k2, k3⟩, ⟨?_, ?_⟩, ⟨?_, ?_⟩, ⟨?_, ?_⟩⟩ <;> linarith

theorem valid_chain_three : ValidChain chain_three := by
  refine ⟨rfl, rfl, ?_, ?_⟩
  · intro seg hseg
    simp only [chain_three, List.mem_cons, List.mem_singleton, List.not_mem_nil, or_false] at hseg
    rcases hseg with h | h | h <;> subst h <;> norm_num
  · simp [chain_three]

/-- C8, a concrete instance: the first stop slider of `chain_three`, reversed,
with `offset = 0.25`. -/
theorem slider_bounds_witness :
    ValidChain chain_three ∧
    (1 / 4 : ℚ) ≤ (offset_slider (1 / 4) (flip_slider (stop_slider sample_slider_default true
      { left := 0, middle := 1 / 8, right := 1 / 4 }
      { left := 1 / 4, middle := 3 / 8, right := 1 / 2 } 0))).min ∧
    (offset_slider (1 / 4) (flip_slider (stop_slider sample_slider_default true
      { left := 0, middle := 1 / 8, right := 1 / 4 }
      { left := 1 / 4, middle := 3 / 8, right := 1 / 2 } 0))).max ≤ 1 := by
  have h := (slider_bounds sample_slider_default true (1 / 4) true chain_three
    valid_chain_three (by norm_num) (by norm_num) 0
    (offset_slider (1 / 4) (flip_slider (stop_slider sample_slider_default true
      { left := 0, middle := 1 / 8, right := 1 / 4 }
      { left := 1 / 4, middle := 3 / 8, right := 1 / 2 } 0))) rfl).1
  exact ⟨valid_chain_three, h.1, h.2.2.2⟩

/-- C9, as stated, fails: on the valid chain `[0, 0.25]`, `[0.25, 0.5]`,
`[0.5, 1]` with `offset = 0` and `reversed = true` the two stop sliders have
the values `0.75` and `0.5`, which are not in non-decreasing order. -/
theorem stop_values_order_counterexample :
    ValidChain chain_three ∧ (0 : ℚ) ≤ 0 ∧ (0 : ℚ) < 1 ∧ 0 < chain_three.length - 2 ∧
    ∃ s0 s1,
      (update_sliders_array sample_slider_default true 0 true chain_three)[0]? = some s0 ∧
      (update_sliders_array sample_slider_default true 0 true chain_three)[0 + 1]? = some s1 ∧
      s0.value = 3 / 4 ∧ s1.value = 1 / 2 ∧ ¬ s0.value ≤ s1.value := by
  refine ⟨valid_chain_three, le_refl _, by norm_num, by decide, ?_⟩
  refine ⟨offset_slider 0 (flip_slider (stop_slider sample_slider_default true
      { left := 0, middle := 1 / 8, right := 1 / 4 }
      { left := 1 / 4, middle := 3 / 8, right := 1 / 2 } 0)),
    offset_slider 0 (flip_slider (stop_slider sample_slider_default true
      { left := 1 / 4, middle := 3 / 8, right := 1 / 2 }
      { left := 1 / 2, middle := 3 / 4, right := 1 } 1)), rfl, rfl, ?_, ?_, ?_⟩ <;>
    norm_num [offset_slider, flip_slider, stop_slider]

/-- C9, amended: for every valid chain of `N` segments and every offset in
`[0, 1)`, the values of the stop sliders (indices `0 .. N-2`) are monotone in
segment order: for all `i < N - 2`, `sliders[i].value ≤ sliders[i+1].value`
when `reversed = false`, and `sliders[i+1].value ≤ sliders[i].value` when
`reversed = true`. -/
theorem stop_values_monotone (dflt : GimpControllerSlider) (editable : Bool) (offset : ℚ)
    (reverse : Bool) (segments : List GimpGradientSegment) (hv : ValidChain segments)
    (ho : 0 ≤ offset ∧ offset < 1) (i : Nat) (hi : i < segments.length - 2)
    (s0 s1 : GimpControllerSlider)
    (h0 : (update_sliders_array dflt editable offset reverse segments)[i]? = some s0)
    (h1 : (update_sliders_array dflt editable offset reverse segments)[i + 1]? = some s1) :
    (reverse = false → s0.value ≤ s1.value) ∧ (reverse = true → s1.value ≤ s0.value) := by
  have ha : segments[i]? = some (segments[i]) := List.getElem?_eq_getElem (by omega)
  have hb : segments[i + 1]? = some (segments[i + 1]) := List.getElem?_eq_getElem (by omega)
  have hc : segments[i + 1 + 1]? = some (segments[i + 1 + 1]) :=
    List.getElem?_eq_getElem (by omega)
  rw [update_sliders_array_getElem?, initial_sliders_stop dflt editable segments i _ _ ha hb]
    at h0
  rw [update_sliders_array_getElem?,
    initial_sliders_stop dflt editable segments (i + 1) _ _ hb hc] at h1
  simp only [Option.map_some', Option.some.injEq] at h0 h1
  have hadj := chain_adjacent segments hv.2.2.2 i _ _ ha hb
  have hbnd := valid_chain_bounds segments hv _ (List.getElem?_mem hb)
  have hle : (segments[i]).right ≤ (segments[i + 1]).right := by
    rw [hadj]; linarith [hbnd.2.1, hbnd.2.2.1]
  have hpos : 0 ≤ 1 - offset := by linarith [ho.2]
  subst h0 h1
  constructor
  · intro hr
    subst hr
    simp only [offset_slider, stop_slider, Bool.false_eq_true, if_false]
    nlinarith
  · intro hr
    subst hr
    simp only [offset_slider, flip_slider, stop_slider, if_true]
    nlinarith

/-- C9 amended, a concrete instance: `chain_three` with `offset = 0.25`, not
reversed. -/
theorem stop_values_monotone_witness :
    (offset_slider (1 / 4) (stop_slider sample_slider_default true
      { left := 0, middle := 1 / 8, right := 1 / 4 }
      { left := 1 / 4, middle := 3 / 8, right := 1 / 2 } 0)).value
    ≤ (offset_slider (1 / 4) (stop_slider sample_slider_default true
      { left := 1 / 4, middle := 3 / 8, right := 1 / 2 }
      { left := 1 / 2, middle := 3 / 4, right := 1 } 1)).value :=
  (stop_values_monotone sample_slider_default true (1 / 4) false chain_three
    valid_chain_three ⟨by norm_num, by norm_num⟩ 0 (by decide)
    (offset_slider (1 / 4) (stop_slider sample_slider_default true
      { left := 0, middle := 1 / 8, right := 1 / 4 }
      { left := 1 / 4, middle := 3 / 8, right := 1 / 2 } 0))
    (offset_slider (1 / 4) (stop_slider sample_slider_default true
      { left := 1 / 4, middle := 3 / 8, right := 1 / 2 }
      { left := 1 / 2, middle := 3 / 4, right := 1 } 1)) rfl rfl).1 rfl

/-! ## Freezing, thawing and adding a stop -/

theorem freeze_gradient_spec (bt : GimpBlendTool) (g : GimpGradient)
    (hg : bt.gradient = some g) (hedit : is_gradient_editable bt = true) :
    ∃ bt1 g1, freeze_gradient bt = some bt1 ∧ bt1.gradient = some g1 ∧
      g1.segments = g.segments ∧ bt1.widget = bt.widget ∧ bt1.options = bt.options ∧
      bt1.block_handlers_count = bt.block_handlers_count + 1 := by
  by_cases hc : (bt.gradient_is_custom || bt.options.modify_active) = true
  · have he : is_gradient_editable (block_handlers bt) = true := by
      simpa [is_gradient_editable, block_handlers] using hedit
    refine ⟨{ block_handlers bt with gradient := some (gimp_data_freeze g) },
      gimp_data_freeze g, ?_, rfl, rfl, rfl, rfl, rfl⟩
    simp only [freeze_gradient]
    have hg' : (block_handlers bt).gradient = some g := by simpa [block_handlers] using hg
    have hc' : ((block_handlers bt).gradient_is_custom ||
        (block_handlers bt).options.modify_active) = true := by
      simpa [block_handlers] using hc
    rw [hg']
    simp only [hc', he, if_true]
  · have hm : bt.options.modify_active = false := by
      cases h : bt.options.modify_active
      · rfl
      · simp [h] at hc
    refine ⟨{ block_handlers bt with
              gradient := some { gimp_data_freeze bt.custom with segments := g.segments }
              gradient_is_custom := true },
      { gimp_data_freeze bt.custom with segments := g.segments }, ?_, rfl, rfl, rfl, rfl, rfl⟩
    simp only [freeze_gradient]
    have hg' : (block_handlers bt).gradient = some g := by simpa [block_handlers] using hg
    have hc' : ¬ ((block_handlers bt).gradient_is_custom ||
        (block_handlers bt).options.modify_active) = true := by
      simpa [block_handlers] using hc
    rw [hg']
    simp only [hc', if_false]
    simp [is_gradient_editable, block_handlers, hm]

theorem update_sliders_spec (dflt : GimpControllerSlider) (bt : GimpBlendTool)
    (g : GimpGradient)
    (hg : bt.gradient = some g) (hne : g.segments.length ≠ 0)
    (hcount : 0 ≤ bt.block_handlers_count) :
    ∃ bt1, update_sliders dflt bt = some bt1 ∧
      bt1.widget = bt.widget.map (fun line =>
        if bt.options.instant then line
        else { line with
          sliders := update_sliders_array dflt (is_gradient_editable bt)
            (bt.options.offset / 100) bt.options.gradient_reverse g.segments }) ∧
      bt1.gradient = bt.gradient ∧ bt1.options = bt.options ∧
      bt1.gradient_is_custom = bt.gradient_is_custom ∧ bt1.custom = bt.custom ∧
      bt1.gui = bt.gui ∧
      bt1.block_handlers_count = bt.block_handlers_count := by
  have hpos : bt.block_handlers_count + 1 > 0 := by omega
  cases hw : bt.widget with
  | none =>
      exact ⟨bt, by simp [update_sliders, hw], by simp [hw], rfl, rfl, rfl, rfl, rfl, rfl⟩
  | some line =>
      cases hinst : bt.options.instant with
      | true =>
          exact ⟨bt, by simp [update_sliders, hw, hinst], by simp [hw], rfl, rfl, rfl, rfl,
            rfl, rfl⟩
      | false =>
          simp only [update_sliders, hw, hinst, hg, hne, unblock_handlers, block_handlers,
            gimp_tool_line_set_sliders, hpos, if_true, if_false, Bool.false_eq_true]
          refine ⟨_, rfl, ?_, rfl, rfl, rfl, rfl, rfl, ?_⟩
          · simp
          · simp

theorem update_endpoint_gui_isSome (bt : GimpBlendTool) (g : GimpGradient)
    (line : GimpToolLine) (gui : GimpToolGui) (selection : Int)
    (hg : bt.gradient = some g) (hne : g.segments.length ≠ 0)
    (hsel : handle_is_endpoint selection = true) :
    ∃ gui1, update_endpoint_gui bt line gui selection = some gui1 := by
  have hsel' : selection = GIMP_TOOL_LINE_HANDLE_START ∨ selection = GIMP_TOOL_LINE_HANDLE_END := by
    simpa [handle_is_endpoint] using hsel
  have hpos : 0 < g.segments.length := Nat.pos_of_ne_zero hne
  have hstart : handle_get_segment bt GIMP_TOOL_LINE_HANDLE_START = some (some 0) := by
    simp [handle_get_segment, hg, hne]
  have hend : handle_get_segment bt GIMP_TOOL_LINE_HANDLE_END
      = some (some (g.segments.length - 1)) := by
    simp [handle_get_segment, hg, hne, gimp_gradient_segment_get_last,
      GIMP_TOOL_LINE_HANDLE_END, GIMP_TOOL_LINE_HANDLE_START]
  have h0 : g.segments[0]? = some (g.segments[0]) := List.getElem?_eq_getElem hpos
  have hl : g.segments[g.segments.length - 1]? = some (g.segments[g.segments.length - 1]) :=
    List.getElem?_eq_getElem (by omega)
  have hne' : ¬ (GIMP_TOOL_LINE_HANDLE_END = GIMP_TOOL_LINE_HANDLE_START) := by decide
  rcases hsel' with h | h <;> subst h <;> cases hr : bt.options.gradient_reverse <;>
    simp [update_endpoint_gui, hr, hg, hstart, hend, h0, hl, hne']

theorem update_gui_spec (bt : GimpBlendTool) (g : GimpGradient)
    (hg : bt.gradient = some g) (hne : g.segments.length ≠ 0)
    (hcount : 0 ≤ bt.block_handlers_count) :
    ∃ bt1, update_gui bt = some bt1 ∧ bt1.widget = bt.widget ∧
      bt1.gradient = bt.gradient ∧ bt1.options = bt.options ∧
      bt1.gradient_is_custom = bt.gradient_is_custom ∧ bt1.custom = bt.custom ∧
      bt1.block_handlers_count = bt.block_handlers_count := by
  obtain ⟨options, gradient, is_custom, custom, widget, gui, count⟩ := bt
  simp only at hg hcount
  subst hg
  have hpos : count + 1 > 0 := by omega
  cases widget with
  | none =>
      refine ⟨
        { options := options, gradient := some g, gradient_is_custom := is_custom,
          custom := custom, widget := none,
          gui := gui.map (fun gui => { gui with shown := false }),
          block_handlers_count := count }, ?_, rfl, rfl, rfl, rfl, rfl, rfl⟩
      simp [update_gui]
  | some line =>
      by_cases hinst : options.instant = true
      · refine ⟨
          { options := options, gradient := some g, gradient_is_custom := is_custom,
            custom := custom, widget := some line,
            gui := gui.map (fun gui => { gui with shown := false }),
            block_handlers_count := count }, ?_, rfl, rfl, rfl, rfl, rfl, rfl⟩
        simp [update_gui, hinst]
      · by_cases hnone : line.selection = GIMP_TOOL_LINE_HANDLE_NONE
        · refine ⟨
            { options := options, gradient := some g, gradient_is_custom := is_custom,
              custom := custom, widget := some line,
              gui := gui.map (fun gui => { gui with shown := false }),
              block_handlers_count := count }, ?_, rfl, rfl, rfl, rfl, rfl, rfl⟩
          simp [update_gui, hinst, hnone]
        · by_cases hend : handle_is_endpoint line.selection = true
          · obtain ⟨gui1, hgui⟩ := update_endpoint_gui_isSome
              (block_handlers
                { options := options, gradient := some g, gradient_is_custom := is_custom,
                  custom := custom, widget := some line, gui := gui,
                  block_handlers_count := count })
              g line (gui.getD gimp_tool_gui_new) line.selection rfl hne hend
            simp only [block_handlers] at hgui
            refine ⟨{ options := options, gradient := some g, gradient_is_custom := is_custom,
                      custom := custom, widget := some line,
                      gui := some { gui1 with shown := true },
                      block_handlers_count := count }, ?_, rfl, rfl, rfl, rfl, rfl, rfl⟩
            simp [update_gui, hinst, hnone, hend, hgui, unblock_handlers, hpos,
              block_handlers]
          · refine ⟨{ options := options, gradient := some g, gradient_is_custom := is_custom,
                      custom := custom, widget := some line,
                      gui := some { (gui.getD gimp_tool_gui_new) with
                                    endpoint_editor_shown := false
                                    shown := true },
                      block_handlers_count := count }, ?_, rfl, rfl, rfl, rfl, rfl, rfl⟩
            simp [update_gui, hinst, hnone, hend, unblock_handlers, hpos, block_handlers]

theorem gimp_gradient_get_segment_at_eq (segments : List GimpGradientSegment) (value : ℚ)
    (k : Nat) (seg : GimpGradientSegment) (hk : segments[k]? = some seg)
    (hin : seg.left < value ∧ value < seg.right)
    (hfirst : ∀ (j : Nat) (sj : GimpGradientSegment), j < k → segments[j]? = some sj →
      ¬ (sj.left ≤ value ∧ value ≤ sj.right)) :
    gimp_gradient_get_segment_at segments value = k := by
  obtain ⟨hlt, hget⟩ := List.getElem?_eq_some_iff.mp hk
  rw [gimp_gradient_get_segment_at, List.findIdx_eq hlt]
  constructor
  · rw [hget]
    simp [le_of_lt hin.1, le_of_lt hin.2]
  · intro j hj
    have := hfirst j (segments[j]) hj (List.getElem?_eq_getElem (by omega))
    simpa using this

theorem gimp_gradient_split_at_eq (segments : List GimpGradientSegment) (value : ℚ)
    (k : Nat) (seg : GimpGradientSegment) (hk : segments[k]? = some seg)
    (hin : seg.left < value ∧ value < seg.right)
    (hfirst : ∀ (j : Nat) (sj : GimpGradientSegment), j < k → segments[j]? = some sj →
      ¬ (sj.left ≤ value ∧ value ≤ sj.right)) :
    gimp_gradient_split_at segments value
      = some (segments.take k ++
          { seg with right := value, middle := (seg.left + value) / 2 } ::
          { seg with left := value, middle := (value + seg.right) / 2 } ::
          segments.drop (k + 1), k) := by
  simp [gimp_gradient_split_at,
    gimp_gradient_get_segment_at_eq segments value k seg hk hin hfirst, hk]

theorem split_chain_length (segments : List GimpGradientSegment) (k : Nat)
    (newl newr : GimpGradientSegment) (hk : k < segments.length) :
    (segments.take k ++ newl :: newr :: segments.drop (k + 1)).length
      = segments.length + 1 := by
  simp only [List.length_append, List.length_take, List.length_cons, List.length_drop]
  omega

theorem split_chain_left (segments : List GimpGradientSegment) (k : Nat)
    (newl newr : GimpGradientSegment) (hk : k < segments.length) :
    (segments.take k ++ newl :: newr :: segments.drop (k + 1))[k]? = some newl := by
  have hlen : (segments.take k).length = k := by
    simp only [List.length_take]; omega
  rw [List.getElem?_append_right (by omega), hlen]
  simp

theorem split_chain_right (segments : List GimpGradientSegment) (k : Nat)
    (newl newr : GimpGradientSegment) (hk : k < segments.length) :
    (segments.take k ++ newl :: newr :: segments.drop (k + 1))[k + 1]? = some newr := by
  have hlen : (segments.take k).length = k := by
    simp only [List.length_take]; omega
  rw [List.getElem?_append_right (by omega), hlen]
  simp

theorem thaw_gradient_spec (dflt : GimpControllerSlider) (bt : GimpBlendTool)
    (g : GimpGradient)
    (hg : bt.gradient = some g) (hne : g.segments.length ≠ 0)
    (hcount : 0 < bt.block_handlers_count) :
    ∃ bt1, thaw_gradient dflt bt = some bt1 ∧
      bt1.widget = bt.widget.map (fun line =>
        if bt.options.instant then line
        else { line with
          sliders := update_sliders_array dflt (is_gradient_editable bt)
            (bt.options.offset / 100) bt.options.gradient_reverse g.segments }) ∧
      bt1.gradient = some (gimp_data_thaw g) ∧ bt1.options = bt.options ∧
      bt1.gradient_is_custom = bt.gradient_is_custom ∧ bt1.custom = bt.custom ∧
      bt1.block_handlers_count = bt.block_handlers_count - 1 := by
  obtain ⟨bt2, h2, w2, g2, o2, i2, c2, _, n2⟩ :=
    update_sliders_spec dflt { bt with gradient := bt.gradient.map gimp_data_thaw }
      (gimp_data_thaw g) (by simp [hg]) (by simpa [gimp_data_thaw] using hne)
      (le_of_lt hcount)
  have g2' : bt2.gradient = some (gimp_data_thaw g) := by rw [g2]; simp [hg]
  obtain ⟨bt3, h3, w3, g3, o3, i3, c3, n3⟩ :=
    update_gui_spec bt2 (gimp_data_thaw g) g2' (by simpa [gimp_data_thaw] using hne)
      (by rw [n2]; exact le_of_lt hcount)
  have hpos : bt3.block_handlers_count > 0 := by rw [n3, n2]; exact hcount
  have hed : is_gradient_editable { bt with gradient := bt.gradient.map gimp_data_thaw }
      = is_gradient_editable bt := by
    simp [is_gradient_editable, hg, gimp_data_thaw]
  refine ⟨{ bt3 with block_handlers_count := bt3.block_handlers_count - 1 },
    ?_, ?_, ?_, ?_, ?_, ?_, ?_⟩
  · simp only [thaw_gradient, h2, h3, unblock_handlers, hpos, if_true]
  · show bt3.widget = _
    rw [w3, w2, hed]
    rfl
  · show bt3.gradient = _
    rw [g3, g2']
  · show bt3.options = _
    rw [o3, o2]
  · show bt3.gradient_is_custom = _
    rw [i3, i2]
  · show bt3.custom = _
    rw [c3, c2]
  · show bt3.block_handlers_count - 1 = _
    rw [n3, n2]

theorem range_get_n_segments_upto (segments : List GimpGradientSegment) (k : Nat)
    (hk : k < segments.length) :
    gimp_gradient_segment_range_get_n_segments segments 0 (some k) - 1 = (k : Int) := by
  have : min (k + 1) segments.length = k + 1 := by omega
  simp [gimp_gradient_segment_range_get_n_segments, this]

theorem add_stop_of_split (dflt : GimpControllerSlider) (bt : GimpBlendTool)
    (g : GimpGradient) (value : ℚ) (k : Nat)
    (segs2 : List GimpGradientSegment) (newl newr : GimpGradientSegment)
    (hg : bt.gradient = some g) (hedit : is_gradient_editable bt = true)
    (hcount : 0 ≤ bt.block_handlers_count)
    (hsplit : gimp_gradient_split_at g.segments value = some (segs2, k))
    (hlen : segs2.length = g.segments.length + 1) (hlt : k < g.segments.length)
    (hl : segs2[k]? = some newl) (hr : segs2[k + 1]? = some newr) :
    ∃ bt1 g1,
      add_stop dflt bt value = some (bt1, (k : Int)) ∧
      bt1.gradient = some g1 ∧ g1.segments = segs2 ∧
      bt1.options = bt.options ∧
      bt1.block_handlers_count = bt.block_handlers_count ∧
      (∀ line, bt.widget = some line → bt.options.instant = true →
        bt1.widget = some line) ∧
      (bt.widget = none → bt1.widget = none) ∧
      (∀ line, bt.widget = some line → bt.options.instant = false →
        ∃ line1, bt1.widget = some line1 ∧
          line1.sliders = update_sliders_array dflt (is_gradient_editable bt1)
            (bt.options.offset / 100) bt.options.gradient_reverse segs2 ∧
          line1.sliders.length = 2 * (g.segments.length + 1) - 1 ∧
          handle_is_stop bt1 k = some true ∧
          handle_get_segment bt1 k = some (some k) ∧
          line1.sliders[k]? = some (offset_slider (bt.options.offset / 100)
            (if bt.options.gradient_reverse then
              flip_slider (stop_slider dflt (is_gradient_editable bt1) newl newr k)
             else stop_slider dflt (is_gradient_editable bt1) newl newr k))) := by
  obtain ⟨bt1, g1, hf, hg1, hseg1, hw1, ho1, hc1⟩ := freeze_gradient_spec bt g hg hedit
  rw [← hseg1] at hsplit
  obtain ⟨bt3, h3, w3, g3, o3, _, _, c3⟩ := thaw_gradient_spec dflt
    { bt1 with gradient := some { g1 with segments := segs2 } }
    { g1 with segments := segs2 } rfl
    (by simp only [hlen]; omega) (by show 0 < bt1.block_handlers_count; omega)
  have hed : is_gradient_editable bt3
      = is_gradient_editable { bt1 with gradient := some { g1 with segments := segs2 } } := by
    simp [is_gradient_editable, g3, o3, gimp_data_thaw]
  have ho3 : bt3.options = bt.options := by rw [o3]; exact ho1
  refine ⟨bt3, gimp_data_thaw { g1 with segments := segs2 }, ?_, g3, rfl, ho3, ?_, ?_, ?_, ?_⟩
  · have hn := range_get_n_segments_upto segs2 k (by rw [hlen]; omega)
    simp only [add_stop, hf, hg1, hsplit, h3, hn]
  · rw [c3]
    show bt1.block_handlers_count - 1 = _
    rw [hc1]
    ring
  · intro line hw hinst
    have hi1 : bt1.options.instant = true := by rw [ho1]; exact hinst
    rw [w3]
    show Option.map _ bt1.widget = _
    rw [hw1, hw]
    simp [hi1]
  · intro hw
    rw [w3]
    show Option.map _ bt1.widget = _
    rw [hw1, hw]
    rfl
  · intro line hw hinst
    have hi1 : bt1.options.instant = false := by rw [ho1]; exact hinst
    have hsl : (update_sliders_array dflt (is_gradient_editable bt3)
          (bt.options.offset / 100) bt.options.gradient_reverse segs2)[k]?
        = some (offset_slider (bt.options.offset / 100)
            (if bt.options.gradient_reverse then
              flip_slider (stop_slider dflt (is_gradient_editable bt3) newl newr k)
             else stop_slider dflt (is_gradient_editable bt3) newl newr k)) := by
      rw [update_sliders_array_getElem?, initial_sliders_stop _ _ _ k _ _ hl hr]
      rfl
    have hw3 : bt3.widget = some { line with
        sliders := update_sliders_array dflt (is_gradient_editable bt3)
          (bt.options.offset / 100) bt.options.gradient_reverse segs2 } := by
      rw [w3, hed]
      show Option.map _ bt1.widget = _
      rw [hw1, hw]
      simp only [Option.map_some', hi1, Bool.false_eq_true, if_false]
      rw [ho1]
    have hcount3 : (update_sliders_array dflt (is_gradient_editable bt3)
          (bt.options.offset / 100) bt.options.gradient_reverse segs2).length
        = 2 * (g.segments.length + 1) - 1 := by
      rw [update_sliders_array_length, hlen]
      omega
    have hd : (offset_slider (bt.options.offset / 100)
          (if bt.options.gradient_reverse then
            flip_slider (stop_slider dflt (is_gradient_editable bt3) newl newr k)
           else stop_slider dflt (is_gradient_editable bt3) newl newr k)).data
        = (k : Int) := by
      cases bt.options.gradient_reverse <;> simp [offset_slider, flip_slider, stop_slider]
    refine ⟨_, hw3, rfl, hcount3, ?_, ?_, hsl⟩
    · rw [handle_is_stop_natCast bt3 _ k hw3]
      show some (decide (k < (update_sliders_array _ _ _ _ _).length / 2)) = _
      rw [hcount3]
      have : k < (2 * (g.segments.length + 1) - 1) / 2 := by omega
      simp [this]
    · rw [handle_get_segment_slider bt3 _ _ k _ g3 hw3 hsl, hd]
      exact congrArg some (gimp_gradient_segment_get_nth_of_lt _ k
        (by show k < segs2.length; rw [hlen]; omega))

theorem chain_right_le_left (segments : List GimpGradientSegment)
    (hord : ∀ seg ∈ segments, seg.left ≤ seg.right)
    (hc : segments.Chain' (fun seg nxt => seg.right = nxt.left))
    (j : Nat) (sj : GimpGradientSegment) (hj : segments[j]? = some sj) :
    ∀ (d : Nat) (sk : GimpGradientSegment), segments[j + 1 + d]? = some sk →
      sj.right ≤ sk.left
  | 0, sk, hk => le_of_eq (chain_adjacent segments hc j sj sk hj hk)
  | d + 1, sk, hk => by
      have hlt : j + 1 + d < segments.length := by
        rcases List.getElem?_eq_some_iff.mp hk with ⟨h, _⟩
        omega
      have hm : segments[j + 1 + d]? = some (segments[j + 1 + d]) :=
        List.getElem?_eq_getElem hlt
      have ih := chain_right_le_left segments hord hc j sj hj d _ hm
      have hadj := chain_adjacent segments hc (j + 1 + d) _ sk hm hk
      have := hord _ (List.getElem?_mem hm)
      linarith

theorem valid_chain_first_containing (segments : List GimpGradientSegment)
    (hv : ValidChain segments) (value : ℚ) (k : Nat) (seg : GimpGradientSegment)
    (hk : segments[k]? = some seg) (hin : seg.left < value) :
    ∀ (j : Nat) (sj : GimpGradientSegment), j < k → segments[j]? = some sj →
      ¬ (sj.left ≤ value ∧ value ≤ sj.right) := by
  intro j sj hjk hj hcon
  have hord : ∀ x ∈ segments, x.left ≤ x.right := fun x hx =>
    le_trans (hv.2.2.1 x hx).1 (hv.2.2.1 x hx).2
  have hk' : segments[j + 1 + (k - (j + 1))]? = some seg := by
    have : j + 1 + (k - (j + 1)) = k := by omega
    rw [this]
    exact hk
  have := chain_right_le_left segments hord hv.2.2.2 j sj hj (k - (j + 1)) seg hk'
  linarith [hcon.2]

/-- C10: `add_stop` returns the index of the new boundary stop in the rebuilt
slider array.  On a tool whose gradient is editable and whose block count is
not negative: for every chain of `N` segments and every `value` strictly
inside segment `k`, segment `k` being the segment the split picks (no earlier
segment contains `value`, as in every contiguous chain), `add_stop` returns
`k` and the chain has segment `k` replaced by `[left, value]` and
`[value, right]`; and whenever the slider array is rebuilt (the tool has a
widget and is not in instant mode) it is the array of the new chain, has
`2(N+1) - 1` sliders, index `k` is a stop that resolves to the new left
segment, and its slider is the reversal/offset image of a slider whose value
is `value`. -/
theorem add_stop_returns_stop_index (dflt : GimpControllerSlider) (bt : GimpBlendTool)
    (g : GimpGradient) (value : ℚ) (k : Nat) (seg : GimpGradientSegment)
    (hg : bt.gradient = some g) (hedit : is_gradient_editable bt = true)
    (hcount : 0 ≤ bt.block_handlers_count)
    (hk : g.segments[k]? = some seg) (hin : seg.left < value ∧ value < seg.right)
    (hfirst : ∀ (j : Nat) (sj : GimpGradientSegment), j < k → g.segments[j]? = some sj →
      ¬ (sj.left ≤ value ∧ value ≤ sj.right)) :
    ∃ bt1 g1,
      add_stop dflt bt value = some (bt1, (k : Int)) ∧
      bt1.gradient = some g1 ∧
      g1.segments = g.segments.take k ++
          { seg with right := value, middle := (seg.left + value) / 2 } ::
          { seg with left := value, middle := (value + seg.right) / 2 } ::
          g.segments.drop (k + 1) ∧
      g1.segments.length = g.segments.length + 1 ∧
      (∀ line, bt.widget = some line → bt.options.instant = false →
        ∃ line1, bt1.widget = some line1 ∧
          line1.sliders = update_sliders_array dflt (is_gradient_editable bt1)
            (bt.options.offset / 100) bt.options.gradient_reverse g1.segments ∧
          line1.sliders.length = 2 * (g.segments.length + 1) - 1 ∧
          handle_is_stop bt1 k = some true ∧
          handle_get_segment bt1 k = some (some k) ∧
          ∃ u, u.value = value ∧
            line1.sliders[k]? = some (offset_slider (bt.options.offset / 100)
              (if bt.options.gradient_reverse then flip_slider u else u))) := by
  obtain ⟨hlt, _⟩ := List.getElem?_eq_some_iff.mp hk
  obtain ⟨bt1, g1, h1, h2, h3, _, _, _, _, h8⟩ :=
    add_stop_of_split dflt bt g value k _ _ _ hg hedit hcount
      (gimp_gradient_split_at_eq g.segments value k seg hk hin hfirst)
      (split_chain_length g.segments k _ _ hlt) hlt
      (split_chain_left g.segments k _ _ hlt) (split_chain_right g.segments k _ _ hlt)
  refine ⟨bt1, g1, h1, h2, h3, ?_, ?_⟩
  · rw [h3]
    exact split_chain_length g.segments k _ _ hlt
  · intro line hw hinst
    obtain ⟨line1, a1, a2, a3, a4, a5, a6⟩ := h8 line hw hinst
    refine ⟨line1, a1, ?_, a3, a4, a5, _, ?_, a6⟩
    · rw [a2, h3]
    · rfl

/-- C10, a concrete instance: on the sample tool (three segments, reversed,
offset 25 percent) a stop is added at `0.75`, strictly inside segment 2. -/
theorem add_stop_returns_stop_index_witness :
    ∃ bt1 line1,
      add_stop sample_slider_default sample_tool (3 / 4) = some (bt1, 2) ∧
      bt1.widget = some line1 ∧ line1.sliders.length = 7 ∧
      handle_is_stop bt1 2 = some true := by
  obtain ⟨bt1, _, h1, _, _, _, h5⟩ :=
    add_stop_returns_stop_index sample_slider_default sample_tool
      { segments := chain_three, writable := false, freeze_count := 0 }
      (3 / 4) 2 { left := 1 / 2, middle := 3 / 4, right := 1 }
      rfl rfl (le_refl _) rfl (by norm_num)
      (valid_chain_first_containing chain_three valid_chain_three (3 / 4) 2
        { left := 1 / 2, middle := 3 / 4, right := 1 } rfl (by norm_num))
  obtain ⟨line1, a1, _, a3, a4, _⟩ := h5 _ rfl rfl
  exact ⟨bt1, line1, h1, a1, a3, a4⟩

/-! ## `line_changed`: the two loops against the edit rules of the spec -/

theorem segment_values_drop (offset : ℚ) (reverse : Bool)
    (sliders : List GimpControllerSlider) (i : Nat) (slider : GimpControllerSlider)
    (h : sliders[i]? = some slider) :
    (segment_values offset reverse sliders).drop i
      = slider_value_to_segment offset reverse slider.value ::
          (segment_values offset reverse sliders).drop (i + 1) := by
  obtain ⟨hlt, hget⟩ := List.getElem?_eq_some_iff.mp h
  have hlt' : i < (segment_values offset reverse sliders).length := by
    simpa [segment_values] using hlt
  rw [List.drop_eq_getElem_cons hlt']
  simp [segment_values, hget]

theorem spec_midpoint_pass_nil (values : List ℚ) : spec_midpoint_pass values [] = [] := by
  cases values <;> rfl

theorem spec_stop_pass_single (values : List ℚ) (seg : GimpGradientSegment) :
    spec_stop_pass values [seg] = [seg] := by
  cases values <;> rfl

theorem any_midpoint_moved_nil (values : List ℚ) : any_midpoint_moved values [] = false := by
  cases values <;> rfl

theorem any_stop_moved_single (values : List ℚ) (seg : GimpGradientSegment) :
    any_stop_moved values [seg] = false := by
  cases values <;> rfl

theorem line_changed_midpoints_frozen_eq (sliders : List GimpControllerSlider) (offset : ℚ)
    (reverse : Bool) :
    ∀ (rest : List GimpGradientSegment) (i : Nat), i + rest.length ≤ sliders.length →
      line_changed_midpoints_frozen sliders offset reverse rest i
        = some (spec_midpoint_pass ((segment_values offset reverse sliders).drop i) rest)
  | [], i, _ => by
      simp [line_changed_midpoints_frozen, spec_midpoint_pass_nil]
  | seg :: rest, i, h => by
      have hlt : i < sliders.length := by
        simp only [List.length_cons] at h; omega
      have hs : sliders[i]? = some (sliders[i]) := List.getElem?_eq_getElem hlt
      have ih := line_changed_midpoints_frozen_eq sliders offset reverse rest (i + 1)
        (by simp only [List.length_cons] at h; omega)
      rw [segment_values_drop offset reverse sliders i _ hs]
      simp only [line_changed_midpoints_frozen, hs, ih, spec_midpoint_pass,
        spec_apply_midpoint_edit]
      by_cases hm : |slider_value_to_segment offset reverse (sliders[i]).value - seg.middle|
          > EPSILON
      · have hm' : ¬ |slider_value_to_segment offset reverse (sliders[i]).value - seg.middle|
            ≤ EPSILON := not_le.mpr hm
        simp [hm, hm']
      · have hm' : |slider_value_to_segment offset reverse (sliders[i]).value - seg.middle|
            ≤ EPSILON := not_lt.mp hm
        simp [hm, hm']

theorem line_changed_stops_frozen_eq (sliders : List GimpControllerSlider) (offset : ℚ)
    (reverse : Bool) :
    ∀ (rest : List GimpGradientSegment) (seg : GimpGradientSegment) (i : Nat),
      i + rest.length ≤ sliders.length →
      line_changed_stops_frozen sliders offset reverse seg rest i
        = some (spec_stop_pass ((segment_values offset reverse sliders).drop i) (seg :: rest))
  | [], seg, i, _ => by
      simp [line_changed_stops_frozen, spec_stop_pass_single]
  | nxt :: rest, seg, i, h => by
      have hlt : i < sliders.length := by
        simp only [List.length_cons] at h; omega
      have hs : sliders[i]? = some (sliders[i]) := List.getElem?_eq_getElem hlt
      have hle : i + 1 + rest.length ≤ sliders.length := by
        simp only [List.length_cons] at h; omega
      rw [segment_values_drop offset reverse sliders i _ hs]
      by_cases hm : |slider_value_to_segment offset reverse (sliders[i]).value - seg.right|
          > EPSILON
      · have hm' : ¬ |slider_value_to_segment offset reverse (sliders[i]).value - seg.right|
            ≤ EPSILON := not_le.mpr hm
        have ih := line_changed_stops_frozen_eq sliders offset reverse rest
          (gimp_gradient_segment_range_compress nxt
            (slider_value_to_segment offset reverse (sliders[i]).value) nxt.right) (i + 1) hle
        simp only [line_changed_stops_frozen, hs, hm, if_true, ih, spec_stop_pass, hm',
          if_false]
      · have hm' : |slider_value_to_segment offset reverse (sliders[i]).value - seg.right|
            ≤ EPSILON := not_lt.mp hm
        have ih := line_changed_stops_frozen_eq sliders offset reverse rest nxt (i + 1) hle
        simp only [line_changed_stops_frozen, hs, hm, if_false, ih, spec_stop_pass, hm',
          if_true]

theorem spec_midpoint_pass_length :
    ∀ (values : List ℚ) (segments : List GimpGradientSegment),
      (spec_midpoint_pass values segments).length = segments.length
  | [], _ => by simp [spec_midpoint_pass]
  | _ :: _, [] => by simp [spec_midpoint_pass]
  | _ :: values, _ :: rest => by
      simp [spec_midpoint_pass, spec_midpoint_pass_length values rest]

theorem spec_midpoint_pass_of_not_moved :
    ∀ (values : List ℚ) (segments : List GimpGradientSegment),
      any_midpoint_moved values segments = false → spec_midpoint_pass values segments = segments
  | [], _, _ => by simp [spec_midpoint_pass]
  | _ :: _, [], _ => by simp [spec_midpoint_pass]
  | value :: values, seg :: rest, h => by
      simp only [any_midpoint_moved, Bool.or_eq_false_iff, decide_eq_false_iff_not,
        not_lt] at h
      simp [spec_midpoint_pass, spec_apply_midpoint_edit, h.1,
        spec_midpoint_pass_of_not_moved values rest h.2]

theorem spec_stop_pass_of_not_moved :
    ∀ (values : List ℚ) (segments : List GimpGradientSegment),
      any_stop_moved values segments = false → spec_stop_pass values segments = segments
  | [], _, _ => by simp [spec_stop_pass]
  | _ :: _, [], _ => by simp [spec_stop_pass]
  | _ :: _, [_], _ => by simp [spec_stop_pass]
  | value :: values, seg :: nxt :: rest, h => by
      simp only [any_stop_moved, Bool.or_eq_false_iff, decide_eq_false_iff_not,
        not_lt] at h
      simp [spec_stop_pass, h.1, spec_stop_pass_of_not_moved values (nxt :: rest) h.2]

theorem line_changed_midpoints_search_eq (bt bt1 : GimpBlendTool) (g g1 : GimpGradient)
    (line : GimpToolLine) (offset : ℚ) (reverse : Bool)
    (hf : freeze_gradient bt = some bt1) (hg1 : bt1.gradient = some g1)
    (hs1 : g1.segments = g.segments) (hw1 : bt1.widget = some line)
    (hsync : SlidersInSync g.segments.length line.sliders) :
    ∀ (rest pre : List GimpGradientSegment), g.segments = pre ++ rest →
      line_changed_midpoints_search bt line.sliders offset reverse rest
          (g.segments.length - 1 + pre.length)
        = some
            (if any_midpoint_moved ((segment_values offset reverse line.sliders).drop
                  (g.segments.length - 1 + pre.length)) rest = true then
              ({ bt1 with
                 gradient := some { g1 with
                   segments := pre ++ spec_midpoint_pass
                     ((segment_values offset reverse line.sliders).drop
                       (g.segments.length - 1 + pre.length)) rest } }, true)
             else (bt, false))
  | [], pre, _ => by
      simp [line_changed_midpoints_search, any_midpoint_moved_nil]
  | seg :: rest, pre, hsplit => by
      have hN : g.segments.length = pre.length + (rest.length + 1) := by
        rw [hsplit]; simp
      have hlt : g.segments.length - 1 + pre.length < line.sliders.length := by
        rw [hsync.1]; omega
      have hs : line.sliders[g.segments.length - 1 + pre.length]?
          = some (line.sliders[g.segments.length - 1 + pre.length]) :=
        List.getElem?_eq_getElem hlt
      rw [segment_values_drop offset reverse line.sliders _ _ hs]
      by_cases hm : |slider_value_to_segment offset reverse
          (line.sliders[g.segments.length - 1 + pre.length]).value - seg.middle| > EPSILON
      · have hm' : ¬ |slider_value_to_segment offset reverse
            (line.sliders[g.segments.length - 1 + pre.length]).value - seg.middle|
            ≤ EPSILON := not_le.mpr hm
        have hdata := hsync.2 _ _ hs
        have hnot : ¬ (g.segments.length - 1 + pre.length < g.segments.length - 1) := by omega
        rw [if_neg hnot] at hdata
        have hidx : g.segments.length - 1 + pre.length - (g.segments.length - 1)
            = pre.length := by omega
        rw [hidx] at hdata
        have hget : handle_get_segment bt1 ((g.segments.length - 1 + pre.length : Nat) : Int)
            = some (some pre.length) := by
          rw [handle_get_segment_slider bt1 g1 line _ _ hg1 hw1 hs, hdata,
            gimp_gradient_segment_get_nth_of_lt g1.segments pre.length
              (by rw [hs1]; omega)]
        have hseg : g1.segments[pre.length]? = some seg := by
          rw [hs1, hsplit, List.getElem?_append_right (le_refl _)]
          simp
        have hdrop : g1.segments.drop (pre.length + 1) = rest := by
          rw [hs1, hsplit]; simp
        have htake : g1.segments.take pre.length = pre := by
          rw [hs1, hsplit]; simp
        have hfro := line_changed_midpoints_frozen_eq line.sliders offset reverse rest
          (g.segments.length - 1 + pre.length + 1) (by rw [hsync.1]; omega)
        simp only [line_changed_midpoints_search, hs, hm, if_true, hf, hg1, hget, hseg,
          hdrop, htake, hfro, any_midpoint_moved, decide_True, Bool.true_or,
          spec_midpoint_pass, spec_apply_midpoint_edit, hm', if_false]
      · have hm' : |slider_value_to_segment offset reverse
            (line.sliders[g.segments.length - 1 + pre.length]).value - seg.middle|
            ≤ EPSILON := not_lt.mp hm
        have ih := line_changed_midpoints_search_eq bt bt1 g g1 line offset reverse hf hg1
          hs1 hw1 hsync rest (pre ++ [seg]) (by rw [hsplit]; simp)
        have hidx : g.segments.length - 1 + (pre ++ [seg]).length
            = g.segments.length - 1 + pre.length + 1 := by
          simp only [List.length_append, List.length_singleton]; omega
        rw [hidx] at ih
        simp only [line_changed_midpoints_search, hs, hm, if_false, ih, any_midpoint_moved,
          decide_False, Bool.false_or, spec_midpoint_pass, spec_apply_midpoint_edit, hm',
          if_true, List.append_assoc, List.singleton_append]

theorem line_changed_stops_search_eq (bt bt1 : GimpBlendTool) (g g1 : GimpGradient)
    (line : GimpToolLine) (offset : ℚ) (reverse : Bool)
    (hf : freeze_gradient bt = some bt1) (hg1 : bt1.gradient = some g1)
    (hs1 : g1.segments = g.segments) (hw1 : bt1.widget = some line)
    (hsync : SlidersInSync g.segments.length line.sliders) :
    ∀ (rest : List GimpGradientSegment) (seg : GimpGradientSegment)
      (pre : List GimpGradientSegment), g.segments = pre ++ seg :: rest →
      line_changed_stops_search bt line.sliders offset reverse seg rest pre.length
        = some
            (if any_stop_moved ((segment_values offset reverse line.sliders).drop pre.length)
                  (seg :: rest) = true then
              ({ bt1 with
                 gradient := some { g1 with
                   segments := pre ++ spec_stop_pass
                     ((segment_values offset reverse line.sliders).drop pre.length)
                     (seg :: rest) } }, true)
             else (bt, false))
  | [], seg, pre, _ => by
      simp [line_changed_stops_search, any_stop_moved_single]
  | nxt :: rest, seg, pre, hsplit => by
      have hN : g.segments.length = pre.length + (rest.length + 2) := by
        rw [hsplit]; simp
      have hlt : pre.length < line.sliders.length := by
        rw [hsync.1]; omega
      have hs : line.sliders[pre.length]? = some (line.sliders[pre.length]) :=
        List.getElem?_eq_getElem hlt
      rw [segment_values_drop offset reverse line.sliders _ _ hs]
      by_cases hm : |slider_value_to_segment offset reverse
          (line.sliders[pre.length]).value - seg.right| > EPSILON
      · have hm' : ¬ |slider_value_to_segment offset reverse
            (line.sliders[pre.length]).value - seg.right| ≤ EPSILON := not_le.mpr hm
        have hdata := hsync.2 _ _ hs
        have hyes : pre.length < g.segments.length - 1 := by omega
        rw [if_pos hyes] at hdata
        have hget : handle_get_segment bt1 ((pre.length : Nat) : Int)
            = some (some pre.length) := by
          rw [handle_get_segment_slider bt1 g1 line _ _ hg1 hw1 hs, hdata,
            gimp_gradient_segment_get_nth_of_lt g1.segments pre.length
              (by rw [hs1]; omega)]
        have hdrop : g1.segments.drop pre.length = seg :: nxt :: rest := by
          rw [hs1, hsplit]; simp
        have htake : g1.segments.take pre.length = pre := by
          rw [hs1, hsplit]; simp
        have hfro := line_changed_stops_frozen_eq line.sliders offset reverse rest
          (gimp_gradient_segment_range_compress nxt
            (slider_value_to_segment offset reverse (line.sliders[pre.length]).value)
            nxt.right)
          (pre.length + 1) (by rw [hsync.1]; omega)
        simp only [line_changed_stops_search, hs, hm, if_true, hf, hg1, hget, hdrop, htake,
          hfro, any_stop_moved, decide_True, Bool.true_or, spec_stop_pass, hm', if_false]
      · have hm' : |slider_value_to_segment offset reverse
            (line.sliders[pre.length]).value - seg.right| ≤ EPSILON := not_lt.mp hm
        have ih := line_changed_stops_search_eq bt bt1 g g1 line offset reverse hf hg1
          hs1 hw1 hsync rest nxt (pre ++ [seg]) (by rw [hsplit]; simp)
        have hidx : (pre ++ [seg]).length = pre.length + 1 := by simp
        rw [hidx] at ih
        simp only [line_changed_stops_search, hs, hm, if_false, ih, any_stop_moved,
          decide_False, Bool.false_or, spec_stop_pass, hm', if_true, List.append_assoc,
          List.singleton_append]

theorem line_changed_eq (dflt : GimpControllerSlider) (bt bt1 : GimpBlendTool)
    (g g1 : GimpGradient) (line : GimpToolLine)
    (hcount : bt.block_handlers_count = 0)
    (hg : bt.gradient = some g) (hw : bt.widget = some line)
    (hoff : bt.options.offset / 100 ≠ 1) (hN : g.segments.length ≠ 0)
    (hsync : SlidersInSync g.segments.length line.sliders)
    (hf : freeze_gradient bt = some bt1) (hg1 : bt1.gradient = some g1)
    (hs1 : g1.segments = g.segments) (hw1 : bt1.widget = some line) :
    line_changed dflt bt =
      if (any_midpoint_moved
            ((segment_values (bt.options.offset / 100) bt.options.gradient_reverse
              line.sliders).drop (g.segments.length - 1)) g.segments
          || any_stop_moved
            (segment_values (bt.options.offset / 100) bt.options.gradient_reverse
              line.sliders) g.segments) = true then
        match thaw_gradient dflt
            { bt1 with
              gradient := some { g1 with
                segments := spec_stop_pass
                  (segment_values (bt.options.offset / 100) bt.options.gradient_reverse
                    line.sliders)
                  (spec_midpoint_pass
                    ((segment_values (bt.options.offset / 100) bt.options.gradient_reverse
                      line.sliders).drop (g.segments.length - 1)) g.segments) } } with
        | none => none
        | some bt3 => update_gui bt3
      else update_gui bt := by
  have hblk : are_handlers_blocked bt = false := by
    simp [are_handlers_blocked, hcount]
  have hlen : line.sliders.length ≠ 0 := by
    rw [hsync.1]; omega
  have hhalf : line.sliders.length / 2 = g.segments.length - 1 := by
    rw [hsync.1]; omega
  have hmid := line_changed_midpoints_search_eq bt bt1 g g1 line (bt.options.offset / 100)
    bt.options.gradient_reverse hf hg1 hs1 hw1 hsync g.segments [] rfl
  simp only [List.length_nil, Nat.add_zero, List.nil_append] at hmid
  simp only [line_changed, hblk, hg, hoff, hw, hlen, hhalf, hmid, if_false,
    Bool.false_eq_true]
  cases hmm : any_midpoint_moved
      ((segment_values (bt.options.offset / 100) bt.options.gradient_reverse
        line.sliders).drop (g.segments.length - 1)) g.segments with
  | true =>
      simp only [if_true, Bool.true_or]
      have hMlen := spec_midpoint_pass_length
        ((segment_values (bt.options.offset / 100) bt.options.gradient_reverse
          line.sliders).drop (g.segments.length - 1)) g.segments
      cases hM : spec_midpoint_pass
          ((segment_values (bt.options.offset / 100) bt.options.gradient_reverse
            line.sliders).drop (g.segments.length - 1)) g.segments with
      | nil =>
          rw [hM] at hMlen
          simp only [List.length_nil] at hMlen
          omega
      | cons seg rest =>
          rw [hM] at hMlen
          have hfro := line_changed_stops_frozen_eq line.sliders (bt.options.offset / 100)
            bt.options.gradient_reverse rest seg 0
            (by
              simp only [List.length_cons] at hMlen
              rw [hsync.1]; omega)
          simp only [List.drop_zero] at hfro
          simp only [line_changed_stops, hfro, if_true]
  | false =>
      simp only [Bool.false_eq_true, if_false, Bool.false_or]
      rw [spec_midpoint_pass_of_not_moved _ _ hmm]
      cases hS : g.segments with
      | nil => simp [hS] at hN
      | cons seg rest =>
          have hst := line_changed_stops_search_eq bt bt1 g g1 line (bt.options.offset / 100)
            bt.options.gradient_reverse hf hg1 hs1 hw1 hsync rest seg [] (by simpa using hS)
          simp only [List.length_nil, List.drop_zero, List.nil_append] at hst
          simp only [line_changed_stops, hg, hS, hst, Bool.false_eq_true, if_false]
          cases hsm : any_stop_moved
              (segment_values (bt.options.offset / 100) bt.options.gradient_reverse
                line.sliders) (seg :: rest) with
          | true => simp only [if_true]
          | false => simp only [Bool.false_eq_true, if_false]

theorem spec_stop_pass_length :
    ∀ (values : List ℚ) (segments : List GimpGradientSegment),
      (spec_stop_pass values segments).length = segments.length
  | [], _ => by simp [spec_stop_pass]
  | _ :: _, [] => by simp [spec_stop_pass]
  | _ :: _, [_] => by simp [spec_stop_pass]
  | value :: values, seg :: nxt :: rest => by
      by_cases hm : |value - seg.right| ≤ EPSILON
      · simp [spec_stop_pass, hm, spec_stop_pass_length values (nxt :: rest)]
      · simp [spec_stop_pass, hm,
          spec_stop_pass_length values
            (gimp_gradient_segment_range_compress nxt value nxt.right :: rest)]

/-- The outcome of `line_changed` on an unblocked tool whose slider array is in
step with the chain: the chain becomes the spec's stop pass of the spec's
midpoint pass; when nothing moved the call is `update_gui` alone. -/
theorem line_changed_chain (dflt : GimpControllerSlider) (bt : GimpBlendTool)
    (g : GimpGradient) (line : GimpToolLine)
    (hcount : bt.block_handlers_count = 0)
    (hg : bt.gradient = some g) (hw : bt.widget = some line)
    (hoff : bt.options.offset / 100 ≠ 1) (hN : g.segments.length ≠ 0)
    (hsync : SlidersInSync g.segments.length line.sliders)
    (hedit : is_gradient_editable bt = true) :
    ∃ bt2 g2, line_changed dflt bt = some bt2 ∧ bt2.gradient = some g2 ∧
      g2.segments = spec_stop_pass
        (segment_values (bt.options.offset / 100) bt.options.gradient_reverse line.sliders)
        (spec_midpoint_pass
          ((segment_values (bt.options.offset / 100) bt.options.gradient_reverse
            line.sliders).drop (g.segments.length - 1)) g.segments) ∧
      bt2.block_handlers_count = 0 ∧ bt2.options = bt.options ∧
      ((any_midpoint_moved
            ((segment_values (bt.options.offset / 100) bt.options.gradient_reverse
              line.sliders).drop (g.segments.length - 1)) g.segments
          || any_stop_moved
            (segment_values (bt.options.offset / 100) bt.options.gradient_reverse
              line.sliders) g.segments) = false →
        line_changed dflt bt = update_gui bt ∧ bt2.gradient = bt.gradient ∧
        bt2.widget = bt.widget ∧ bt2.gradient_is_custom = bt.gradient_is_custom ∧
        bt2.custom = bt.custom) := by
  obtain ⟨bt1, g1, hf, hg1, hs1, hw1, ho1, hc1⟩ := freeze_gradient_spec bt g hg hedit
  have heq := line_changed_eq dflt bt bt1 g g1 line hcount hg hw hoff hN hsync hf hg1 hs1
    (by rw [hw1]; exact hw)
  cases hmv : (any_midpoint_moved
        ((segment_values (bt.options.offset / 100) bt.options.gradient_reverse
          line.sliders).drop (g.segments.length - 1)) g.segments
      || any_stop_moved
        (segment_values (bt.options.offset / 100) bt.options.gradient_reverse
          line.sliders) g.segments) with
  | true =>
      rw [hmv] at heq
      simp only [if_true] at heq
      obtain ⟨bt3, h3, _, g3, o3, _, _, c3⟩ := thaw_gradient_spec dflt
        { bt1 with
          gradient := some { g1 with
            segments := spec_stop_pass
              (segment_values (bt.options.offset / 100) bt.options.gradient_reverse
                line.sliders)
              (spec_midpoint_pass
                ((segment_values (bt.options.offset / 100) bt.options.gradient_reverse
                  line.sliders).drop (g.segments.length - 1)) g.segments) } }
        { g1 with
          segments := spec_stop_pass
            (segment_values (bt.options.offset / 100) bt.options.gradient_reverse
              line.sliders)
            (spec_midpoint_pass
              ((segment_values (bt.options.offset / 100) bt.options.gradient_reverse
                line.sliders).drop (g.segments.length - 1)) g.segments) }
        rfl
        (by
          show (spec_stop_pass _ _).length ≠ 0
          rw [spec_stop_pass_length, spec_midpoint_pass_length]
          exact hN)
        (by
          show 0 < bt1.block_handlers_count
          omega)
      have hc3 : bt3.block_handlers_count = 0 := by
        rw [c3]
        show bt1.block_handlers_count - 1 = 0
        omega
      obtain ⟨bt4, h4, _, g4, o4, _, _, c4⟩ := update_gui_spec bt3 _ g3
        (by
          show (spec_stop_pass _ _).length ≠ 0
          rw [spec_stop_pass_length, spec_midpoint_pass_length]
          exact hN)
        (by rw [hc3])
      refine ⟨bt4, _, ?_, by rw [g4, g3], rfl, by rw [c4, hc3], ?_, ?_⟩
      · rw [heq, h3]
        exact h4
      · rw [o4, o3]
        exact ho1
      · intro h
        cases h
  | false =>
      rw [hmv] at heq
      simp only [Bool.false_eq_true, if_false] at heq
      obtain ⟨bt2, h2, w2, g2, o2, i2, c2, n2⟩ := update_gui_spec bt g hg hN
        (by rw [hcount])
      have hparts := Bool.or_eq_false_iff.mp hmv
      refine ⟨bt2, g, ?_, by rw [g2, hg], ?_, by rw [n2, hcount], o2, ?_⟩
      · rw [heq]
        exact h2
      · rw [spec_midpoint_pass_of_not_moved _ _ hparts.1,
          spec_stop_pass_of_not_moved _ _ hparts.2]
      · intro _
        exact ⟨heq, g2, w2, i2, c2⟩

theorem segment_values_getElem? (offset : ℚ) (reverse : Bool)
    (sliders : List GimpControllerSlider) (n k : Nat) :
    ((segment_values offset reverse sliders).drop n)[k]?
      = (sliders[n + k]?).map
          (fun slider => slider_value_to_segment offset reverse slider.value) := by
  rw [List.getElem?_drop]
  simp [segment_values]

theorem any_midpoint_moved_of_within :
    ∀ (values : List ℚ) (segments : List GimpGradientSegment),
      (∀ (k : Nat) (seg : GimpGradientSegment) (v : ℚ),
        segments[k]? = some seg → values[k]? = some v → |v - seg.middle| ≤ EPSILON) →
      any_midpoint_moved values segments = false
  | [], _, _ => by simp [any_midpoint_moved]
  | _ :: _, [], _ => by simp [any_midpoint_moved]
  | value :: values, seg :: rest, h => by
      have h0 : |value - seg.middle| ≤ EPSILON := h 0 seg value (by simp) (by simp)
      have ih := any_midpoint_moved_of_within values rest
        (fun k s v hs hv => h (k + 1) s v (by simpa using hs) (by simpa using hv))
      simp [any_midpoint_moved, not_lt.mpr h0, ih]

theorem any_stop_moved_of_within :
    ∀ (values : List ℚ) (segments : List GimpGradientSegment),
      (∀ (i : Nat) (seg nxt : GimpGradientSegment) (v : ℚ),
        segments[i]? = some seg → segments[i + 1]? = some nxt → values[i]? = some v →
        |v - seg.right| ≤ EPSILON) →
      any_stop_moved values segments = false
  | [], _, _ => by simp [any_stop_moved]
  | _ :: _, [], _ => by simp [any_stop_moved]
  | _ :: _, [_], _ => by simp [any_stop_moved]
  | value :: values, seg :: nxt :: rest, h => by
      have h0 : |value - seg.right| ≤ EPSILON := h 0 seg nxt value (by simp) (by simp) (by simp)
      have ih := any_stop_moved_of_within values (nxt :: rest)
        (fun i s n v hs hn hv => h (i + 1) s n v (by simpa using hs) (by simpa using hn)
          (by simpa using hv))
      simp [any_stop_moved, not_lt.mpr h0, ih]

theorem spec_midpoint_pass_getElem? :
    ∀ (values : List ℚ) (segments : List GimpGradientSegment) (j : Nat)
      (seg : GimpGradientSegment), segments[j]? = some seg →
      (spec_midpoint_pass values segments)[j]?
        = some (match values[j]? with
                | some v => spec_apply_midpoint_edit seg v
                | none => seg)
  | [], _, _, _, h => by simpa [spec_midpoint_pass] using h
  | _ :: _, [], _, _, h => by simp at h
  | value :: values, s :: rest, 0, seg, h => by
      simp at h
      subst h
      simp [spec_midpoint_pass]
  | value :: values, s :: rest, j + 1, seg, h => by
      have ih := spec_midpoint_pass_getElem? values rest j seg (by simpa using h)
      simpa [spec_midpoint_pass] using ih

theorem spec_apply_midpoint_edit_ends (seg : GimpGradientSegment) (v : ℚ) :
    (spec_apply_midpoint_edit seg v).left = seg.left ∧
    (spec_apply_midpoint_edit seg v).right = seg.right := by
  unfold spec_apply_midpoint_edit
  split <;> exact ⟨rfl, rfl⟩

theorem spec_midpoint_pass_ends (values : List ℚ) (segments : List GimpGradientSegment)
    (j : Nat) (seg : GimpGradientSegment) (h : segments[j]? = some seg) :
    ∃ m, (spec_midpoint_pass values segments)[j]? = some m ∧
      m.left = seg.left ∧ m.right = seg.right := by
  rw [spec_midpoint_pass_getElem? values segments j seg h]
  cases values[j]? with
  | none => exact ⟨seg, rfl, rfl, rfl⟩
  | some v =>
      exact ⟨_, rfl, (spec_apply_midpoint_edit_ends seg v).1,
        (spec_apply_midpoint_edit_ends seg v).2⟩

theorem spec_midpoint_pass_map_ends :
    ∀ (values : List ℚ) (segments : List GimpGradientSegment),
      (spec_midpoint_pass values segments).map (fun seg => (seg.left, seg.right))
        = segments.map (fun seg => (seg.left, seg.right))
  | [], _ => by simp [spec_midpoint_pass]
  | _ :: _, [] => by simp [spec_midpoint_pass]
  | value :: values, seg :: rest => by
      simp [spec_midpoint_pass, spec_midpoint_pass_map_ends values rest,
        (spec_apply_midpoint_edit_ends seg value).1,
        (spec_apply_midpoint_edit_ends seg value).2]

theorem chain'_of_map_ends (a b : List GimpGradientSegment)
    (h : a.map (fun seg => (seg.left, seg.right)) = b.map (fun seg => (seg.left, seg.right)))
    (hb : b.Chain' (fun seg nxt => seg.right = nxt.left)) :
    a.Chain' (fun seg nxt => seg.right = nxt.left) := by
  have hb' : (b.map (fun seg => (seg.left, seg.right))).Chain'
      (fun (p q : ℚ × ℚ) => p.2 = q.1) := (List.chain'_map _).mpr hb
  rw [← h] at hb'
  exact (List.chain'_map _).mp hb'

theorem spec_stop_pass_head (values : List ℚ) (seg : GimpGradientSegment)
    (rest : List GimpGradientSegment) :
    ∃ a, spec_stop_pass values (seg :: rest) = a :: (spec_stop_pass values (seg :: rest)).tail ∧
      a.left = seg.left := by
  cases values with
  | nil => exact ⟨seg, by simp [spec_stop_pass], rfl⟩
  | cons value values =>
      cases rest with
      | nil => exact ⟨seg, by simp [spec_stop_pass], rfl⟩
      | cons nxt rest =>
          by_cases hm : |value - seg.right| ≤ EPSILON
          · exact ⟨seg, by simp [spec_stop_pass, hm], rfl⟩
          · exact ⟨gimp_gradient_segment_range_compress seg seg.left value,
              by simp [spec_stop_pass, hm], rfl⟩

theorem spec_stop_pass_pairs :
    ∀ (values : List ℚ) (segments : List GimpGradientSegment) (i : Nat)
      (seg nxt : GimpGradientSegment) (v : ℚ),
      segments[i]? = some seg → segments[i + 1]? = some nxt → values[i]? = some v →
      ∃ a b, (spec_stop_pass values segments)[i]? = some a ∧
        (spec_stop_pass values segments)[i + 1]? = some b ∧
        (|v - seg.right| > EPSILON → a.right = v ∧ b.left = v) ∧
        (|v - seg.right| ≤ EPSILON → a.right = seg.right ∧ b.left = nxt.left)
  | [], _, _, _, _, _, _, _, hv => by simp at hv
  | _ :: _, [], _, _, _, _, hs, _, _ => by simp at hs
  | _ :: _, [_], _, _, _, _, _, hn, _ => by simp at hn
  | value :: values, seg0 :: nxt0 :: rest, 0, seg, nxt, v, hs, hn, hv => by
      simp at hs hn hv
      subst hs hn hv
      by_cases hm : |value - seg0.right| ≤ EPSILON
      · obtain ⟨b, hb, hbl⟩ := spec_stop_pass_head values nxt0 rest
        refine ⟨seg0, b, by simp [spec_stop_pass, hm], ?_, ?_, ?_⟩
        · simp only [spec_stop_pass, hm, if_true]
          rw [hb]
          simp
        · intro h
          exact absurd hm (not_le.mpr h)
        · intro _
          exact ⟨rfl, hbl⟩
      · obtain ⟨b, hb, hbl⟩ := spec_stop_pass_head values
          (gimp_gradient_segment_range_compress nxt0 value nxt0.right) rest
        refine ⟨gimp_gradient_segment_range_compress seg0 seg0.left value, b,
          by simp [spec_stop_pass, hm], ?_, ?_, ?_⟩
        · simp only [spec_stop_pass, hm, if_false]
          rw [hb]
          simp
        · intro _
          exact ⟨rfl, hbl⟩
        · intro h
          exact absurd h hm
  | value :: values, seg0 :: nxt0 :: rest, i + 1, seg, nxt, v, hs, hn, hv => by
      have hs' : (nxt0 :: rest)[i]? = some seg := by simpa using hs
      have hn' : (nxt0 :: rest)[i + 1]? = some nxt := by simpa using hn
      have hv' : values[i]? = some v := by simpa using hv
      by_cases hm : |value - seg0.right| ≤ EPSILON
      · obtain ⟨a, b, ha, hb, h1, h2⟩ :=
          spec_stop_pass_pairs values (nxt0 :: rest) i seg nxt v hs' hn' hv'
        refine ⟨a, b, ?_, ?_, h1, h2⟩
        · simpa [spec_stop_pass, hm] using ha
        · simpa [spec_stop_pass, hm] using hb
      · cases i with
        | zero =>
            have hseg : nxt0 = seg := by simpa using hs'
            subst hseg
            obtain ⟨a, b, ha, hb, h1, h2⟩ :=
              spec_stop_pass_pairs values
                (gimp_gradient_segment_range_compress nxt0 value nxt0.right :: rest) 0
                (gimp_gradient_segment_range_compress nxt0 value nxt0.right) nxt v
                (by simp) (by simpa using hn') hv'
            refine ⟨a, b, ?_, ?_, h1, h2⟩
            · simpa [spec_stop_pass, hm] using ha
            · simpa [spec_stop_pass, hm] using hb
        | succ j =>
            obtain ⟨a, b, ha, hb, h1, h2⟩ :=
              spec_stop_pass_pairs values
                (gimp_gradient_segment_range_compress nxt0 value nxt0.right :: rest) (j + 1)
                seg nxt v (by simpa using hs') (by simpa using hn') hv'
            refine ⟨a, b, ?_, ?_, h1, h2⟩
            · simpa [spec_stop_pass, hm] using ha
            · simpa [spec_stop_pass, hm] using hb

theorem spec_stop_pass_first_left (values : List ℚ) (segments : List GimpGradientSegment) :
    (spec_stop_pass values segments).head?.map (fun seg => seg.left)
      = segments.head?.map (fun seg => seg.left) := by
  cases segments with
  | nil => cases values <;> simp [spec_stop_pass]
  | cons seg rest =>
      obtain ⟨a, ha, hal⟩ := spec_stop_pass_head values seg rest
      rw [ha]
      simp [hal]

theorem spec_stop_pass_last_right :
    ∀ (values : List ℚ) (segments : List GimpGradientSegment),
      (spec_stop_pass values segments).getLast?.map (fun seg => seg.right)
        = segments.getLast?.map (fun seg => seg.right)
  | [], _ => by simp [spec_stop_pass]
  | _ :: _, [] => by simp [spec_stop_pass]
  | _ :: _, [_] => by simp [spec_stop_pass]
  | value :: values, seg :: nxt :: rest => by
      by_cases hm : |value - seg.right| ≤ EPSILON
      · obtain ⟨b, hb, _⟩ := spec_stop_pass_head values nxt rest
        have ih := spec_stop_pass_last_right values (nxt :: rest)
        simp only [spec_stop_pass, hm, if_true]
        rw [hb] at ih ⊢
        rw [List.getLast?_cons_cons, ih, List.getLast?_cons_cons]
      · obtain ⟨b, hb, _⟩ := spec_stop_pass_head values
          (gimp_gradient_segment_range_compress nxt value nxt.right) rest
        have ih := spec_stop_pass_last_right values
          (gimp_gradient_segment_range_compress nxt value nxt.right :: rest)
        simp only [spec_stop_pass, hm, if_false]
        rw [hb] at ih ⊢
        rw [List.getLast?_cons_cons, ih, List.getLast?_cons_cons]
        cases rest with
        | nil => simp [gimp_gradient_segment_range_compress]
        | cons r rest => simp

theorem spec_stop_pass_chain' :
    ∀ (values : List ℚ) (segments : List GimpGradientSegment),
      segments.Chain' (fun seg nxt => seg.right = nxt.left) →
      (spec_stop_pass values segments).Chain' (fun seg nxt => seg.right = nxt.left)
  | [], _, h => by simpa [spec_stop_pass] using h
  | _ :: _, [], _ => by simp [spec_stop_pass]
  | _ :: _, [_], _ => by simp [spec_stop_pass]
  | value :: values, seg :: nxt :: rest, h => by
      obtain ⟨hR, ht⟩ := List.chain'_cons.mp h
      by_cases hm : |value - seg.right| ≤ EPSILON
      · obtain ⟨b, hb, hbl⟩ := spec_stop_pass_head values nxt rest
        have ih := spec_stop_pass_chain' values (nxt :: rest) ht
        simp only [spec_stop_pass, hm, if_true]
        rw [hb] at ih ⊢
        exact List.chain'_cons.mpr ⟨by rw [hbl]; exact hR, ih⟩
      · obtain ⟨b, hb, hbl⟩ := spec_stop_pass_head values
          (gimp_gradient_segment_range_compress nxt value nxt.right) rest
        have ht' : (gimp_gradient_segment_range_compress nxt value nxt.right :: rest).Chain'
            (fun seg nxt => seg.right = nxt.left) := by
          rw [List.chain'_cons'] at ht ⊢
          exact ⟨fun y hy => ht.1 y hy, ht.2⟩
        have ih := spec_stop_pass_chain' values
          (gimp_gradient_segment_range_compress nxt value nxt.right :: rest) ht'
        simp only [spec_stop_pass, hm, if_false]
        rw [hb] at ih ⊢
        exact List.chain'_cons.mpr ⟨by rw [hbl]; rfl, ih⟩

/-! ## `line_changed` when nothing moved -/

theorem slider_value_to_segment_inverse (offset : ℚ) (reverse : Bool) (hoff : offset ≠ 1)
    (s : GimpControllerSlider) :
    slider_value_to_segment offset reverse
      (offset_slider offset (if reverse then flip_slider s else s)).value = s.value := by
  have hne : (1 : ℚ) - offset ≠ 0 := by
    intro h
    apply hoff
    linarith
  cases reverse
  · simp only [slider_value_to_segment, offset_slider, Bool.false_eq_true, if_false]
    field_simp
  · simp only [slider_value_to_segment, offset_slider, flip_slider, if_true]
    field_simp

theorem line_changed_midpoints_search_of_not_moved (bt : GimpBlendTool)
    (sliders : List GimpControllerSlider) (offset : ℚ) (reverse : Bool) :
    ∀ (rest : List GimpGradientSegment) (i : Nat), i + rest.length ≤ sliders.length →
      any_midpoint_moved ((segment_values offset reverse sliders).drop i) rest = false →
      line_changed_midpoints_search bt sliders offset reverse rest i = some (bt, false)
  | [], _, _, _ => by simp [line_changed_midpoints_search]
  | seg :: rest, i, h, hnm => by
      have hlt : i < sliders.length := by
        simp only [List.length_cons] at h; omega
      have hs : sliders[i]? = some (sliders[i]) := List.getElem?_eq_getElem hlt
      rw [segment_values_drop offset reverse sliders i _ hs] at hnm
      simp only [any_midpoint_moved, Bool.or_eq_false_iff, decide_eq_false_iff_not] at hnm
      have ih := line_changed_midpoints_search_of_not_moved bt sliders offset reverse rest
        (i + 1) (by simp only [List.length_cons] at h; omega) hnm.2
      simp only [line_changed_midpoints_search, hs, hnm.1, if_false, ih]

theorem line_changed_stops_search_of_not_moved (bt : GimpBlendTool)
    (sliders : List GimpControllerSlider) (offset : ℚ) (reverse : Bool) :
    ∀ (rest : List GimpGradientSegment) (seg : GimpGradientSegment) (i : Nat),
      i + rest.length ≤ sliders.length →
      any_stop_moved ((segment_values offset reverse sliders).drop i) (seg :: rest) = false →
      line_changed_stops_search bt sliders offset reverse seg rest i = some (bt, false)
  | [], _, _, _, _ => by simp [line_changed_stops_search]
  | nxt :: rest, seg, i, h, hnm => by
      have hlt : i < sliders.length := by
        simp only [List.length_cons] at h; omega
      have hs : sliders[i]? = some (sliders[i]) := List.getElem?_eq_getElem hlt
      rw [segment_values_drop offset reverse sliders i _ hs] at hnm
      simp only [any_stop_moved, Bool.or_eq_false_iff, decide_eq_false_iff_not] at hnm
      have ih := line_changed_stops_search_of_not_moved bt sliders offset reverse rest nxt
        (i + 1) (by simp only [List.length_cons] at h; omega) hnm.2
      simp only [line_changed_stops_search, hs, hnm.1, if_false, ih]

theorem line_changed_of_not_moved (dflt : GimpControllerSlider) (bt : GimpBlendTool)
    (g : GimpGradient) (line : GimpToolLine)
    (hg : bt.gradient = some g) (hw : bt.widget = some line)
    (hoff : bt.options.offset / 100 ≠ 1) (hN : g.segments.length ≠ 0)
    (hlen : line.sliders.length = 2 * g.segments.length - 1)
    (hmid : any_midpoint_moved
      ((segment_values (bt.options.offset / 100) bt.options.gradient_reverse
        line.sliders).drop (g.segments.length - 1)) g.segments = false)
    (hstop : any_stop_moved
      (segment_values (bt.options.offset / 100) bt.options.gradient_reverse line.sliders)
      g.segments = false) :
    line_changed dflt bt = if are_handlers_blocked bt = true then some bt else update_gui bt := by
  cases hblk : are_handlers_blocked bt with
  | true => simp [line_changed, hblk]
  | false =>
      have hl0 : line.sliders.length ≠ 0 := by rw [hlen]; omega
      have hhalf : line.sliders.length / 2 = g.segments.length - 1 := by rw [hlen]; omega
      have hm := line_changed_midpoints_search_of_not_moved bt line.sliders
        (bt.options.offset / 100) bt.options.gradient_reverse g.segments
        (g.segments.length - 1) (by rw [hlen]; omega) hmid
      cases hS : g.segments with
      | nil => simp [hS] at hN
      | cons seg rest =>
          have hst := line_changed_stops_search_of_not_moved bt line.sliders
            (bt.options.offset / 100) bt.options.gradient_reverse rest seg 0
            (by
              have : g.segments.length = rest.length + 1 := by rw [hS]; simp
              rw [hlen]; omega)
            (by rw [List.drop_zero, ← hS]; exact hstop)
          rw [hS] at hm
          simp only [line_changed, hblk, hg, hoff, hw, hl0, hhalf, hS, hm, line_changed_stops,
            hst, if_false, Bool.false_eq_true]

theorem update_sliders_array_in_sync (dflt : GimpControllerSlider) (editable : Bool)
    (offset : ℚ) (reverse : Bool) (segments : List GimpGradientSegment) :
    SlidersInSync segments.length
      (update_sliders_array dflt editable offset reverse segments) := by
  refine ⟨by rw [update_sliders_array_length]; omega, ?_⟩
  intro i slider hs
  have hi : i < (segments.length - 1) + segments.length := by
    rcases List.getElem?_eq_some_iff.mp hs with ⟨h, _⟩
    rwa [update_sliders_array_length] at h
  by_cases hlt : i < segments.length - 1
  · obtain ⟨t, ht, hd⟩ :=
      update_sliders_array_data_stop dflt editable offset reverse segments i (by omega)
    rw [hs] at ht
    rw [if_pos hlt, Option.some.inj ht, hd]
  · obtain ⟨t, ht, hd⟩ :=
      update_sliders_array_data_midpoint dflt editable offset reverse segments
        (i - (segments.length - 1)) (by omega)
    have hidx : segments.length - 1 + (i - (segments.length - 1)) = i := by omega
    rw [hidx, hs] at ht
    rw [if_neg hlt, Option.some.inj ht, hd]

theorem update_sliders_array_values (dflt : GimpControllerSlider) (editable : Bool)
    (offset : ℚ) (reverse : Bool) (hoff : offset ≠ 1)
    (segments : List GimpGradientSegment) (i : Nat) (slider : GimpControllerSlider)
    (hs : (update_sliders_array dflt editable offset reverse segments)[i]? = some slider) :
    (∀ seg nxt, segments[i]? = some seg → segments[i + 1]? = some nxt →
      slider_value_to_segment offset reverse slider.value = seg.right) ∧
    (∀ k seg, i = segments.length - 1 + k → segments[k]? = some seg →
      slider_value_to_segment offset reverse slider.value = seg.middle) := by
  constructor
  · intro seg nxt h1 h2
    rw [update_sliders_array_getElem?, initial_sliders_stop dflt editable segments i seg nxt h1 h2]
      at hs
    simp only [Option.map_some', Option.some.injEq] at hs
    rw [← hs, slider_value_to_segment_inverse offset reverse hoff]
    rfl
  · intro k seg hi h1
    subst hi
    rw [update_sliders_array_getElem?, initial_sliders_midpoint dflt editable segments k seg h1]
      at hs
    simp only [Option.map_some', Option.some.injEq] at hs
    rw [← hs, slider_value_to_segment_inverse offset reverse hoff]
    rfl

theorem drag_slider_getElem?_ne (sliders : List GimpControllerSlider) (i j : Nat) (value : ℚ)
    (h : j ≠ i) : (drag_slider sliders i value)[j]? = sliders[j]? := by
  unfold drag_slider
  cases sliders[i]? with
  | none => rfl
  | some slider => simp [List.getElem?_set_ne (Ne.symm h)]

theorem drag_slider_getElem?_eq (sliders : List GimpControllerSlider) (i : Nat) (value : ℚ)
    (slider : GimpControllerSlider) (h : sliders[i]? = some slider) :
    (drag_slider sliders i value)[i]? = some { slider with value := value } := by
  obtain ⟨hlt, _⟩ := List.getElem?_eq_some_iff.mp h
  unfold drag_slider
  rw [h]
  simp [hlt]

theorem drag_slider_in_sync (n : Nat) (sliders : List GimpControllerSlider) (i : Nat)
    (value : ℚ) (h : SlidersInSync n sliders) : SlidersInSync n (drag_slider sliders i value) := by
  cases hs : sliders[i]? with
  | none =>
      unfold drag_slider
      rw [hs]
      exact h
  | some slider =>
      refine ⟨?_, ?_⟩
      · unfold drag_slider
        rw [hs]
        simpa using h.1
      · intro j t ht
        by_cases hj : j = i
        · subst hj
          rw [drag_slider_getElem?_eq sliders j value slider hs] at ht
          rw [← Option.some.inj ht]
          exact h.2 j slider hs
        · rw [drag_slider_getElem?_ne sliders i j value hj] at ht
          exact h.2 j t ht

theorem EPSILON_nonneg : (0 : ℚ) ≤ EPSILON := by
  norm_num [EPSILON]

theorem built_midpoint_within (dflt : GimpControllerSlider) (editable : Bool)
    (offset : ℚ) (reverse : Bool) (hoff : offset ≠ 1)
    (segments : List GimpGradientSegment) (k : Nat) (seg : GimpGradientSegment)
    (slider : GimpControllerSlider) (hk : segments[k]? = some seg)
    (hs : (update_sliders_array dflt editable offset reverse segments)[segments.length - 1 + k]?
      = some slider) :
    |slider_value_to_segment offset reverse slider.value - seg.middle| ≤ EPSILON := by
  rw [(update_sliders_array_values dflt editable offset reverse hoff segments _ slider hs).2
    k seg rfl hk]
  simpa using EPSILON_nonneg

theorem built_stop_within (dflt : GimpControllerSlider) (editable : Bool)
    (offset : ℚ) (reverse : Bool) (hoff : offset ≠ 1)
    (segments : List GimpGradientSegment) (i : Nat) (seg nxt : GimpGradientSegment)
    (slider : GimpControllerSlider) (hi : segments[i]? = some seg)
    (hn : segments[i + 1]? = some nxt)
    (hs : (update_sliders_array dflt editable offset reverse segments)[i]? = some slider) :
    |slider_value_to_segment offset reverse slider.value - seg.right| ≤ EPSILON := by
  rw [(update_sliders_array_values dflt editable offset reverse hoff segments _ slider hs).1
    seg nxt hi hn]
  simpa using EPSILON_nonneg

theorem any_midpoint_moved_of_sliders (offset : ℚ) (reverse : Bool)
    (sliders : List GimpControllerSlider) (segments : List GimpGradientSegment)
    (h : ∀ (k : Nat) (seg : GimpGradientSegment) (slider : GimpControllerSlider),
      segments[k]? = some seg → sliders[segments.length - 1 + k]? = some slider →
      |slider_value_to_segment offset reverse slider.value - seg.middle| ≤ EPSILON) :
    any_midpoint_moved ((segment_values offset reverse sliders).drop (segments.length - 1))
      segments = false := by
  apply any_midpoint_moved_of_within
  intro k seg v hk hv
  rw [segment_values_getElem?] at hv
  cases hs : sliders[segments.length - 1 + k]? with
  | none => simp [hs] at hv
  | some slider =>
      simp only [hs, Option.map_some', Option.some.injEq] at hv
      rw [← hv]
      exact h k seg slider hk hs

theorem any_stop_moved_of_sliders (offset : ℚ) (reverse : Bool)
    (sliders : List GimpControllerSlider) (segments : List GimpGradientSegment)
    (h : ∀ (i : Nat) (seg nxt : GimpGradientSegment) (slider : GimpControllerSlider),
      segments[i]? = some seg → segments[i + 1]? = some nxt → sliders[i]? = some slider →
      |slider_value_to_segment offset reverse slider.value - seg.right| ≤ EPSILON) :
    any_stop_moved (segment_values offset reverse sliders) segments = false := by
  apply any_stop_moved_of_within
  intro i seg nxt v hi hn hv
  have hv' := segment_values_getElem? offset reverse sliders 0 i
  simp only [List.drop_zero, Nat.zero_add] at hv'
  rw [hv'] at hv
  cases hs : sliders[i]? with
  | none => simp [hs] at hv
  | some slider =>
      simp only [hs, Option.map_some', Option.some.injEq] at hv
      rw [← hv]
      exact h i seg nxt slider hi hn hs

/-- C14, as stated, fails in the arithmetic of the program, for the slider
array just built.  With `options->offset = 99.99999` the local `offset` is a
double below `1`; for the first segment of `chain_three`, not reversed,
`update_sliders` stores the double `9007198466611057 / 2^53` in the midpoint
slider; `line_changed` converts it back to `35184372166957 / 2^48`, about
`0.12500000027755576`, which is `2.8e-10` away from the middle `0.125`: the
test `fabs (value - seg->middle) > EPSILON` of the first round of the midpoint
loop holds, so the gradient is frozen and `seg->middle` is set to a value that
is not the old middle. -/
theorem line_changed_built_array_counterexample :
    offset_double (double_round (9999999 / 100000))
      = 4503599177010533 / 4503599627370496 ∧
    offset_double (double_round (9999999 / 100000)) ≠ 1 ∧
    chain_three[0]? = some { left := 0, middle := 1 / 8, right := 1 / 4 } ∧
    slider_value_double (4503599177010533 / 4503599627370496) false (1 / 8)
      = 9007198466611057 / 9007199254740992 ∧
    slider_value_to_segment_double (4503599177010533 / 4503599627370496) false
      (9007198466611057 / 9007199254740992) = 35184372166957 / 281474976710656 ∧
    midpoint_moved_double (4503599177010533 / 4503599627370496) false
      (9007198466611057 / 9007199254740992) (1 / 8) = true ∧
    (35184372166957 / 281474976710656 : ℚ) ≠ 1 / 8 := by
  refine ⟨by decide!, by decide!, rfl, by decide!, by decide!, by decide!, by norm_num⟩

/-- C14, amended: `line_changed` skips the mutation when nothing moved.  If
`offset != 1`, every midpoint slider converts to a value within `EPSILON` of
its segment's middle and every stop slider to a value within `EPSILON` of its
segment's right, then `line_changed` is the check of the blocked handlers
followed by `update_gui` alone: the gradient is not frozen or thawed, and the
gradient with every field of every segment, the custom gradient, the slider
array and the block count are as before.  Nothing is said of the slider array
`update_sliders` has just built: whether it meets the condition depends on the
rounding of the two conversions. -/
theorem line_changed_nothing_moved (dflt : GimpControllerSlider) (bt : GimpBlendTool)
    (g : GimpGradient) (line : GimpToolLine)
    (hg : bt.gradient = some g) (hw : bt.widget = some line)
    (hoff : bt.options.offset / 100 ≠ 1) (hN : g.segments.length ≠ 0)
    (hcount : 0 ≤ bt.block_handlers_count) :
    (line.sliders.length = 2 * g.segments.length - 1 ∧
      (∀ (k : Nat) (seg : GimpGradientSegment) (slider : GimpControllerSlider),
        g.segments[k]? = some seg → line.sliders[g.segments.length - 1 + k]? = some slider →
        |slider_value_to_segment (bt.options.offset / 100) bt.options.gradient_reverse
          slider.value - seg.middle| ≤ EPSILON) ∧
      (∀ (i : Nat) (seg nxt : GimpGradientSegment) (slider : GimpControllerSlider),
        g.segments[i]? = some seg → g.segments[i + 1]? = some nxt →
        line.sliders[i]? = some slider →
        |slider_value_to_segment (bt.options.offset / 100) bt.options.gradient_reverse
          slider.value - seg.right| ≤ EPSILON)) →
    line_changed dflt bt = (if are_handlers_blocked bt = true then some bt else update_gui bt) ∧
    ∃ bt2, line_changed dflt bt = some bt2 ∧ bt2.gradient = bt.gradient ∧
      bt2.gradient_is_custom = bt.gradient_is_custom ∧ bt2.custom = bt.custom ∧
      bt2.widget = bt.widget ∧ bt2.block_handlers_count = bt.block_handlers_count := by
  rintro ⟨hlen, hmid, hstop⟩
  have heq := line_changed_of_not_moved dflt bt g line hg hw hoff hN hlen
    (any_midpoint_moved_of_sliders _ _ _ _ hmid) (any_stop_moved_of_sliders _ _ _ _ hstop)
  refine ⟨heq, ?_⟩
  cases hblk : are_handlers_blocked bt with
  | true =>
      rw [hblk] at heq
      exact ⟨bt, by simpa using heq, rfl, rfl, rfl, rfl, rfl⟩
  | false =>
      rw [hblk] at heq
      obtain ⟨bt2, h2, w2, g2, _, i2, c2, n2⟩ := update_gui_spec bt g hg hN hcount
      exact ⟨bt2, by rw [heq]; simpa using h2, g2, i2, c2, w2, n2⟩

/-- C14 amended, a concrete instance: the sliders of `chain_three` at offset
`0`, not reversed, where every slider value is the value of the chain. -/
theorem line_changed_nothing_moved_witness :
    ∃ bt2, line_changed sample_slider_default (plain_tool built_sliders) = some bt2 ∧
      bt2.gradient = (plain_tool built_sliders).gradient ∧
      bt2.widget = (plain_tool built_sliders).widget := by
  obtain ⟨_, bt2, h1, h2, _, _, h5, _⟩ :=
    line_changed_nothing_moved sample_slider_default (plain_tool built_sliders)
      { segments := chain_three, writable := false, freeze_count := 0 }
      { sliders := built_sliders
        selection := GIMP_TOOL_LINE_HANDLE_NONE
        x1 := 0
        y1 := 0
        x2 := 100
        y2 := 0 }
      rfl rfl (by norm_num [plain_tool]) (by decide) (le_refl _)
      ⟨rfl,
        (by
          intro k seg slider hk hs
          exact built_midpoint_within sample_slider_default true _ false
            (by norm_num [plain_tool]) chain_three k seg slider hk
            (by
              show (update_sliders_array sample_slider_default true
                ((0 : ℚ) / 100) false chain_three)[chain_three.length - 1 + k]? = some slider
              rw [zero_div]
              exact hs)),
        (by
          intro i seg nxt slider hi hn hs
          exact built_stop_within sample_slider_default true _ false
            (by norm_num [plain_tool]) chain_three i seg nxt slider hi hn
            (by
              show (update_sliders_array sample_slider_default true
                ((0 : ℚ) / 100) false chain_three)[i]? = some slider
              rw [zero_div]
              exact hs))⟩
  exact ⟨bt2, h1, h2, h5⟩

/-! ## `line_changed`: the order of the passes, midpoint edits, stop edits -/

/-- C13: in a full sync of the slider array `line_changed` resolves all
midpoint sliders before any stop slider.  On an unblocked tool with an
editable gradient, `offset != 1` and a slider array in step with the chain,
the chain after `line_changed` is the spec's stop pass (compressions around the
sliders `0 .. N-2`) applied to the spec's midpoint pass (the middles set from
the sliders `N-1 .. 2N-2`) of the original chain; every comparison of the
midpoint pass is made against the middle of the original segment, never
against one a compression has rescaled. -/
theorem line_changed_midpoints_before_stops (dflt : GimpControllerSlider)
    (bt : GimpBlendTool) (g : GimpGradient) (line : GimpToolLine)
    (hcount : bt.block_handlers_count = 0)
    (hg : bt.gradient = some g) (hw : bt.widget = some line)
    (hoff : bt.options.offset / 100 ≠ 1) (hN : g.segments.length ≠ 0)
    (hsync : SlidersInSync g.segments.length line.sliders)
    (hedit : is_gradient_editable bt = true) :
    ∃ bt2 g2, line_changed dflt bt = some bt2 ∧ bt2.gradient = some g2 ∧
      g2.segments = spec_stop_pass
        (segment_values (bt.options.offset / 100) bt.options.gradient_reverse line.sliders)
        (spec_midpoint_pass
          ((segment_values (bt.options.offset / 100) bt.options.gradient_reverse
            line.sliders).drop (line.sliders.length / 2)) g.segments) ∧
      ∀ (k : Nat) (seg : GimpGradientSegment) (slider : GimpControllerSlider),
        g.segments[k]? = some seg → line.sliders[line.sliders.length / 2 + k]? = some slider →
        (spec_midpoint_pass
          ((segment_values (bt.options.offset / 100) bt.options.gradient_reverse
            line.sliders).drop (line.sliders.length / 2)) g.segments)[k]?
          = some (spec_apply_midpoint_edit seg
              (slider_value_to_segment (bt.options.offset / 100) bt.options.gradient_reverse
                slider.value)) := by
  have hhalf : line.sliders.length / 2 = g.segments.length - 1 := by
    rw [hsync.1]; omega
  obtain ⟨bt2, g2, h1, h2, h3, _, _, _⟩ :=
    line_changed_chain dflt bt g line hcount hg hw hoff hN hsync hedit
  rw [hhalf]
  refine ⟨bt2, g2, h1, h2, h3, ?_⟩
  intro k seg slider hk hs
  rw [spec_midpoint_pass_getElem? _ _ k seg hk, segment_values_getElem?, hs]
  rfl

/-- C12: a midpoint edit in `line_changed`.  On an unblocked tool with an
editable gradient, `offset != 1` and a slider array in step with the chain:
when the midpoint slider of segment `k` converts to a value `v` further than
`EPSILON` from the middle of the segment and every other slider is within
`EPSILON` of the model, then after `line_changed` the chain is the old chain
with `segment[k].middle = v`: every other field of every segment is
unchanged. -/
theorem line_changed_midpoint_edit (dflt : GimpControllerSlider)
    (bt : GimpBlendTool) (g : GimpGradient) (line : GimpToolLine)
    (hcount : bt.block_handlers_count = 0)
    (hg : bt.gradient = some g) (hw : bt.widget = some line)
    (hoff : bt.options.offset / 100 ≠ 1)
    (hsync : SlidersInSync g.segments.length line.sliders)
    (hedit : is_gradient_editable bt = true)
    (k : Nat) (seg : GimpGradientSegment) (slider : GimpControllerSlider)
    (hk : g.segments[k]? = some seg)
    (hs : line.sliders[g.segments.length - 1 + k]? = some slider)
    (hmoved : |slider_value_to_segment (bt.options.offset / 100) bt.options.gradient_reverse
      slider.value - seg.middle| > EPSILON)
    (hmid : ∀ (j : Nat) (segj : GimpGradientSegment) (sj : GimpControllerSlider), j ≠ k →
      g.segments[j]? = some segj → line.sliders[g.segments.length - 1 + j]? = some sj →
      |slider_value_to_segment (bt.options.offset / 100) bt.options.gradient_reverse
        sj.value - segj.middle| ≤ EPSILON)
    (hstop : ∀ (i : Nat) (segi nxti : GimpGradientSegment) (si : GimpControllerSlider),
      g.segments[i]? = some segi → g.segments[i + 1]? = some nxti →
      line.sliders[i]? = some si →
      |slider_value_to_segment (bt.options.offset / 100) bt.options.gradient_reverse
        si.value - segi.right| ≤ EPSILON) :
    ∃ bt2 g2, line_changed dflt bt = some bt2 ∧ bt2.gradient = some g2 ∧
      g2.segments = g.segments.set k
        { seg with middle := (slider_value_to_segment (bt.options.offset / 100)
            bt.options.gradient_reverse slider.value) } ∧
      (∀ (j : Nat) (segj : GimpGradientSegment), j ≠ k → g.segments[j]? = some segj →
        g2.segments[j]? = some segj) ∧
      ∃ m, g2.segments[k]? = some m ∧
        m.middle = slider_value_to_segment (bt.options.offset / 100)
          bt.options.gradient_reverse slider.value ∧
        m.left = seg.left ∧ m.right = seg.right := by
  obtain ⟨hklt, _⟩ := List.getElem?_eq_some_iff.mp hk
  have hN : g.segments.length ≠ 0 := by omega
  obtain ⟨bt2, g2, h1, h2, h3, _, _, _⟩ :=
    line_changed_chain dflt bt g line hcount hg hw hoff hN hsync hedit
  have hmidpass : spec_midpoint_pass
      ((segment_values (bt.options.offset / 100) bt.options.gradient_reverse
        line.sliders).drop (g.segments.length - 1)) g.segments
      = g.segments.set k
        { seg with middle := (slider_value_to_segment (bt.options.offset / 100)
            bt.options.gradient_reverse slider.value) } := by
    apply List.ext_getElem?
    intro j
    rw [List.getElem?_set]
    by_cases hj : k = j
    · subst hj
      rw [if_pos rfl, if_pos hklt, spec_midpoint_pass_getElem? _ _ k seg hk,
        segment_values_getElem?, hs]
      simp only [Option.map_some', spec_apply_midpoint_edit, not_le.mpr hmoved, if_false]
    · rw [if_neg hj]
      cases hsj : g.segments[j]? with
      | none =>
          apply List.getElem?_eq_none
          rw [spec_midpoint_pass_length]
          by_contra hlt
          rw [List.getElem?_eq_getElem (by omega)] at hsj
          cases hsj
      | some segj =>
          rw [spec_midpoint_pass_getElem? _ _ j segj hsj, segment_values_getElem?]
          cases hslj : line.sliders[g.segments.length - 1 + j]? with
          | none => rfl
          | some sj =>
              have := hmid j segj sj (Ne.symm hj) hsj hslj
              simp only [Option.map_some', spec_apply_midpoint_edit, this, if_true]
  have hstoppass : spec_stop_pass
      (segment_values (bt.options.offset / 100) bt.options.gradient_reverse line.sliders)
      (g.segments.set k
        { seg with middle := (slider_value_to_segment (bt.options.offset / 100)
            bt.options.gradient_reverse slider.value) })
      = g.segments.set k
        { seg with middle := (slider_value_to_segment (bt.options.offset / 100)
            bt.options.gradient_reverse slider.value) } := by
    apply spec_stop_pass_of_not_moved
    apply any_stop_moved_of_sliders
    intro i seg' nxt' si hi hn hsi
    have hn' : i + 1 < g.segments.length := by
      rcases List.getElem?_eq_some_iff.mp hn with ⟨h, _⟩
      simpa using h
    have hnx : g.segments[i + 1]? = some (g.segments[i + 1]) := List.getElem?_eq_getElem hn'
    rw [List.getElem?_set] at hi
    by_cases hik : k = i
    · subst hik
      rw [if_pos rfl, if_pos hklt] at hi
      rw [← Option.some.inj hi]
      exact hstop k seg _ si hk hnx hsi
    · rw [if_neg hik] at hi
      exact hstop i seg' _ si hi hnx hsi
  rw [hmidpass, hstoppass] at h3
  refine ⟨bt2, g2, h1, h2, h3, ?_, ?_⟩
  · intro j segj hj hsj
    rw [h3, List.getElem?_set, if_neg (Ne.symm hj)]
    exact hsj
  · refine ⟨{ seg with middle := (slider_value_to_segment (bt.options.offset / 100)
            bt.options.gradient_reverse slider.value) }, ?_, rfl, rfl, rfl⟩
    rw [h3, List.getElem?_set, if_pos rfl, if_pos hklt]

/-- C11: a stop edit in `line_changed`.  The two compressions requested for a
stop at value `v` between `seg` and `nxt` leave `seg.left` and `nxt.right` as
they are and make `seg.right = v = nxt.left`.  On an unblocked tool with an
editable gradient, `offset != 1` and a slider array in step with the chain,
the chain after `line_changed` is the result of these requests (after the
midpoint pass): for every stop slider `i` whose converted value `v` is further
than `EPSILON` from `segment[i].right`, `segment[i].right = v =
segment[i+1].left` afterwards, and for every other stop the two positions are
as before; the number of segments, `first.left` and `last.right` are
unchanged, and a contiguous chain stays contiguous. -/
theorem line_changed_stop_edit (dflt : GimpControllerSlider)
    (bt : GimpBlendTool) (g : GimpGradient) (line : GimpToolLine)
    (hcount : bt.block_handlers_count = 0)
    (hg : bt.gradient = some g) (hw : bt.widget = some line)
    (hoff : bt.options.offset / 100 ≠ 1) (hN : g.segments.length ≠ 0)
    (hsync : SlidersInSync g.segments.length line.sliders)
    (hedit : is_gradient_editable bt = true) :
    (∀ (seg nxt : GimpGradientSegment) (v : ℚ),
      (gimp_gradient_segment_range_compress seg seg.left v).left = seg.left ∧
      (gimp_gradient_segment_range_compress seg seg.left v).right = v ∧
      (gimp_gradient_segment_range_compress nxt v nxt.right).left = v ∧
      (gimp_gradient_segment_range_compress nxt v nxt.right).right = nxt.right) ∧
    ∃ bt2 g2, line_changed dflt bt = some bt2 ∧ bt2.gradient = some g2 ∧
      g2.segments = spec_stop_pass
        (segment_values (bt.options.offset / 100) bt.options.gradient_reverse line.sliders)
        (spec_midpoint_pass
          ((segment_values (bt.options.offset / 100) bt.options.gradient_reverse
            line.sliders).drop (g.segments.length - 1)) g.segments) ∧
      g2.segments.length = g.segments.length ∧
      (∀ (i : Nat) (seg nxt : GimpGradientSegment) (slider : GimpControllerSlider),
        g.segments[i]? = some seg → g.segments[i + 1]? = some nxt →
        line.sliders[i]? = some slider →
        ∃ a b, g2.segments[i]? = some a ∧ g2.segments[i + 1]? = some b ∧
          (|slider_value_to_segment (bt.options.offset / 100) bt.options.gradient_reverse
              slider.value - seg.right| > EPSILON →
            a.right = slider_value_to_segment (bt.options.offset / 100)
              bt.options.gradient_reverse slider.value ∧
            b.left = slider_value_to_segment (bt.options.offset / 100)
              bt.options.gradient_reverse slider.value) ∧
          (|slider_value_to_segment (bt.options.offset / 100) bt.options.gradient_reverse
              slider.value - seg.right| ≤ EPSILON →
            a.right = seg.right ∧ b.left = nxt.left)) ∧
      g2.segments.head?.map (fun seg => seg.left)
        = g.segments.head?.map (fun seg => seg.left) ∧
      g2.segments.getLast?.map (fun seg => seg.right)
        = g.segments.getLast?.map (fun seg => seg.right) ∧
      (g.segments.Chain' (fun seg nxt => seg.right = nxt.left) →
        g2.segments.Chain' (fun seg nxt => seg.right = nxt.left)) := by
  refine ⟨fun seg nxt v => ⟨rfl, rfl, rfl, rfl⟩, ?_⟩
  obtain ⟨bt2, g2, h1, h2, h3, _, _, _⟩ :=
    line_changed_chain dflt bt g line hcount hg hw hoff hN hsync hedit
  have hmap := spec_midpoint_pass_map_ends
    ((segment_values (bt.options.offset / 100) bt.options.gradient_reverse
      line.sliders).drop (g.segments.length - 1)) g.segments
  refine ⟨bt2, g2, h1, h2, h3, ?_, ?_, ?_, ?_, ?_⟩
  · rw [h3, spec_stop_pass_length, spec_midpoint_pass_length]
  · intro i seg nxt slider hi hn hs
    obtain ⟨m, hm, _, hmr⟩ := spec_midpoint_pass_ends
      ((segment_values (bt.options.offset / 100) bt.options.gradient_reverse
        line.sliders).drop (g.segments.length - 1)) g.segments i seg hi
    obtain ⟨n, hn', hnl, _⟩ := spec_midpoint_pass_ends
      ((segment_values (bt.options.offset / 100) bt.options.gradient_reverse
        line.sliders).drop (g.segments.length - 1)) g.segments (i + 1) nxt hn
    have hv : (segment_values (bt.options.offset / 100) bt.options.gradient_reverse
        line.sliders)[i]?
        = some (slider_value_to_segment (bt.options.offset / 100)
            bt.options.gradient_reverse slider.value) := by
      have := segment_values_getElem? (bt.options.offset / 100) bt.options.gradient_reverse
        line.sliders 0 i
      simp only [List.drop_zero, Nat.zero_add] at this
      rw [this, hs]
      rfl
    obtain ⟨a, b, ha, hb, hmoved, hstill⟩ := spec_stop_pass_pairs _ _ i m n _ hm hn' hv
    rw [hmr] at hmoved hstill
    rw [hnl] at hstill
    rw [h3]
    exact ⟨a, b, ha, hb, hmoved, hstill⟩
  · rw [h3, spec_stop_pass_first_left]
    have := congrArg (fun l => (l.head?).map Prod.fst) hmap
    simpa [List.head?_map, Option.map_map, Function.comp_def] using this
  · rw [h3, spec_stop_pass_last_right]
    have := congrArg (fun l => (l.getLast?).map Prod.snd) hmap
    simpa [List.getLast?_map, Option.map_map, Function.comp_def] using this
  · intro hc
    rw [h3]
    exact spec_stop_pass_chain' _ _ (chain'_of_map_ends _ _ hmap hc)

/-! ## Concrete instances of the `line_changed` claims -/

theorem plain_tool_in_sync (i : Nat) (value : ℚ) :
    SlidersInSync chain_three.length (drag_slider built_sliders i value) :=
  drag_slider_in_sync _ _ i value
    (update_sliders_array_in_sync sample_slider_default true 0 false chain_three)

theorem plain_tool_offset (sliders : List GimpControllerSlider) :
    (plain_tool sliders).options.offset / 100 ≠ 1 := by
  norm_num [plain_tool]

/-- C13, a concrete instance: the first stop of `chain_three` dragged from
`0.25` to `0.1875`. -/
theorem line_changed_midpoints_before_stops_witness :
    ∃ bt2 g2,
      line_changed sample_slider_default (plain_tool (drag_slider built_sliders 0 (3 / 16)))
        = some bt2 ∧
      bt2.gradient = some g2 ∧ g2.segments.length = 3 := by
  obtain ⟨bt2, g2, h1, h2, h3, _⟩ :=
    line_changed_midpoints_before_stops sample_slider_default
      (plain_tool (drag_slider built_sliders 0 (3 / 16)))
      { segments := chain_three, writable := false, freeze_count := 0 }
      { sliders := drag_slider built_sliders 0 (3 / 16)
        selection := GIMP_TOOL_LINE_HANDLE_NONE
        x1 := 0
        y1 := 0
        x2 := 100
        y2 := 0 }
      rfl rfl rfl (plain_tool_offset _) (by decide) (plain_tool_in_sync 0 (3 / 16)) rfl
  refine ⟨bt2, g2, h1, h2, ?_⟩
  rw [h3, spec_stop_pass_length, spec_midpoint_pass_length]
  rfl

/-- C11, a concrete instance: the first stop of `chain_three` dragged from
`0.25` to `0.1875`; afterwards segment 0 ends and segment 1 starts there. -/
theorem line_changed_stop_edit_witness :
    ∃ bt2 g2 a b,
      line_changed sample_slider_default (plain_tool (drag_slider built_sliders 0 (3 / 16)))
        = some bt2 ∧
      bt2.gradient = some g2 ∧ g2.segments[0]? = some a ∧ g2.segments[0 + 1]? = some b ∧
      a.right = slider_value_to_segment ((0 : ℚ) / 100) false (3 / 16) ∧
      b.left = slider_value_to_segment ((0 : ℚ) / 100) false (3 / 16) := by
  obtain ⟨_, bt2, g2, h1, h2, _, _, hp, _⟩ :=
    line_changed_stop_edit sample_slider_default
      (plain_tool (drag_slider built_sliders 0 (3 / 16)))
      { segments := chain_three, writable := false, freeze_count := 0 }
      { sliders := drag_slider built_sliders 0 (3 / 16)
        selection := GIMP_TOOL_LINE_HANDLE_NONE
        x1 := 0
        y1 := 0
        x2 := 100
        y2 := 0 }
      rfl rfl rfl (plain_tool_offset _) (by decide) (plain_tool_in_sync 0 (3 / 16)) rfl
  obtain ⟨a, b, ha, hb, hmoved, _⟩ := hp 0
    { left := 0, middle := 1 / 8, right := 1 / 4 }
    { left := 1 / 4, middle := 3 / 8, right := 1 / 2 }
    { (offset_slider 0 (stop_slider sample_slider_default true
        { left := 0, middle := 1 / 8, right := 1 / 4 }
        { left := 1 / 4, middle := 3 / 8, right := 1 / 2 } 0)) with value := 3 / 16 }
    rfl rfl (drag_slider_getElem?_eq built_sliders 0 (3 / 16) _ rfl)
  have hgt : |slider_value_to_segment ((0 : ℚ) / 100) false (3 / 16) - 1 / 4| > EPSILON := by
    rw [gt_iff_lt, lt_abs]
    right
    norm_num [slider_value_to_segment, EPSILON]
  exact ⟨bt2, g2, a, b, h1, h2, ha, hb, (hmoved hgt).1, (hmoved hgt).2⟩

/-- C12, a concrete instance: the midpoint of segment 1 of `chain_three`
dragged from `0.375` to `0.4375`. -/
theorem line_changed_midpoint_edit_witness :
    ∃ bt2 g2 m,
      line_changed sample_slider_default (plain_tool (drag_slider built_sliders 3 (7 / 16)))
        = some bt2 ∧
      bt2.gradient = some g2 ∧ g2.segments[1]? = some m ∧
      m.middle = slider_value_to_segment ((0 : ℚ) / 100) false (7 / 16) ∧
      m.left = 1 / 4 ∧ m.right = 1 / 2 ∧
      g2.segments[0]? = some { left := 0, middle := 1 / 8, right := 1 / 4 } := by
  have hlen : chain_three.length = 3 := rfl
  obtain ⟨bt2, g2, h1, h2, _, hothers, m, hm, hmm, hml, hmr⟩ :=
    line_changed_midpoint_edit sample_slider_default
      (plain_tool (drag_slider built_sliders 3 (7 / 16)))
      { segments := chain_three, writable := false, freeze_count := 0 }
      { sliders := drag_slider built_sliders 3 (7 / 16)
        selection := GIMP_TOOL_LINE_HANDLE_NONE
        x1 := 0
        y1 := 0
        x2 := 100
        y2 := 0 }
      rfl rfl rfl (plain_tool_offset _) (plain_tool_in_sync 3 (7 / 16)) rfl
      1 { left := 1 / 4, middle := 3 / 8, right := 1 / 2 }
      { (offset_slider 0 (midpoint_slider sample_slider_default true
          { left := 1 / 4, middle := 3 / 8, right := 1 / 2 } 1)) with value := 7 / 16 }
      rfl (drag_slider_getElem?_eq built_sliders 3 (7 / 16) _ rfl)
      (by
        show |slider_value_to_segment ((0 : ℚ) / 100) false (7 / 16) - 3 / 8| > EPSILON
        rw [gt_iff_lt, lt_abs]
        left
        norm_num [slider_value_to_segment, EPSILON])
      (by
        intro j segj sj hj hsegj hsj
        have hne : chain_three.length - 1 + j ≠ 3 := by omega
        have hsj' : (drag_slider built_sliders 3 (7 / 16))[chain_three.length - 1 + j]?
            = some sj := hsj
        rw [drag_slider_getElem?_ne built_sliders 3 _ (7 / 16) hne] at hsj'
        exact built_midpoint_within sample_slider_default true _ false
          (by norm_num [plain_tool]) chain_three j segj sj hsegj
          (by
            show (update_sliders_array sample_slider_default true
              ((0 : ℚ) / 100) false chain_three)[chain_three.length - 1 + j]? = some sj
            rw [zero_div]
            exact hsj'))
      (by
        intro i segi nxti si hsegi hnxti hsi
        have hi : i + 1 < chain_three.length := by
          rcases List.getElem?_eq_some_iff.mp hnxti with ⟨h, _⟩
          exact h
        have hne : i ≠ 3 := by omega
        have hsi' : (drag_slider built_sliders 3 (7 / 16))[i]? = some si := hsi
        rw [drag_slider_getElem?_ne built_sliders 3 _ (7 / 16) hne] at hsi'
        exact built_stop_within sample_slider_default true _ false
          (by norm_num [plain_tool]) chain_three i segi nxti si hsegi hnxti
          (by
            show (update_sliders_array sample_slider_default true
              ((0 : ℚ) / 100) false chain_three)[i]? = some si
            rw [zero_div]
            exact hsi'))
  exact ⟨bt2, g2, m, h1, h2, hm, hmm, hml, hmr,
    hothers 0 { left := 0, middle := 1 / 8, right := 1 / 4 } (by decide) rfl⟩

/-! ## The reversal step, the blocked handlers, the degenerate offset -/

/-- C20: the reversal step of `update_sliders` is its own inverse: flipping a
slider twice (`value → 1 - value`, `min → 1 - max`, `max → 1 - min`) gives back
the slider, so applying the step twice to any slider array gives back the
array, with the original `value`, `min` and `max` of every slider. -/
theorem reversal_self_inverse :
    (∀ s : GimpControllerSlider,
      (flip_slider (flip_slider s)).value = s.value ∧
      (flip_slider (flip_slider s)).min = s.min ∧
      (flip_slider (flip_slider s)).max = s.max ∧
      flip_slider (flip_slider s) = s) ∧
    ∀ sliders : List GimpControllerSlider,
      (sliders.map flip_slider).map flip_slider = sliders := by
  have h : ∀ s : GimpControllerSlider, flip_slider (flip_slider s) = s := by
    intro s
    cases s
    simp [flip_slider]
  refine ⟨fun s => ⟨by rw [h], by rw [h], by rw [h], h s⟩, ?_⟩
  intro sliders
  rw [List.map_map]
  have : flip_slider ∘ flip_slider = id := funext h
  rw [this, List.map_id]

/-- C16: the re-entrancy guard.  In every state with
`block_handlers_count > 0`, each of `line_changed`, `gradient_dirty`,
`color_entry_color_changed`, `color_entry_type_changed` and
`endpoint_se_value_changed` returns with the tool as it was: segments, slider
array, selection and block count included. -/
theorem blocked_handlers_return (dflt : GimpControllerSlider) (bt : GimpBlendTool)
    (hblocked : bt.block_handlers_count > 0)
    (color : GimpRGB) (color_type : Option GimpGradientColor) (direction : Direction)
    (chain_active : Bool) (x y : ℚ) :
    line_changed dflt bt = some bt ∧
    gradient_dirty dflt bt = some bt ∧
    color_entry_color_changed dflt bt color direction chain_active = some bt ∧
    color_entry_type_changed dflt bt color_type direction chain_active = some bt ∧
    endpoint_se_value_changed bt x y = some bt := by
  have hb : are_handlers_blocked bt = true := by
    simp [are_handlers_blocked, hblocked]
  refine ⟨?_, ?_, ?_, ?_, ?_⟩
  · simp [line_changed, hb]
  · simp [gradient_dirty, hb]
  · simp [color_entry_color_changed, hb]
  · simp [color_entry_type_changed, hb]
  · simp [endpoint_se_value_changed, hb]

/-- C16, a concrete instance: the sample tool with the handlers blocked once. -/
theorem blocked_handlers_return_witness :
    line_changed sample_slider_default blocked_tool = some blocked_tool ∧
    gradient_dirty sample_slider_default blocked_tool = some blocked_tool ∧
    endpoint_se_value_changed blocked_tool 3 4 = some blocked_tool := by
  have h := blocked_handlers_return sample_slider_default blocked_tool (by decide)
    { r := 1, g := 0, b := 0, a := 1 } none Direction.DIRECTION_NONE false 3 4
  exact ⟨h.1, h.2.1, h.2.2.2.2⟩

theorem gimp_gradient_split_at_some (segments segs2 : List GimpGradientSegment) (value : ℚ)
    (k : Nat) (h : gimp_gradient_split_at segments value = some (segs2, k)) :
    segs2.length = segments.length + 1 := by
  unfold gimp_gradient_split_at at h
  cases hseg : segments[gimp_gradient_get_segment_at segments value]? with
  | none => simp [hseg] at h
  | some seg =>
      obtain ⟨hlt, _⟩ := List.getElem?_eq_some_iff.mp hseg
      simp only [hseg, Option.some.injEq, Prod.mk.injEq] at h
      rw [← h.1]
      exact split_chain_length segments _ _ _ hlt

theorem add_stop_never_suppresses (dflt : GimpControllerSlider) (bt : GimpBlendTool)
    (g : GimpGradient) (hg : bt.gradient = some g) (hedit : is_gradient_editable bt = true)
    (hcount : 0 ≤ bt.block_handlers_count) (value : ℚ) :
    add_stop dflt bt value = none ∨
    ∃ bt1 stop g1, add_stop dflt bt value = some (bt1, stop) ∧ bt1.gradient = some g1 ∧
      g1.segments.length = g.segments.length + 1 := by
  obtain ⟨bt1, g1, hf, hg1, hs1, _, _, hc1⟩ := freeze_gradient_spec bt g hg hedit
  cases hsp : gimp_gradient_split_at g1.segments value with
  | none =>
      left
      simp [add_stop, hf, hg1, hsp]
  | some r =>
      obtain ⟨segs2, k⟩ := r
      have hlen := gimp_gradient_split_at_some g1.segments segs2 value k hsp
      obtain ⟨bt3, h3, _, g3, _, _, _, _⟩ := thaw_gradient_spec dflt
        { bt1 with gradient := some { g1 with segments := segs2 } }
        { g1 with segments := segs2 } rfl
        (by simp only [hlen]; omega) (by show 0 < bt1.block_handlers_count; omega)
      right
      refine ⟨bt3, gimp_gradient_segment_range_get_n_segments segs2 0 (some k) - 1,
        gimp_data_thaw { g1 with segments := segs2 }, ?_, g3, ?_⟩
      · simp only [add_stop, hf, hg1, hsp, h3]
      · show segs2.length = _
        rw [hlen, hs1]

/-- C15, the code at `offset == 1.0`: `line_changed` returns with the tool as
it was, but the add-slider path has no such guard.  On `degenerate_offset_tool`
(offset 100 percent, editable gradient) `line_can_add_slider` accepts the
slider value `1`, `line_add_slider` converts it with
`(value - offset) / (1 - offset)` and calls `add_stop`, and `add_stop`, for
whatever value it is given, either does not return or returns with a chain of
one segment more: the edit is never suppressed. -/
theorem line_add_slider_degenerate_offset :
    degenerate_offset_tool.options.offset / 100 = 1 ∧
    line_changed sample_slider_default degenerate_offset_tool = some degenerate_offset_tool ∧
    line_can_add_slider degenerate_offset_tool 1 = true ∧
    line_add_slider sample_slider_default degenerate_offset_tool 1
      = add_stop sample_slider_default degenerate_offset_tool
          (slider_value_to_segment (degenerate_offset_tool.options.offset / 100)
            degenerate_offset_tool.options.gradient_reverse 1) ∧
    ∀ value : ℚ,
      add_stop sample_slider_default degenerate_offset_tool value = none ∨
      ∃ bt1 stop g1,
        add_stop sample_slider_default degenerate_offset_tool value = some (bt1, stop) ∧
        bt1.gradient = some g1 ∧ g1.segments.length = chain_three.length + 1 := by
  have hoff : degenerate_offset_tool.options.offset / 100 = 1 := by
    norm_num [degenerate_offset_tool, sample_tool]
  refine ⟨hoff, ?_, ?_, rfl, ?_⟩
  · have hb : are_handlers_blocked degenerate_offset_tool = false := by decide
    simp only [line_changed, hb, hoff]
    rfl
  · simp only [line_can_add_slider, hoff]
    have : is_gradient_editable degenerate_offset_tool = true := rfl
    rw [this]
    simp
  · intro value
    exact add_stop_never_suppresses sample_slider_default degenerate_offset_tool
      { segments := chain_three, writable := false, freeze_count := 0 } rfl rfl (le_refl _)
      value

/-! ## Removing a stop -/

theorem line_remove_slider_of_data (dflt : GimpControllerSlider) (bt : GimpBlendTool)
    (g : GimpGradient) (line : GimpToolLine) (h : Nat) (slider : GimpControllerSlider)
    (p : Nat) (a b : GimpGradientSegment)
    (hg : bt.gradient = some g) (hw : bt.widget = some line)
    (hedit : is_gradient_editable bt = true) (hcount : 0 ≤ bt.block_handlers_count)
    (hs : line.sliders[h]? = some slider) (hdata : slider.data = (p : Int))
    (ha : g.segments[p]? = some a) (hb : g.segments[p + 1]? = some b) :
    ∃ bt1 g1 bt2, freeze_gradient bt = some bt1 ∧ bt1.gradient = some g1 ∧
      g1.segments = g.segments ∧
      line_remove_slider dflt bt (h : Int)
        = thaw_gradient dflt
            { bt1 with gradient := some { g1 with
                segments := g.segments.take p ++ merged_segment a b :: g.segments.drop (p + 2) } } ∧
      line_remove_slider dflt bt (h : Int) = some bt2 ∧
      bt2.gradient = some (gimp_data_thaw { g1 with
        segments := g.segments.take p ++ merged_segment a b :: g.segments.drop (p + 2) }) ∧
      bt2.block_handlers_count = bt.block_handlers_count ∧
      bt2.options = bt.options ∧
      (bt.options.instant = false → ∃ (line2 : GimpToolLine) (editable : Bool),
        bt2.widget = some line2 ∧
        line2.sliders = update_sliders_array dflt editable (bt.options.offset / 100)
          bt.options.gradient_reverse
          (g.segments.take p ++ merged_segment a b :: g.segments.drop (p + 2))) := by
  obtain ⟨hplt, _⟩ := List.getElem?_eq_some_iff.mp hb
  obtain ⟨bt1, g1, hf, hg1, hs1, hw1, ho1, hc1⟩ := freeze_gradient_spec bt g hg hedit
  have hw1' : bt1.widget = some line := by rw [hw1]; exact hw
  have hget : handle_get_segment bt1 (h : Int) = some (some p) := by
    rw [handle_get_segment_slider bt1 g1 line h slider hg1 hw1' hs, hdata,
      gimp_gradient_segment_get_nth_of_lt g1.segments p (by rw [hs1]; omega)]
  have hmerge : gimp_gradient_segment_range_merge g1.segments p (p + 1)
      = some (g.segments.take p ++ merged_segment a b :: g.segments.drop (p + 2)) := by
    simp [gimp_gradient_segment_range_merge, hs1, ha, hb]
  have hmlen : (g.segments.take p ++ merged_segment a b :: g.segments.drop (p + 2)).length ≠ 0 := by
    simp
  have heq : line_remove_slider dflt bt (h : Int)
      = thaw_gradient dflt
          { bt1 with gradient := some { g1 with
              segments := g.segments.take p ++ merged_segment a b :: g.segments.drop (p + 2) } } := by
    have hlt1 : p + 1 < g1.segments.length := by rw [hs1]; exact hplt
    simp only [line_remove_slider, hf, hg1, hget, hlt1, if_true, hmerge]
  obtain ⟨bt3, h3, w3, g3, o3, _, _, c3⟩ := thaw_gradient_spec dflt
    { bt1 with gradient := some { g1 with
        segments := g.segments.take p ++ merged_segment a b :: g.segments.drop (p + 2) } }
    { g1 with
        segments := g.segments.take p ++ merged_segment a b :: g.segments.drop (p + 2) }
    rfl hmlen (by show 0 < bt1.block_handlers_count; omega)
  refine ⟨bt1, g1, bt3, hf, hg1, hs1, heq, by rw [heq]; exact h3, g3, ?_, ?_, ?_⟩
  · rw [c3]
    show bt1.block_handlers_count - 1 = _
    omega
  · rw [o3]
    exact ho1
  · intro hinst
    have hi1 : bt1.options.instant = false := by rw [ho1]; exact hinst
    refine ⟨{ line with
        sliders := update_sliders_array dflt
          (is_gradient_editable
            { bt1 with gradient := some { g1 with
                segments := g.segments.take p ++ merged_segment a b ::
                  g.segments.drop (p + 2) } })
          (bt.options.offset / 100) bt.options.gradient_reverse
          (g.segments.take p ++ merged_segment a b :: g.segments.drop (p + 2)) },
      _, ?_, rfl⟩
    rw [w3]
    show Option.map _ bt1.widget = _
    rw [hw1']
    simp only [Option.map_some', hi1, Bool.false_eq_true, if_false]
    rw [ho1]

theorem merged_chain_length (segments : List GimpGradientSegment) (p : Nat)
    (m : GimpGradientSegment) (hp : p + 1 < segments.length) :
    (segments.take p ++ m :: segments.drop (p + 2)).length = segments.length - 1 := by
  simp only [List.length_append, List.length_take, List.length_cons, List.length_drop]
  omega

/-- C17: removing a stop.  On a tool with an editable gradient and a
non-negative block count, for a chain of `N ≥ 2` segments and a stop index
`i < N - 1` of a slider array in step with the chain, `line_remove_slider` is
one freeze, the one merge of segment `i` with its right neighbour `i + 1`, and
one thaw: the chain has the two segments replaced by their merge, it has
`N - 1` segments, the block count is as before, and the slider array rebuilt
on thaw (outside instant mode) is the array of the new chain, with
`2(N-1) - 1` entries. -/
theorem line_remove_slider_stop (dflt : GimpControllerSlider) (bt : GimpBlendTool)
    (g : GimpGradient) (line : GimpToolLine) (i : Nat)
    (hg : bt.gradient = some g) (hw : bt.widget = some line)
    (hedit : is_gradient_editable bt = true) (hcount : 0 ≤ bt.block_handlers_count)
    (hsync : SlidersInSync g.segments.length line.sliders)
    (hN : 2 ≤ g.segments.length) (hi : i < g.segments.length - 1) :
    ∃ bt1 g1 bt2 g2 seg nxt,
      g.segments[i]? = some seg ∧ g.segments[i + 1]? = some nxt ∧
      freeze_gradient bt = some bt1 ∧ bt1.gradient = some g1 ∧
      gimp_gradient_segment_range_merge g1.segments i (i + 1)
        = some (g.segments.take i ++ merged_segment seg nxt :: g.segments.drop (i + 2)) ∧
      line_remove_slider dflt bt (i : Int)
        = thaw_gradient dflt
            { bt1 with gradient := some { g1 with
                segments := g.segments.take i ++ merged_segment seg nxt ::
                  g.segments.drop (i + 2) } } ∧
      line_remove_slider dflt bt (i : Int) = some bt2 ∧ bt2.gradient = some g2 ∧
      g2.segments = g.segments.take i ++ merged_segment seg nxt :: g.segments.drop (i + 2) ∧
      g2.segments.length = g.segments.length - 1 ∧
      bt2.block_handlers_count = bt.block_handlers_count ∧
      (bt.options.instant = false → ∃ (line2 : GimpToolLine) (editable : Bool),
        bt2.widget = some line2 ∧
        line2.sliders = update_sliders_array dflt editable (bt.options.offset / 100)
          bt.options.gradient_reverse g2.segments ∧
        line2.sliders.length = 2 * (g.segments.length - 1) - 1) := by
  have h1 : g.segments[i]? = some (g.segments[i]) := List.getElem?_eq_getElem (by omega)
  have h2 : g.segments[i + 1]? = some (g.segments[i + 1]) := List.getElem?_eq_getElem (by omega)
  have hlt : i < line.sliders.length := by rw [hsync.1]; omega
  have hs : line.sliders[i]? = some (line.sliders[i]) := List.getElem?_eq_getElem hlt
  have hdata := hsync.2 i _ hs
  rw [if_pos hi] at hdata
  obtain ⟨bt1, g1, bt2, hf, hg1, hs1, heq, hres, hgrad, hcnt, _, hwid⟩ :=
    line_remove_slider_of_data dflt bt g line i _ i _ _ hg hw hedit hcount hs hdata h1 h2
  have hml := merged_chain_length g.segments i
    (merged_segment (g.segments[i]) (g.segments[i + 1])) (by omega)
  refine ⟨bt1, g1, bt2, _, _, _, h1, h2, hf, hg1, ?_, heq, hres, hgrad, rfl, hml, hcnt, ?_⟩
  · simp [gimp_gradient_segment_range_merge, hs1, h1, h2]
  · intro hinst
    obtain ⟨line2, editable, hw2, hsl⟩ := hwid hinst
    refine ⟨line2, editable, hw2, hsl, ?_⟩
    rw [hsl, update_sliders_array_length, hml]
    omega

/-- C17, a concrete instance: the first stop of `chain_three` is removed on
the sample tool. -/
theorem line_remove_slider_stop_witness :
    ∃ bt2 g2, line_remove_slider sample_slider_default sample_tool 0 = some bt2 ∧
      bt2.gradient = some g2 ∧ g2.segments.length = 2 := by
  obtain ⟨_, _, bt2, g2, _, _, _, _, _, _, _, _, hres, hgrad, _, hlen, _⟩ :=
    line_remove_slider_stop sample_slider_default sample_tool
      { segments := chain_three, writable := false, freeze_count := 0 }
      { sliders := update_sliders_array sample_slider_default true (25 / 100) true chain_three
        selection := GIMP_TOOL_LINE_HANDLE_NONE
        x1 := 0
        y1 := 0
        x2 := 100
        y2 := 0 }
      0 rfl rfl rfl (le_refl _)
      (update_sliders_array_in_sync sample_slider_default true (25 / 100) true chain_three)
      (by decide) (by decide)
  exact ⟨bt2, g2, hres, hgrad, hlen⟩

/-- C18, as stated, fails: on the sample tool (three segments, five sliders)
index 2 is not a stop but the midpoint of segment 0, and `line_remove_slider`
on it merges segment 0 with segment 1: the chain has two segments
afterwards. -/
theorem line_remove_slider_midpoint_counterexample :
    handle_is_stop sample_tool 2 = some false ∧
    handle_is_midpoint sample_tool 2 = some true ∧
    ∃ bt2 g2, line_remove_slider sample_slider_default sample_tool 2 = some bt2 ∧
      bt2.gradient = some g2 ∧ g2.segments.length = 2 ∧ g2.segments ≠ chain_three := by
  refine ⟨by decide, by decide, ?_⟩
  obtain ⟨_, g1, bt2, _, _, _, _, hres, hgrad, _⟩ :=
    line_remove_slider_of_data sample_slider_default sample_tool
      { segments := chain_three, writable := false, freeze_count := 0 }
      { sliders := update_sliders_array sample_slider_default true (25 / 100) true chain_three
        selection := GIMP_TOOL_LINE_HANDLE_NONE
        x1 := 0
        y1 := 0
        x2 := 100
        y2 := 0 }
      2
      (offset_slider (25 / 100) (flip_slider (midpoint_slider sample_slider_default true
        { left := 0, middle := 1 / 8, right := 1 / 4 } 0)))
      0 { left := 0, middle := 1 / 8, right := 1 / 4 }
      { left := 1 / 4, middle := 3 / 8, right := 1 / 2 }
      rfl rfl rfl (le_refl _) rfl rfl rfl rfl
  refine ⟨bt2, _, hres, hgrad, rfl, ?_⟩
  intro h
  have := congrArg List.length h
  simp [gimp_data_thaw, chain_three] at this

/-- C18, amended: `line_remove_slider` does not check that the index denotes
a stop.  On a tool with an editable gradient, a non-negative block count and
a slider array in step with the chain, for the midpoint index
`sliderCount / 2 + k` of a segment `k` that has a right neighbour
(`k < N - 1`), which is not a stop, `line_remove_slider` does what it does for
the stop `k`: it merges segment `k` with segment `k + 1`, and the chain has
`N - 1` segments afterwards. -/
theorem line_remove_slider_midpoint (dflt : GimpControllerSlider) (bt : GimpBlendTool)
    (g : GimpGradient) (line : GimpToolLine) (k : Nat)
    (hg : bt.gradient = some g) (hw : bt.widget = some line)
    (hedit : is_gradient_editable bt = true) (hcount : 0 ≤ bt.block_handlers_count)
    (hsync : SlidersInSync g.segments.length line.sliders)
    (hk : k + 1 < g.segments.length) :
    handle_is_stop bt ((line.sliders.length / 2 + k : Nat) : Int) = some false ∧
    handle_is_midpoint bt ((line.sliders.length / 2 + k : Nat) : Int) = some true ∧
    line_remove_slider dflt bt ((line.sliders.length / 2 + k : Nat) : Int)
      = line_remove_slider dflt bt (k : Int) ∧
    ∃ bt2 g2 seg nxt,
      g.segments[k]? = some seg ∧ g.segments[k + 1]? = some nxt ∧
      line_remove_slider dflt bt ((line.sliders.length / 2 + k : Nat) : Int) = some bt2 ∧
      bt2.gradient = some g2 ∧
      g2.segments = g.segments.take k ++ merged_segment seg nxt :: g.segments.drop (k + 2) ∧
      g2.segments.length = g.segments.length - 1 := by
  have hhalf : line.sliders.length / 2 = g.segments.length - 1 := by
    rw [hsync.1]; omega
  have h1 : g.segments[k]? = some (g.segments[k]) := List.getElem?_eq_getElem (by omega)
  have h2 : g.segments[k + 1]? = some (g.segments[k + 1]) := List.getElem?_eq_getElem hk
  have hltm : line.sliders.length / 2 + k < line.sliders.length := by
    rw [hsync.1]; omega
  have hlts : k < line.sliders.length := by rw [hsync.1]; omega
  have hsm : line.sliders[line.sliders.length / 2 + k]?
      = some (line.sliders[line.sliders.length / 2 + k]) := List.getElem?_eq_getElem hltm
  have hss : line.sliders[k]? = some (line.sliders[k]) := List.getElem?_eq_getElem hlts
  have hdm := hsync.2 _ _ hsm
  have hnot : ¬ (line.sliders.length / 2 + k < g.segments.length - 1) := by omega
  have hidx : line.sliders.length / 2 + k - (g.segments.length - 1) = k := by omega
  rw [if_neg hnot, hidx] at hdm
  have hds := hsync.2 _ _ hss
  rw [if_pos (by omega)] at hds
  obtain ⟨bt1, g1, bt2, hf, hg1, _, heq, hres, hgrad, _⟩ :=
    line_remove_slider_of_data dflt bt g line _ _ k _ _ hg hw hedit hcount hsm hdm h1 h2
  obtain ⟨bt1', g1', _, hf', hg1', _, heq', _⟩ :=
    line_remove_slider_of_data dflt bt g line _ _ k _ _ hg hw hedit hcount hss hds h1 h2
  have hbt : bt1' = bt1 := by
    rw [hf] at hf'
    exact (Option.some.inj hf').symm
  subst hbt
  have hgg : g1' = g1 := by
    rw [hg1] at hg1'
    exact (Option.some.inj hg1').symm
  subst hgg
  refine ⟨?_, ?_, by rw [heq, heq'], bt2, _, _, _, h1, h2, hres, hgrad, rfl, ?_⟩
  · rw [handle_is_stop_natCast bt line _ hw]
    simp
  · rw [handle_is_midpoint_natCast bt line _ hw]
    simp
  · exact merged_chain_length g.segments k _ hk

/-- C18 amended, a concrete instance: the midpoint of segment 0 on the sample
tool. -/
theorem line_remove_slider_midpoint_witness :
    line_remove_slider sample_slider_default sample_tool ((5 / 2 + 0 : Nat) : Int)
      = line_remove_slider sample_slider_default sample_tool ((0 : Nat) : Int) :=
  (line_remove_slider_midpoint sample_slider_default sample_tool
    { segments := chain_three, writable := false, freeze_count := 0 }
    { sliders := update_sliders_array sample_slider_default true (25 / 100) true chain_three
      selection := GIMP_TOOL_LINE_HANDLE_NONE
      x1 := 0
      y1 := 0
      x2 := 100
      y2 := 0 }
    0 rfl rfl rfl (le_refl _)
    (update_sliders_array_in_sync sample_slider_default true (25 / 100) true chain_three)
    (by decide)).2.2.1

/-! ## The range of `handle_get_segment` -/

/-- C19, as stated, fails: the reserved handles `START` and `END` are
negative, yet `handle_get_segment` does not fail on them: on the sample tool
it returns the first and the last segment. -/
theorem handle_get_segment_endpoint_counterexample :
    GIMP_TOOL_LINE_HANDLE_START < 0 ∧ GIMP_TOOL_LINE_HANDLE_END < 0 ∧
    handle_get_segment sample_tool GIMP_TOOL_LINE_HANDLE_START = some (some 0) ∧
    handle_get_segment sample_tool GIMP_TOOL_LINE_HANDLE_END = some (some 2) := by
  refine ⟨by decide, by decide, by decide, by decide⟩

/-- C19, amended: on a tool with a gradient and a widget, `handle_get_segment`
fails (the assertion `handle >= 0 && handle < n_sliders`) for every index that
is negative or at least `sliderCount`, except the reserved handles `START` and
`END`, for which it returns the first and the last segment of the chain; for
every index `0 ≤ index < sliderCount` it returns, without a failed assertion,
the segment at the position stored in the slider, which is a segment of the
chain whenever the slider array is in step with the chain. -/
theorem handle_get_segment_range (bt : GimpBlendTool) (g : GimpGradient)
    (line : GimpToolLine) (hg : bt.gradient = some g) (hw : bt.widget = some line) :
    (∀ handle : Int, (handle < 0 ∨ handle ≥ (line.sliders.length : Int)) →
      handle ≠ GIMP_TOOL_LINE_HANDLE_START → handle ≠ GIMP_TOOL_LINE_HANDLE_END →
      handle_get_segment bt handle = none) ∧
    (g.segments.length ≠ 0 →
      handle_get_segment bt GIMP_TOOL_LINE_HANDLE_START = some (some 0) ∧
      handle_get_segment bt GIMP_TOOL_LINE_HANDLE_END = some (some (g.segments.length - 1))) ∧
    (∀ k : Nat, k < line.sliders.length →
      ∃ slider, line.sliders[k]? = some slider ∧
        handle_get_segment bt (k : Int)
          = some (gimp_gradient_segment_get_nth g.segments slider.data)) ∧
    (SlidersInSync g.segments.length line.sliders →
      ∀ k : Nat, k < line.sliders.length →
        ∃ p, handle_get_segment bt (k : Int) = some (some p) ∧ p < g.segments.length) := by
  have hin : ∀ k : Nat, k < line.sliders.length →
      ∃ slider, line.sliders[k]? = some slider ∧
        handle_get_segment bt (k : Int)
          = some (gimp_gradient_segment_get_nth g.segments slider.data) := by
    intro k hk
    have hs : line.sliders[k]? = some (line.sliders[k]) := List.getElem?_eq_getElem hk
    exact ⟨_, hs, handle_get_segment_slider bt g line k _ hg hw hs⟩
  refine ⟨?_, ?_, hin, ?_⟩
  · intro handle hout h1 h2
    have hcond : ¬ (handle ≥ 0 ∧ handle < (line.sliders.length : Int)) := by
      rintro ⟨ha, hb⟩
      rcases hout with h | h <;> omega
    simp [handle_get_segment, hg, hw, h1, h2, hcond]
  · intro hne
    constructor
    · simp [handle_get_segment, hg, hne]
    · simp [handle_get_segment, hg, hne, gimp_gradient_segment_get_last,
        GIMP_TOOL_LINE_HANDLE_END, GIMP_TOOL_LINE_HANDLE_START]
  · intro hsync k hk
    obtain ⟨slider, hs, hget⟩ := hin k hk
    have hd := hsync.2 k slider hs
    have hlen := hsync.1
    by_cases hlt : k < g.segments.length - 1
    · rw [if_pos hlt] at hd
      refine ⟨k, ?_, by omega⟩
      rw [hget, hd, gimp_gradient_segment_get_nth_of_lt g.segments k (by omega)]
    · rw [if_neg hlt] at hd
      refine ⟨k - (g.segments.length - 1), ?_, by omega⟩
      rw [hget, hd, gimp_gradient_segment_get_nth_of_lt g.segments _ (by omega)]

/-- C19 amended, a concrete instance: the sample tool, with five sliders. -/
theorem handle_get_segment_range_witness :
    handle_get_segment sample_tool 5 = none ∧
    handle_get_segment sample_tool (-4) = none ∧
    ∃ p, handle_get_segment sample_tool ((4 : Nat) : Int) = some (some p) ∧ p < 3 := by
  have h := handle_get_segment_range sample_tool
    { segments := chain_three, writable := false, freeze_count := 0 }
    { sliders := update_sliders_array sample_slider_default true (25 / 100) true chain_three
      selection := GIMP_TOOL_LINE_HANDLE_NONE
      x1 := 0
      y1 := 0
      x2 := 100
      y2 := 0 } rfl rfl
  refine ⟨h.1 5 (Or.inr (by decide)) (by decide) (by decide),
    h.1 (-4) (Or.inl (by decide)) (by decide) (by decide), ?_⟩
  exact h.2.2.2
    (update_sliders_array_in_sync sample_slider_default true (25 / 100) true chain_three)
    4 (by decide)

/-! ## The colour of an endpoint -/

theorem color_entry_apply_endpoint (dflt : GimpControllerSlider) (bt : GimpBlendTool)
    (g : GimpGradient) (line : GimpToolLine)
    (set_left set_right : GimpGradientSegment → GimpGradientSegment)
    (direction : Direction) (chain_active : Bool)
    (hcount : 0 ≤ bt.block_handlers_count)
    (hg : bt.gradient = some g) (hw : bt.widget = some line)
    (hN : g.segments.length ≠ 0) (hedit : is_gradient_editable bt = true)
    (hsel : line.selection = GIMP_TOOL_LINE_HANDLE_START ∨
      line.selection = GIMP_TOOL_LINE_HANDLE_END) :
    ∃ bt1 g1 first last,
      g.segments[0]? = some first ∧ g.segments[g.segments.length - 1]? = some last ∧
      color_entry_apply dflt bt set_left set_right direction chain_active = some bt1 ∧
      bt1.gradient = some g1 ∧
      bt1.block_handlers_count = bt.block_handlers_count ∧
      g1.segments =
        (if (line.selection = GIMP_TOOL_LINE_HANDLE_START ∧ bt.options.gradient_reverse = false) ∨
            (line.selection = GIMP_TOOL_LINE_HANDLE_END ∧ bt.options.gradient_reverse = true)
         then g.segments.set 0 (set_left first)
         else g.segments.set (g.segments.length - 1) (set_right last)) := by
  have hpos : 0 < g.segments.length := Nat.pos_of_ne_zero hN
  have h0 : g.segments[0]? = some (g.segments[0]) := List.getElem?_eq_getElem hpos
  have hl : g.segments[g.segments.length - 1]? = some (g.segments[g.segments.length - 1]) :=
    List.getElem?_eq_getElem (by omega)
  obtain ⟨bt1, g1, hf, hg1, hs1, _, ho1, hc1⟩ := freeze_gradient_spec bt g hg hedit
  have hN1 : g1.segments.length ≠ 0 := by rw [hs1]; exact hN
  have hstart : handle_get_segment bt1 GIMP_TOOL_LINE_HANDLE_START = some (some 0) := by
    simp [handle_get_segment, hg1, hN1]
  have hend : handle_get_segment bt1 GIMP_TOOL_LINE_HANDLE_END
      = some (some (g.segments.length - 1)) := by
    rw [← hs1]
    simp [handle_get_segment, hg1, hN1, gimp_gradient_segment_get_last,
      GIMP_TOOL_LINE_HANDLE_END, GIMP_TOOL_LINE_HANDLE_START]
  have hne : ¬ (GIMP_TOOL_LINE_HANDLE_END = GIMP_TOOL_LINE_HANDLE_START) := by decide
  have hne' : ¬ (GIMP_TOOL_LINE_HANDLE_START = GIMP_TOOL_LINE_HANDLE_END) := by decide
  have hthaw : ∀ segs : List GimpGradientSegment, segs.length = g.segments.length →
      ∃ bt3, thaw_gradient dflt { bt1 with gradient := some { g1 with segments := segs } }
          = some bt3 ∧
        bt3.gradient = some (gimp_data_thaw { g1 with segments := segs }) ∧
        bt3.block_handlers_count = bt.block_handlers_count := by
    intro segs hlen
    obtain ⟨bt3, h3, _, g3, _, _, _, c3⟩ := thaw_gradient_spec dflt
      { bt1 with gradient := some { g1 with segments := segs } }
      { g1 with segments := segs } rfl (by show segs.length ≠ 0; rw [hlen]; exact hN)
      (by show 0 < bt1.block_handlers_count; omega)
    refine ⟨bt3, h3, g3, ?_⟩
    rw [c3]
    show bt1.block_handlers_count - 1 = _
    omega
  have hr1 : bt1.options.gradient_reverse = bt.options.gradient_reverse := by rw [ho1]
  rcases hsel with h | h <;> cases hr : bt.options.gradient_reverse
  · obtain ⟨bt3, h3, g3, c3⟩ := hthaw (g.segments.set 0 (set_left (g.segments[0]))) (by simp)
    refine ⟨bt3, _, _, _, h0, hl, ?_, g3, c3, ?_⟩
    · simp only [color_entry_apply, hw, hf, h, hr1, hr, hg1, hstart, hs1, h0, if_true,
        Bool.false_eq_true, if_false]
      exact h3
    · simp [gimp_data_thaw, h]
  · obtain ⟨bt3, h3, g3, c3⟩ := hthaw
      (g.segments.set (g.segments.length - 1) (set_right (g.segments[g.segments.length - 1])))
      (by simp)
    refine ⟨bt3, _, _, _, h0, hl, ?_, g3, c3, ?_⟩
    · simp only [color_entry_apply, hw, hf, h, hr1, hr, hg1, hend, hs1, hl, if_true, hne,
        if_false]
      exact h3
    · simp [gimp_data_thaw, h, hne']
  · obtain ⟨bt3, h3, g3, c3⟩ := hthaw
      (g.segments.set (g.segments.length - 1) (set_right (g.segments[g.segments.length - 1])))
      (by simp)
    refine ⟨bt3, _, _, _, h0, hl, ?_, g3, c3, ?_⟩
    · simp only [color_entry_apply, hw, hf, h, hr1, hr, hg1, hend, hs1, hl, if_true, hne,
        Bool.false_eq_true, if_false]
      exact h3
    · simp [gimp_data_thaw, h, hne]
  · obtain ⟨bt3, h3, g3, c3⟩ := hthaw (g.segments.set 0 (set_left (g.segments[0]))) (by simp)
    refine ⟨bt3, _, _, _, h0, hl, ?_, g3, c3, ?_⟩
    · simp only [color_entry_apply, hw, hf, h, hr1, hr, hg1, hstart, hs1, h0, if_true, hne,
        if_false]
      exact h3
    · simp [gimp_data_thaw, h]

theorem getElem?_set_of_getElem? (segments : List GimpGradientSegment) (p : Nat)
    (e : GimpGradientSegment) (i : Nat) (seg : GimpGradientSegment)
    (hi : segments[i]? = some seg) :
    (segments.set p e)[i]? = some (if i = p then e else seg) := by
  obtain ⟨hlt, _⟩ := List.getElem?_eq_some_iff.mp hi
  by_cases h : i = p
  · subst h
    rw [List.getElem?_set, if_pos rfl, if_pos hlt, if_pos rfl]
  · rw [List.getElem?_set, if_neg (Ne.symm h), if_neg h, hi]

/-- C23: an endpoint colour edit respects the reversal and touches one colour
only.  With the handlers unblocked, on a tool with an editable gradient of at
least one segment and `START` or `END` selected, `color_entry_color_changed`
returns, and the chain afterwards is the chain before with one segment
replaced: for `START` on a gradient that is not reversed (and for `END` on a
reversed one) the first segment, with `left_color` the new colour and
`left_color_type` `FIXED`; for `START` on a reversed gradient (and for `END` on
one that is not reversed) the last segment, with `right_color` the new colour
and `right_color_type` `FIXED`.  The segment count is unchanged, every segment
keeps its `left`, `middle` and `right`, the edited segment keeps the colour and
colour type of its other end, and every other segment is unchanged. -/
theorem color_entry_color_changed_endpoint (dflt : GimpControllerSlider)
    (bt : GimpBlendTool) (g : GimpGradient) (line : GimpToolLine) (color : GimpRGB)
    (direction : Direction) (chain_active : Bool)
    (hcount : bt.block_handlers_count = 0)
    (hg : bt.gradient = some g) (hw : bt.widget = some line)
    (hN : g.segments.length ≠ 0) (hedit : is_gradient_editable bt = true)
    (hsel : line.selection = GIMP_TOOL_LINE_HANDLE_START ∨
      line.selection = GIMP_TOOL_LINE_HANDLE_END) :
    ∃ bt1 g1 first last,
      g.segments[0]? = some first ∧ g.segments[g.segments.length - 1]? = some last ∧
      color_entry_color_changed dflt bt color direction chain_active = some bt1 ∧
      bt1.gradient = some g1 ∧
      (line.selection = GIMP_TOOL_LINE_HANDLE_START → bt.options.gradient_reverse = false →
        g1.segments = g.segments.set 0
          { first with left_color := color, left_color_type := GimpGradientColor.FIXED }) ∧
      (line.selection = GIMP_TOOL_LINE_HANDLE_START → bt.options.gradient_reverse = true →
        g1.segments = g.segments.set (g.segments.length - 1)
          { last with right_color := color, right_color_type := GimpGradientColor.FIXED }) ∧
      (line.selection = GIMP_TOOL_LINE_HANDLE_END → bt.options.gradient_reverse = false →
        g1.segments = g.segments.set (g.segments.length - 1)
          { last with right_color := color, right_color_type := GimpGradientColor.FIXED }) ∧
      (line.selection = GIMP_TOOL_LINE_HANDLE_END → bt.options.gradient_reverse = true →
        g1.segments = g.segments.set 0
          { first with left_color := color, left_color_type := GimpGradientColor.FIXED }) ∧
      g1.segments.length = g.segments.length ∧
      ∀ (i : Nat) (seg : GimpGradientSegment), g.segments[i]? = some seg →
        ∃ seg1, g1.segments[i]? = some seg1 ∧
          seg1.left = seg.left ∧ seg1.middle = seg.middle ∧ seg1.right = seg.right ∧
          (((line.selection = GIMP_TOOL_LINE_HANDLE_START ∧ bt.options.gradient_reverse = false) ∨
            (line.selection = GIMP_TOOL_LINE_HANDLE_END ∧ bt.options.gradient_reverse = true)) →
            seg1.right_color = seg.right_color ∧
            seg1.right_color_type = seg.right_color_type ∧ (i ≠ 0 → seg1 = seg)) ∧
          (((line.selection = GIMP_TOOL_LINE_HANDLE_START ∧ bt.options.gradient_reverse = true) ∨
            (line.selection = GIMP_TOOL_LINE_HANDLE_END ∧ bt.options.gradient_reverse = false)) →
            seg1.left_color = seg.left_color ∧
            seg1.left_color_type = seg.left_color_type ∧
            (i ≠ g.segments.length - 1 → seg1 = seg)) := by
  have hb : are_handlers_blocked bt = false := by
    simp [are_handlers_blocked, hcount]
  have hse : ¬ (GIMP_TOOL_LINE_HANDLE_START = GIMP_TOOL_LINE_HANDLE_END) := by decide
  have hes : ¬ (GIMP_TOOL_LINE_HANDLE_END = GIMP_TOOL_LINE_HANDLE_START) := by decide
  obtain ⟨bt1, g1, first, last, h0, hl, hres, hg1, _, hsegs⟩ :=
    color_entry_apply_endpoint dflt bt g line
      (fun seg => { seg with left_color := color,
                             left_color_type := GimpGradientColor.FIXED })
      (fun seg => { seg with right_color := color,
                             right_color_type := GimpGradientColor.FIXED })
      direction chain_active (le_of_eq hcount.symm) hg hw hN hedit hsel
  have hres' : color_entry_color_changed dflt bt color direction chain_active = some bt1 := by
    simp only [color_entry_color_changed, hb, Bool.false_eq_true, if_false]
    exact hres
  refine ⟨bt1, g1, first, last, h0, hl, hres', hg1, ?_, ?_, ?_, ?_, ?_, ?_⟩
  · intro hs hr
    rw [hsegs, if_pos (Or.inl ⟨hs, hr⟩)]
  · intro hs hr
    rw [hsegs, if_neg]
    rintro (⟨_, h⟩ | ⟨h, _⟩)
    · rw [hr] at h; exact Bool.noConfusion h
    · rw [hs] at h; exact hse h
  · intro hs hr
    rw [hsegs, if_neg]
    rintro (⟨h, _⟩ | ⟨_, h⟩)
    · rw [hs] at h; exact hes h
    · rw [hr] at h; exact Bool.noConfusion h
  · intro hs hr
    rw [hsegs, if_pos (Or.inr ⟨hs, hr⟩)]
  · rw [hsegs]
    split <;> simp
  · intro i seg hi
    by_cases hc : (line.selection = GIMP_TOOL_LINE_HANDLE_START ∧
          bt.options.gradient_reverse = false) ∨
        (line.selection = GIMP_TOOL_LINE_HANDLE_END ∧ bt.options.gradient_reverse = true)
    · rw [hsegs, if_pos hc, getElem?_set_of_getElem? g.segments 0 _ i seg hi]
      refine ⟨_, rfl, ?_, ?_, ?_, ?_, ?_⟩
      · split <;> rename_i h
        · subst h
          rw [h0] at hi
          rw [← Option.some.inj hi]
        · rfl
      · split <;> rename_i h
        · subst h
          rw [h0] at hi
          rw [← Option.some.inj hi]
        · rfl
      · split <;> rename_i h
        · subst h
          rw [h0] at hi
          rw [← Option.some.inj hi]
        · rfl
      · intro _
        refine ⟨?_, ?_, ?_⟩
        · split <;> rename_i h
          · subst h
            rw [h0] at hi
            rw [← Option.some.inj hi]
          · rfl
        · split <;> rename_i h
          · subst h
            rw [h0] at hi
            rw [← Option.some.inj hi]
          · rfl
        · intro hne
          rw [if_neg hne]
      · intro hc2
        exfalso
        rcases hc with ⟨a, b⟩ | ⟨a, b⟩ <;> rcases hc2 with ⟨c, d⟩ | ⟨c, d⟩
        · rw [b] at d; exact Bool.noConfusion d
        · rw [a] at c; exact hse c
        · rw [a] at c; exact hes c
        · rw [b] at d; exact Bool.noConfusion d
    · rw [hsegs, if_neg hc,
        getElem?_set_of_getElem? g.segments (g.segments.length - 1) _ i seg hi]
      refine ⟨_, rfl, ?_, ?_, ?_, ?_, ?_⟩
      · split <;> rename_i h
        · subst h
          rw [hl] at hi
          rw [← Option.some.inj hi]
        · rfl
      · split <;> rename_i h
        · subst h
          rw [hl] at hi
          rw [← Option.some.inj hi]
        · rfl
      · split <;> rename_i h
        · subst h
          rw [hl] at hi
          rw [← Option.some.inj hi]
        · rfl
      · intro hc2
        exact absurd hc2 hc
      · intro _
        refine ⟨?_, ?_, ?_⟩
        · split <;> rename_i h
          · subst h
            rw [hl] at hi
            rw [← Option.some.inj hi]
          · rfl
        · split <;> rename_i h
          · subst h
            rw [hl] at hi
            rw [← Option.some.inj hi]
          · rfl
        · intro hne
          rw [if_neg hne]

/-- C23, a concrete instance: on the reversed sample tool with `START`
selected, the new colour goes to the right end of the last segment of
`chain_three`. -/
theorem color_entry_color_changed_endpoint_witness :
    ∃ bt1 g1,
      color_entry_color_changed sample_slider_default start_selected_tool sample_color
        Direction.DIRECTION_NONE false = some bt1 ∧
      bt1.gradient = some g1 ∧
      g1.segments =
        [{ left := 0, middle := 1 / 8, right := 1 / 4 },
         { left := 1 / 4, middle := 3 / 8, right := 1 / 2 },
         { left := 1 / 2, middle := 3 / 4, right := 1, right_color := sample_color }] := by
  obtain ⟨bt1, g1, first, last, _, hl, hres, hg1, _, h2, _⟩ :=
    color_entry_color_changed_endpoint sample_slider_default start_selected_tool
      { segments := chain_three, writable := false, freeze_count := 0 }
      { sliders := update_sliders_array sample_slider_default true (25 / 100) true chain_three
        selection := GIMP_TOOL_LINE_HANDLE_START
        x1 := 0
        y1 := 0
        x2 := 100
        y2 := 0 }
      sample_color Direction.DIRECTION_NONE false rfl rfl rfl (by decide) rfl (Or.inl rfl)
  have hlast : last = { left := 1 / 2, middle := 3 / 4, right := 1 } :=
    (Option.some.inj hl).symm
  refine ⟨bt1, g1, hres, hg1, ?_⟩
  rw [h2 rfl rfl, hlast]
  rfl

/-! ## A double click on a midpoint -/

theorem line_handle_clicked_double (dflt : GimpControllerSlider) (bt : GimpBlendTool)
    (g : GimpGradient) (line : GimpToolLine) (h : Nat) (slider : GimpControllerSlider)
    (k : Nat) (segs2 : List GimpGradientSegment) (newl newr : GimpGradientSegment)
    (hg : bt.gradient = some g) (hw : bt.widget = some line)
    (hedit : is_gradient_editable bt = true) (hcount : 0 ≤ bt.block_handlers_count)
    (hinst : bt.options.instant = false)
    (hmid : line.sliders.length / 2 ≤ h) (hs : line.sliders[h]? = some slider)
    (hin : slider.value > slider.min + EPSILON ∧ slider.value < slider.max - EPSILON)
    (hsplit : gimp_gradient_split_at g.segments slider.value = some (segs2, k))
    (hlen : segs2.length = g.segments.length + 1) (hlt : k < g.segments.length)
    (hl : segs2[k]? = some newl) (hr : segs2[k + 1]? = some newr) :
    ∃ bt1 bt2 g2 line2,
      add_stop dflt bt slider.value = some (bt1, (k : Int)) ∧
      line_handle_clicked dflt bt (h : Int) GimpButtonPressType.DOUBLE = some (bt2, false) ∧
      bt2.gradient = some g2 ∧ g2.segments = segs2 ∧
      bt2.widget = some line2 ∧ line2.selection = (k : Int) ∧
      line2.sliders[k]? = some (offset_slider (bt.options.offset / 100)
        (if bt.options.gradient_reverse then
          flip_slider (stop_slider dflt (is_gradient_editable bt1) newl newr k)
         else stop_slider dflt (is_gradient_editable bt1) newl newr k)) := by
  obtain ⟨bt1, g1, h1, hg1, hseg1, _, hc1, _, _, h8⟩ :=
    add_stop_of_split dflt bt g slider.value k segs2 newl newr hg hedit hcount hsplit hlen hlt
      hl hr
  obtain ⟨line1, hw1, _, _, _, _, hsl⟩ := h8 line hw hinst
  obtain ⟨bt2, h2, w2, g2, _⟩ := update_gui_spec
    { bt1 with widget := some { line1 with selection := (k : Int) } } g1 hg1
    (by rw [hseg1, hlen]; omega) (by show 0 ≤ bt1.block_handlers_count; omega)
  have hsel : gimp_tool_line_set_selection bt1 (k : Int) = some bt2 := by
    simp only [gimp_tool_line_set_selection, hw1, line_selection_changed]
    exact h2
  have hm : handle_is_midpoint bt (h : Int) = some true := by
    rw [handle_is_midpoint_natCast bt line h hw]
    simp [hmid]
  refine ⟨bt1, bt2, g1, { line1 with selection := (k : Int) }, h1, ?_, ?_, hseg1, w2, rfl, hsl⟩
  · simp only [line_handle_clicked, hm, hw, hedit, and_self, if_true, Int.toNat_ofNat, hs, hin,
      h1, hsel]
  · rw [g2]
    exact hg1

/-- C22, the code on a gradient with an offset and a reversal: on the sample
tool (three segments, reversed, offset 25 percent) slider 2 is the midpoint of
segment 0, with slider value `29/32` strictly inside its limits; its position
in segment space is `1/8`.  A double press on it calls `add_stop` with the
slider value `29/32` itself, not with `1/8`: the split is made in segment 2 at
`29/32`, segment 0 is untouched, the returned stop `2` is selected, and the new
stop slider has the value `41/128`, not the `29/32` of the clicked midpoint. -/
theorem line_handle_clicked_midpoint_unconverted :
    (∃ line slider, sample_tool.widget = some line ∧ line.sliders[2]? = some slider ∧
      slider.value = 29 / 32 ∧
      slider.min + EPSILON < slider.value ∧ slider.value < slider.max - EPSILON ∧
      slider_value_to_segment (sample_tool.options.offset / 100)
        sample_tool.options.gradient_reverse slider.value = 1 / 8) ∧
    handle_is_midpoint sample_tool 2 = some true ∧
    is_gradient_editable sample_tool = true ∧
    ∃ bt1 bt2 g2 line2 stop,
      add_stop sample_slider_default sample_tool (29 / 32) = some (bt1, 2) ∧
      line_handle_clicked sample_slider_default sample_tool 2 GimpButtonPressType.DOUBLE
        = some (bt2, false) ∧
      bt2.gradient = some g2 ∧
      g2.segments =
        [{ left := 0, middle := 1 / 8, right := 1 / 4 },
         { left := 1 / 4, middle := 3 / 8, right := 1 / 2 },
         { left := 1 / 2, middle := 45 / 64, right := 29 / 32 },
         { left := 29 / 32, middle := 61 / 64, right := 1 }] ∧
      bt2.widget = some line2 ∧ line2.selection = 2 ∧
      line2.sliders[2]? = some stop ∧ stop.value = 41 / 128 ∧ stop.value ≠ 29 / 32 := by
  have hv : (offset_slider (25 / 100) (flip_slider (midpoint_slider sample_slider_default true
      { left := 0, middle := 1 / 8, right := 1 / 4 } 0))).value = 29 / 32 := by
    norm_num [offset_slider, flip_slider, midpoint_slider]
  have hin : (offset_slider (25 / 100) (flip_slider (midpoint_slider sample_slider_default true
        { left := 0, middle := 1 / 8, right := 1 / 4 } 0))).value
        > (offset_slider (25 / 100) (flip_slider (midpoint_slider sample_slider_default true
          { left := 0, middle := 1 / 8, right := 1 / 4 } 0))).min + EPSILON ∧
      (offset_slider (25 / 100) (flip_slider (midpoint_slider sample_slider_default true
        { left := 0, middle := 1 / 8, right := 1 / 4 } 0))).value
        < (offset_slider (25 / 100) (flip_slider (midpoint_slider sample_slider_default true
          { left := 0, middle := 1 / 8, right := 1 / 4 } 0))).max - EPSILON := by
    constructor <;> norm_num [offset_slider, flip_slider, midpoint_slider, EPSILON]
  have hsplit : gimp_gradient_split_at chain_three
      (offset_slider (25 / 100) (flip_slider (midpoint_slider sample_slider_default true
        { left := 0, middle := 1 / 8, right := 1 / 4 } 0))).value
      = some ([{ left := 0, middle := 1 / 8, right := 1 / 4 },
         { left := 1 / 4, middle := 3 / 8, right := 1 / 2 },
         { left := 1 / 2, middle := 45 / 64, right := 29 / 32 },
         { left := 29 / 32, middle := 61 / 64, right := 1 }], 2) := by
    rw [hv, gimp_gradient_split_at_eq chain_three (29 / 32) 2
      { left := 1 / 2, middle := 3 / 4, right := 1 } rfl (by norm_num)
      (valid_chain_first_containing chain_three valid_chain_three (29 / 32) 2
        { left := 1 / 2, middle := 3 / 4, right := 1 } rfl (by norm_num))]
    norm_num [chain_three]
  obtain ⟨bt1, bt2, g2, line2, h1, h2, hg2, hs2, hw2, hsel, hsl⟩ :=
    line_handle_clicked_double sample_slider_default sample_tool
      { segments := chain_three, writable := false, freeze_count := 0 }
      { sliders := update_sliders_array sample_slider_default true (25 / 100) true chain_three
        selection := GIMP_TOOL_LINE_HANDLE_NONE
        x1 := 0
        y1 := 0
        x2 := 100
        y2 := 0 }
      2
      (offset_slider (25 / 100) (flip_slider (midpoint_slider sample_slider_default true
        { left := 0, middle := 1 / 8, right := 1 / 4 } 0)))
      2 _
      { left := 1 / 2, middle := 45 / 64, right := 29 / 32 }
      { left := 29 / 32, middle := 61 / 64, right := 1 }
      rfl rfl rfl (le_refl _) rfl (by decide) rfl hin hsplit rfl (by decide) rfl rfl
  rw [hv] at h1
  refine ⟨⟨_, offset_slider (25 / 100) (flip_slider (midpoint_slider sample_slider_default true
      { left := 0, middle := 1 / 8, right := 1 / 4 } 0)), rfl, rfl, hv, hin.1, hin.2, ?_⟩,
    by decide, rfl, bt1, bt2, g2, line2, _, h1, h2, hg2, hs2, hw2, hsel, hsl, ?_, ?_⟩
  · rw [hv]
    norm_num [slider_value_to_segment, sample_tool]
  · norm_num [offset_slider, flip_slider, stop_slider, sample_tool]
  · norm_num [offset_slider, flip_slider, stop_slider, sample_tool]

/-! ## The block count of the handlers -/

theorem unblock_handlers_count (bt bt1 : GimpBlendTool) (h : unblock_handlers bt = some bt1) :
    bt1.block_handlers_count = bt.block_handlers_count - 1 := by
  unfold unblock_handlers at h
  split at h
  · rw [← Option.some.inj h]
  · exact Option.noConfusion h

theorem update_sliders_count (dflt : GimpControllerSlider) (bt bt1 : GimpBlendTool)
    (h : update_sliders dflt bt = some bt1) :
    bt1.block_handlers_count = bt.block_handlers_count := by
  unfold update_sliders at h
  cases hw : bt.widget with
  | none =>
      simp only [hw] at h
      rw [← Option.some.inj h]
  | some line =>
      simp only [hw] at h
      split at h
      · rw [← Option.some.inj h]
      · cases hg : bt.gradient with
        | none => simp [hg] at h
        | some g =>
            simp only [hg] at h
            split at h
            · exact Option.noConfusion h
            · have := unblock_handlers_count _ _ h
              rw [this]
              show bt.block_handlers_count + 1 - 1 = _
              omega

theorem update_sliders_none (dflt : GimpControllerSlider) (bt : GimpBlendTool)
    (hc : 0 ≤ bt.block_handlers_count) (h : update_sliders dflt bt = none) :
    ∀ g, bt.gradient = some g → g.segments = [] := by
  intro g hg
  by_contra hne
  obtain ⟨bt1, h1, _⟩ := update_sliders_spec dflt bt g hg
    (fun h0 => hne (List.length_eq_zero.mp h0)) hc
  rw [h] at h1
  exact Option.noConfusion h1

theorem update_gui_count (bt bt1 : GimpBlendTool) (h : update_gui bt = some bt1) :
    bt1.block_handlers_count = bt.block_handlers_count := by
  obtain ⟨options, gradient, is_custom, custom, widget, gui, count⟩ := bt
  unfold update_gui at h
  simp only at h
  split at h
  · split at h
    · rw [← Option.some.inj h]
    · split at h
      · rw [← Option.some.inj h]
      · split at h
        · exact Option.noConfusion h
        · split at h
          · exact Option.noConfusion h
          · rename_i bt2 hu
            have := unblock_handlers_count _ _ hu
            rw [← Option.some.inj h]
            show bt2.block_handlers_count = count
            rw [this]
            show count + 1 - 1 = count
            omega
  · rw [← Option.some.inj h]

theorem update_gui_none (bt : GimpBlendTool)
    (hc : 0 ≤ bt.block_handlers_count) (h : update_gui bt = none) :
    ∀ g, bt.gradient = some g → g.segments = [] := by
  intro g hg
  by_contra hne
  obtain ⟨bt1, h1, _⟩ := update_gui_spec bt g hg
    (fun h0 => hne (List.length_eq_zero.mp h0)) hc
  rw [h] at h1
  exact Option.noConfusion h1

theorem thaw_gradient_count (dflt : GimpControllerSlider) (bt bt1 : GimpBlendTool)
    (h : thaw_gradient dflt bt = some bt1) :
    bt1.block_handlers_count = bt.block_handlers_count - 1 := by
  unfold thaw_gradient at h
  simp only at h
  split at h
  · exact Option.noConfusion h
  · rename_i bt2 h2
    split at h
    · exact Option.noConfusion h
    · rename_i bt3 h3
      rw [unblock_handlers_count _ _ h, update_gui_count _ _ h3, update_sliders_count _ _ _ h2]

theorem thaw_gradient_none (dflt : GimpControllerSlider) (bt : GimpBlendTool)
    (hc : 0 < bt.block_handlers_count) (h : thaw_gradient dflt bt = none) :
    ∀ g, bt.gradient = some g → g.segments = [] := by
  intro g hg
  by_contra hne
  obtain ⟨bt1, h1, _⟩ := thaw_gradient_spec dflt bt g hg
    (fun h0 => hne (List.length_eq_zero.mp h0)) hc
  rw [h] at h1
  exact Option.noConfusion h1

theorem freeze_gradient_count (bt bt1 : GimpBlendTool) (h : freeze_gradient bt = some bt1) :
    bt1.block_handlers_count = bt.block_handlers_count + 1 ∧
    ∃ g g1, bt.gradient = some g ∧ bt1.gradient = some g1 ∧ g1.segments = g.segments := by
  unfold freeze_gradient at h
  simp only [block_handlers] at h
  cases hg : bt.gradient with
  | none => simp [hg] at h
  | some g =>
      simp only [hg] at h
      split at h
      · split at h
        · rw [← Option.some.inj h]
          exact ⟨rfl, g, _, rfl, rfl, rfl⟩
        · exact Option.noConfusion h
      · split at h
        · rw [← Option.some.inj h]
          exact ⟨rfl, g, _, rfl, rfl, rfl⟩
        · exact Option.noConfusion h

theorem endpoint_se_value_changed_count (bt : GimpBlendTool) (x y : ℚ)
    (hc : 0 ≤ bt.block_handlers_count) :
    (∃ bt1, endpoint_se_value_changed bt x y = some bt1 ∧
      bt1.block_handlers_count = bt.block_handlers_count) ∨
    (endpoint_se_value_changed bt x y = none ∧
      ∀ line, bt.widget = some line →
        line.selection ≠ GIMP_TOOL_LINE_HANDLE_START ∧
        line.selection ≠ GIMP_TOOL_LINE_HANDLE_END) := by
  by_cases hb : bt.block_handlers_count > 0
  · left
    exact ⟨bt, by simp [endpoint_se_value_changed, are_handlers_blocked, hb], rfl⟩
  · have hb' : are_handlers_blocked bt = false := by simp [are_handlers_blocked, hb]
    have hpos : bt.block_handlers_count + 1 > 0 := by omega
    cases hw : bt.widget with
    | none =>
        right
        refine ⟨by simp [endpoint_se_value_changed, hb', hw], ?_⟩
        intro line hl
        exact Option.noConfusion hl
    | some line =>
        by_cases hs : line.selection = GIMP_TOOL_LINE_HANDLE_START
        · left
          simp only [endpoint_se_value_changed, hb', hw, hs, block_handlers,
            unblock_handlers, hpos, if_true, Bool.false_eq_true, if_false]
          exact ⟨_, rfl, by show bt.block_handlers_count + 1 - 1 = _; omega⟩
        · by_cases he : line.selection = GIMP_TOOL_LINE_HANDLE_END
          · left
            have hes : ¬ (GIMP_TOOL_LINE_HANDLE_END = GIMP_TOOL_LINE_HANDLE_START) := by decide
            simp only [endpoint_se_value_changed, hb', hw, he, hes, block_handlers,
              unblock_handlers, hpos, if_true, Bool.false_eq_true, if_false]
            exact ⟨_, rfl, by show bt.block_handlers_count + 1 - 1 = _; omega⟩
          · right
            refine ⟨by simp [endpoint_se_value_changed, hb', hw, hs, he], ?_⟩
            intro line1 hl
            rw [← Option.some.inj hl]
            exact ⟨hs, he⟩

theorem add_stop_count (dflt : GimpControllerSlider) (bt : GimpBlendTool) (value : ℚ)
    (hc : 0 ≤ bt.block_handlers_count) :
    (∃ bt1 stop, add_stop dflt bt value = some (bt1, stop) ∧
      bt1.block_handlers_count = bt.block_handlers_count) ∨
    (add_stop dflt bt value = none ∧
      (freeze_gradient bt = none ∨
       ∃ bt1 g1, freeze_gradient bt = some bt1 ∧ bt1.gradient = some g1 ∧
         gimp_gradient_split_at g1.segments value = none)) := by
  cases hf : freeze_gradient bt with
  | none =>
      right
      exact ⟨by simp [add_stop, hf], Or.inl rfl⟩
  | some bt1 =>
      obtain ⟨hc1, _, g1, _, hg1, _⟩ := freeze_gradient_count bt bt1 hf
      cases hsp : gimp_gradient_split_at g1.segments value with
      | none =>
          right
          exact ⟨by simp [add_stop, hf, hg1, hsp], Or.inr ⟨bt1, g1, rfl, hg1, hsp⟩⟩
      | some r =>
          obtain ⟨segs2, k⟩ := r
          have hlen := gimp_gradient_split_at_some g1.segments segs2 value k hsp
          obtain ⟨bt3, h3, _, _, _, _, _, c3⟩ := thaw_gradient_spec dflt
            { bt1 with gradient := some { g1 with segments := segs2 } }
            { g1 with segments := segs2 } rfl
            (by simp only [hlen]; omega) (by show 0 < bt1.block_handlers_count; omega)
          left
          refine ⟨bt3, gimp_gradient_segment_range_get_n_segments segs2 0 (some k) - 1, ?_, ?_⟩
          · simp only [add_stop, hf, hg1, hsp, h3]
          · rw [c3]
            show bt1.block_handlers_count - 1 = _
            omega

theorem line_remove_slider_count (dflt : GimpControllerSlider) (bt : GimpBlendTool)
    (slider : Int) (hc : 0 ≤ bt.block_handlers_count) :
    (∃ bt1, line_remove_slider dflt bt slider = some bt1 ∧
      bt1.block_handlers_count = bt.block_handlers_count) ∨
    (line_remove_slider dflt bt slider = none ∧
      (freeze_gradient bt = none ∨
       ∃ bt1 g1, freeze_gradient bt = some bt1 ∧ bt1.gradient = some g1 ∧
         ∀ seg, handle_get_segment bt1 slider = some (some seg) →
           ¬ (seg + 1 < g1.segments.length))) := by
  cases hf : freeze_gradient bt with
  | none =>
      right
      exact ⟨by simp [line_remove_slider, hf], Or.inl rfl⟩
  | some bt1 =>
      obtain ⟨hc1, _, g1, _, hg1, _⟩ := freeze_gradient_count bt bt1 hf
      cases hget : handle_get_segment bt1 slider with
      | none =>
          right
          refine ⟨by simp [line_remove_slider, hf, hg1, hget], Or.inr ⟨bt1, g1, rfl, hg1, ?_⟩⟩
          intro seg hs
          rw [hget] at hs
          exact Option.noConfusion hs
      | some r =>
          cases r with
          | none =>
              right
              refine ⟨by simp [line_remove_slider, hf, hg1, hget],
                Or.inr ⟨bt1, g1, rfl, hg1, ?_⟩⟩
              intro seg hs
              rw [hget] at hs
              exact Option.noConfusion (Option.some.inj hs)
          | some seg =>
              by_cases hlt : seg + 1 < g1.segments.length
              · have ha : g1.segments[seg]? = some (g1.segments[seg]) :=
                  List.getElem?_eq_getElem (by omega)
                have hb : g1.segments[seg + 1]? = some (g1.segments[seg + 1]) :=
                  List.getElem?_eq_getElem hlt
                have hmerge : gimp_gradient_segment_range_merge g1.segments seg (seg + 1)
                    = some (g1.segments.take seg ++
                        merged_segment (g1.segments[seg]) (g1.segments[seg + 1]) ::
                        g1.segments.drop (seg + 1 + 1)) := by
                  simp [gimp_gradient_segment_range_merge, ha, hb]
                obtain ⟨bt3, h3, _, _, _, _, _, c3⟩ := thaw_gradient_spec dflt
                  { bt1 with gradient := some { g1 with
                      segments := g1.segments.take seg ++
                        merged_segment (g1.segments[seg]) (g1.segments[seg + 1]) ::
                        g1.segments.drop (seg + 1 + 1) } }
                  { g1 with
                      segments := g1.segments.take seg ++
                        merged_segment (g1.segments[seg]) (g1.segments[seg + 1]) ::
                        g1.segments.drop (seg + 1 + 1) }
                  rfl (by simp) (by show 0 < bt1.block_handlers_count; omega)
                left
                refine ⟨bt3, ?_, ?_⟩
                · simp only [line_remove_slider, hf, hg1, hget, hlt, if_true, hmerge]
                  exact h3
                · rw [c3]
                  show bt1.block_handlers_count - 1 = _
                  omega
              · right
                refine ⟨by simp [line_remove_slider, hf, hg1, hget, hlt],
                  Or.inr ⟨bt1, g1, rfl, hg1, ?_⟩⟩
                intro seg1 hs
                rw [hget] at hs
                rw [← Option.some.inj (Option.some.inj hs)]
                exact hlt

theorem line_changed_stops_frozen_ne_nil (sliders : List GimpControllerSlider) (offset : ℚ)
    (reverse : Bool) (seg : GimpGradientSegment) (rest : List GimpGradientSegment) (i : Nat)
    (segments : List GimpGradientSegment)
    (h : line_changed_stops_frozen sliders offset reverse seg rest i = some segments) :
    segments ≠ [] := by
  cases rest with
  | nil =>
      simp only [line_changed_stops_frozen] at h
      rw [← Option.some.inj h]
      exact List.cons_ne_nil _ _
  | cons nxt rest =>
      simp only [line_changed_stops_frozen] at h
      split at h
      · exact Option.noConfusion h
      · split at h
        · split at h
          · exact Option.noConfusion h
          · rw [← Option.some.inj h]
            exact List.cons_ne_nil _ _
        · split at h
          · exact Option.noConfusion h
          · rw [← Option.some.inj h]
            exact List.cons_ne_nil _ _

theorem line_changed_midpoints_search_count (bt : GimpBlendTool)
    (sliders : List GimpControllerSlider) (offset : ℚ) (reverse : Bool) :
    ∀ (segments : List GimpGradientSegment) (i : Nat) (bt1 : GimpBlendTool) (changed : Bool),
      line_changed_midpoints_search bt sliders offset reverse segments i = some (bt1, changed) →
      (changed = false ∧ bt1 = bt) ∨
      (changed = true ∧ bt1.block_handlers_count = bt.block_handlers_count + 1)
  | [], i, bt1, changed, h => by
      simp only [line_changed_midpoints_search, Option.some.injEq, Prod.mk.injEq] at h
      exact Or.inl ⟨h.2.symm, h.1.symm⟩
  | seg :: rest, i, bt1, changed, h => by
      simp only [line_changed_midpoints_search] at h
      split at h
      · exact Option.noConfusion h
      · split at h
        · split at h
          · exact Option.noConfusion h
          · rename_i bt0 hf
            split at h
            · split at h
              · exact Option.noConfusion h
              · split at h
                · exact Option.noConfusion h
                · simp only [Option.some.injEq, Prod.mk.injEq] at h
                  right
                  refine ⟨h.2.symm, ?_⟩
                  rw [← h.1]
                  exact (freeze_gradient_count bt bt0 hf).1
            · exact Option.noConfusion h
        · exact line_changed_midpoints_search_count bt sliders offset reverse rest (i + 1)
            bt1 changed h

theorem line_changed_stops_search_count (bt : GimpBlendTool)
    (sliders : List GimpControllerSlider) (offset : ℚ) (reverse : Bool) :
    ∀ (rest : List GimpGradientSegment) (seg : GimpGradientSegment) (i : Nat)
      (bt1 : GimpBlendTool) (changed : Bool),
      line_changed_stops_search bt sliders offset reverse seg rest i = some (bt1, changed) →
      (changed = false ∧ bt1 = bt) ∨
      (changed = true ∧ bt1.block_handlers_count = bt.block_handlers_count + 1 ∧
        ∃ g1, bt1.gradient = some g1 ∧ g1.segments ≠ [])
  | [], seg, i, bt1, changed, h => by
      simp only [line_changed_stops_search, Option.some.injEq, Prod.mk.injEq] at h
      exact Or.inl ⟨h.2.symm, h.1.symm⟩
  | nxt :: rest, seg, i, bt1, changed, h => by
      simp only [line_changed_stops_search] at h
      split at h
      · exact Option.noConfusion h
      · split at h
        · split at h
          · exact Option.noConfusion h
          · rename_i bt0 hf
            split at h
            · split at h
              · split at h
                · exact Option.noConfusion h
                · simp only [Option.some.injEq, Prod.mk.injEq] at h
                  right
                  refine ⟨h.2.symm, ?_, ?_⟩
                  · rw [← h.1]
                    exact (freeze_gradient_count bt bt0 hf).1
                  · rw [← h.1]
                    exact ⟨_, rfl, by simp⟩
              · exact Option.noConfusion h
            · exact Option.noConfusion h
        · exact line_changed_stops_search_count bt sliders offset reverse rest nxt (i + 1)
            bt1 changed h

theorem line_changed_stops_count (bt : GimpBlendTool) (sliders : List GimpControllerSlider)
    (offset : ℚ) (reverse : Bool) (changed : Bool) (bt1 : GimpBlendTool) (changed1 : Bool)
    (h : line_changed_stops bt sliders offset reverse changed = some (bt1, changed1)) :
    (∃ g1, bt1.gradient = some g1 ∧ g1.segments ≠ []) ∧
    (changed = true → changed1 = true ∧
      bt1.block_handlers_count = bt.block_handlers_count) ∧
    (changed = false →
      (changed1 = false ∧ bt1 = bt) ∨
      (changed1 = true ∧ bt1.block_handlers_count = bt.block_handlers_count + 1)) := by
  unfold line_changed_stops at h
  cases hg : bt.gradient with
  | none => simp [hg] at h
  | some g =>
      simp only [hg] at h
      cases hs : g.segments with
      | nil => simp [hs] at h
      | cons seg rest =>
          simp only [hs] at h
          cases changed with
          | true =>
              simp only [if_true] at h
              split at h
              · exact Option.noConfusion h
              · rename_i segments hfz
                simp only [Option.some.injEq, Prod.mk.injEq] at h
                refine ⟨?_, ?_, ?_⟩
                · rw [← h.1]
                  exact ⟨_, rfl, line_changed_stops_frozen_ne_nil _ _ _ _ _ _ _ hfz⟩
                · intro _
                  refine ⟨h.2.symm, ?_⟩
                  rw [← h.1]
                · intro hc
                  exact Bool.noConfusion hc
          | false =>
              simp only [Bool.false_eq_true, if_false] at h
              rcases line_changed_stops_search_count bt sliders offset reverse rest seg 0
                bt1 changed1 h with ⟨hch, hbt⟩ | ⟨hch, hcnt, hgr⟩
              · refine ⟨?_, ?_, ?_⟩
                · rw [hbt]
                  exact ⟨g, hg, by rw [hs]; exact List.cons_ne_nil _ _⟩
                · intro hc
                  exact Bool.noConfusion hc
                · intro _
                  exact Or.inl ⟨hch, hbt⟩
              · refine ⟨hgr, ?_, ?_⟩
                · intro hc
                  exact Bool.noConfusion hc
                · intro _
                  exact Or.inr ⟨hch, hcnt⟩

theorem line_changed_count (dflt : GimpControllerSlider) (bt : GimpBlendTool)
    (hc : 0 ≤ bt.block_handlers_count) :
    (∃ bt1, line_changed dflt bt = some bt1 ∧
      bt1.block_handlers_count = bt.block_handlers_count) ∨
    (line_changed dflt bt = none ∧
      (bt.widget = none ∨
       ∃ g line, bt.gradient = some g ∧ bt.widget = some line ∧
         (line_changed_midpoints_search bt line.sliders (bt.options.offset / 100)
            bt.options.gradient_reverse g.segments (line.sliders.length / 2) = none ∨
          ∃ bt1 changed1,
            line_changed_midpoints_search bt line.sliders (bt.options.offset / 100)
              bt.options.gradient_reverse g.segments (line.sliders.length / 2)
              = some (bt1, changed1) ∧
            line_changed_stops bt1 line.sliders (bt.options.offset / 100)
              bt.options.gradient_reverse changed1 = none))) := by
  by_cases hb : are_handlers_blocked bt = true
  · left
    exact ⟨bt, by simp [line_changed, hb], rfl⟩
  cases hg : bt.gradient with
  | none =>
      left
      exact ⟨bt, by simp [line_changed, hb, hg], rfl⟩
  | some g =>
      by_cases hoff : bt.options.offset / 100 = 1
      · left
        exact ⟨bt, by simp [line_changed, hb, hg, hoff], rfl⟩
      cases hw : bt.widget with
      | none =>
          right
          exact ⟨by simp [line_changed, hb, hg, hoff, hw], Or.inl rfl⟩
      | some line =>
          by_cases hn : line.sliders.length = 0
          · left
            exact ⟨bt, by simp [line_changed, hb, hg, hoff, hw, hn], rfl⟩
          cases hm : line_changed_midpoints_search bt line.sliders (bt.options.offset / 100)
              bt.options.gradient_reverse g.segments (line.sliders.length / 2) with
          | none =>
              right
              refine ⟨?_, Or.inr ⟨g, line, rfl, rfl, Or.inl hm⟩⟩
              simp only [line_changed, hb, hg, hoff, hw, hn, hm, Bool.false_eq_true, if_false]
          | some r1 =>
              obtain ⟨bt1, changed1⟩ := r1
              cases hst : line_changed_stops bt1 line.sliders (bt.options.offset / 100)
                  bt.options.gradient_reverse changed1 with
              | none =>
                  right
                  refine ⟨?_, Or.inr ⟨g, line, rfl, rfl, Or.inr ⟨bt1, changed1, hm, hst⟩⟩⟩
                  simp only [line_changed, hb, hg, hoff, hw, hn, hm, hst, Bool.false_eq_true,
                    if_false]
              | some r2 =>
                  obtain ⟨bt2, changed2⟩ := r2
                  left
                  obtain ⟨⟨g2, hg2, hne2⟩, ht, hf⟩ :=
                    line_changed_stops_count bt1 line.sliders _ _ changed1 bt2 changed2 hst
                  have hm1 := line_changed_midpoints_search_count bt line.sliders _ _ _ _
                    bt1 changed1 hm
                  have hlen2 : g2.segments.length ≠ 0 := fun h0 =>
                    hne2 (List.length_eq_zero.mp h0)
                  have heq : line_changed dflt bt
                      = match (if changed2 = true then thaw_gradient dflt bt2 else some bt2) with
                        | none => none
                        | some bt3 => update_gui bt3 := by
                    simp only [line_changed, hb, hg, hoff, hw, hn, hm, hst, Bool.false_eq_true,
                      if_false]
                  cases changed2 with
                  | true =>
                      have hcnt : bt2.block_handlers_count = bt.block_handlers_count + 1 := by
                        rcases hm1 with ⟨hch, hbt⟩ | ⟨hch, hcnt⟩
                        · rcases hf hch with ⟨h1, _⟩ | ⟨_, h2⟩
                          · exact Bool.noConfusion h1
                          · rw [h2, hbt]
                        · rw [(ht hch).2, hcnt]
                      obtain ⟨bt3, h3, _, g3, _, _, _, c3⟩ := thaw_gradient_spec dflt bt2 g2 hg2
                        hlen2 (by omega)
                      obtain ⟨bt4, h4, _, _, _, _, _, c4⟩ := update_gui_spec bt3
                        (gimp_data_thaw g2) g3 (by simpa [gimp_data_thaw] using hlen2)
                        (by omega)
                      refine ⟨bt4, ?_, by omega⟩
                      rw [heq]
                      simp only [if_true, h3]
                      exact h4
                  | false =>
                      have hbt2 : bt2 = bt := by
                        rcases hm1 with ⟨hch, hbt⟩ | ⟨hch, _⟩
                        · rcases hf hch with ⟨_, h1⟩ | ⟨h2, _⟩
                          · rw [h1, hbt]
                          · exact Bool.noConfusion h2
                        · exact Bool.noConfusion (ht hch).1
                      obtain ⟨bt4, h4, _, _, _, _, _, c4⟩ := update_gui_spec bt2 g2 hg2 hlen2
                        (by rw [hbt2]; exact hc)
                      refine ⟨bt4, ?_, by rw [c4, hbt2]⟩
                      rw [heq]
                      simp only [Bool.false_eq_true, if_false]
                      exact h4

theorem update_sliders_eq_none_iff (dflt : GimpControllerSlider) (bt : GimpBlendTool)
    (hc : 0 ≤ bt.block_handlers_count) :
    update_sliders dflt bt = none ↔
      bt.widget ≠ none ∧ bt.options.instant = false ∧
      ∀ g, bt.gradient = some g → g.segments = [] := by
  have hpos : bt.block_handlers_count + 1 > 0 := by omega
  cases hw : bt.widget with
  | none => simp [update_sliders, hw]
  | some line =>
      cases hi : bt.options.instant with
      | true => simp [update_sliders, hw, hi]
      | false =>
          cases hg : bt.gradient with
          | none => simp [update_sliders, hw, hi, hg]
          | some g =>
              by_cases hn : g.segments = []
              · simp [update_sliders, hw, hi, hg, hn]
              · simp [update_sliders, hw, hi, hg, hn, unblock_handlers, block_handlers, hpos]

theorem update_endpoint_gui_nil (bt : GimpBlendTool) (g : GimpGradient)
    (line : GimpToolLine) (gui : GimpToolGui) (selection : Int)
    (hg : bt.gradient = some g) (hnil : g.segments = []) :
    update_endpoint_gui bt line gui selection = none := by
  have hstart : handle_get_segment bt GIMP_TOOL_LINE_HANDLE_START = some none := by
    simp [handle_get_segment, hg, hnil]
  have hend : handle_get_segment bt GIMP_TOOL_LINE_HANDLE_END = some none := by
    simp [handle_get_segment, hg, hnil, gimp_gradient_segment_get_last,
      GIMP_TOOL_LINE_HANDLE_END, GIMP_TOOL_LINE_HANDLE_START]
  have hget : handle_get_segment bt
      (if bt.options.gradient_reverse = true then
        (if selection = GIMP_TOOL_LINE_HANDLE_START then GIMP_TOOL_LINE_HANDLE_END
         else GIMP_TOOL_LINE_HANDLE_START)
       else selection) = some none ∨
      ¬ (selection = GIMP_TOOL_LINE_HANDLE_START ∨ selection = GIMP_TOOL_LINE_HANDLE_END) := by
    by_cases hsel : selection = GIMP_TOOL_LINE_HANDLE_START ∨
        selection = GIMP_TOOL_LINE_HANDLE_END
    · left
      split
      · split
        · exact hend
        · exact hstart
      · rcases hsel with h | h <;> rw [h]
        · exact hstart
        · exact hend
    · exact Or.inr hsel
  rcases hget with h | h
  · simp only [update_endpoint_gui, hg, h]
    split <;> rfl
  · simp only [update_endpoint_gui, h, not_false_eq_true, if_true]

theorem update_gui_eq_none_iff (bt : GimpBlendTool) (hc : 0 ≤ bt.block_handlers_count) :
    update_gui bt = none ↔
      ∃ g line, bt.gradient = some g ∧ bt.widget = some line ∧
        bt.options.instant = false ∧ handle_is_endpoint line.selection = true ∧
        g.segments = [] := by
  constructor
  · intro h
    cases hg : bt.gradient with
    | none => simp [update_gui, hg] at h
    | some g =>
        have hnil := update_gui_none bt hc h g hg
        cases hw : bt.widget with
        | none => simp [update_gui, hg, hw] at h
        | some line =>
            cases hi : bt.options.instant with
            | true => simp [update_gui, hg, hw, hi] at h
            | false =>
                cases he : handle_is_endpoint line.selection with
                | true => exact ⟨g, line, rfl, rfl, rfl, he, hnil⟩
                | false =>
                    have hpos : bt.block_handlers_count + 1 > 0 := by omega
                    by_cases hn : line.selection = GIMP_TOOL_LINE_HANDLE_NONE
                    · simp [update_gui, hg, hw, hi, hn] at h
                    · simp [update_gui, hg, hw, hi, hn, he, unblock_handlers, block_handlers,
                        hpos] at h
  · rintro ⟨g, line, hg, hw, hi, he, hnil⟩
    have hn : line.selection ≠ GIMP_TOOL_LINE_HANDLE_NONE := by
      intro hn
      rw [hn] at he
      exact Bool.noConfusion he
    have hu := update_endpoint_gui_nil (block_handlers bt) g line
      (bt.gui.getD gimp_tool_gui_new) line.selection hg hnil
    simp only [update_gui, hg, hw, hi, hn, he, hu, Bool.false_eq_true, if_false, if_true]

theorem thaw_gradient_eq_none_iff (dflt : GimpControllerSlider) (bt : GimpBlendTool)
    (hc : 0 < bt.block_handlers_count) :
    thaw_gradient dflt bt = none ↔
      bt.widget ≠ none ∧ bt.options.instant = false ∧
      ∀ g, bt.gradient = some g → g.segments = [] := by
  have hus := update_sliders_eq_none_iff dflt
    { bt with gradient := bt.gradient.map gimp_data_thaw } (le_of_lt hc)
  have hchain : (∀ g, bt.gradient.map gimp_data_thaw = some g → g.segments = []) ↔
      ∀ g, bt.gradient = some g → g.segments = [] := by
    cases hg : bt.gradient with
    | none => simp
    | some g => simp [gimp_data_thaw]
  constructor
  · intro h
    cases h2 : update_sliders dflt { bt with gradient := bt.gradient.map gimp_data_thaw } with
    | none =>
        obtain ⟨a, b, c⟩ := hus.mp h2
        exact ⟨a, b, hchain.mp c⟩
    | some bt2 =>
        exfalso
        have c2 := update_sliders_count dflt _ bt2 h2
        cases h3 : update_gui bt2 with
        | none =>
            obtain ⟨g, line, hg, hw, hi, _, hnil⟩ :=
              (update_gui_eq_none_iff bt2 (by rw [c2]; exact le_of_lt hc)).mp h3
            cases hgb : bt.gradient with
            | none =>
                cases hwb : bt.widget with
                | none => simp [update_sliders, hwb] at h2; rw [← h2] at hw; simp [hwb] at hw
                | some lineb =>
                    cases hib : bt.options.instant with
                    | true =>
                        simp [update_sliders, hwb, hib] at h2
                        rw [← h2] at hi
                        simp [hib] at hi
                    | false => simp [update_sliders, hwb, hib, hgb] at h2
            | some gb =>
                by_cases hn : gb.segments = []
                · cases hwb : bt.widget with
                  | none => simp [update_sliders, hwb] at h2; rw [← h2] at hw; simp [hwb] at hw
                  | some lineb =>
                      cases hib : bt.options.instant with
                      | true =>
                          simp [update_sliders, hwb, hib] at h2
                          rw [← h2] at hi
                          simp [hib] at hi
                      | false =>
                          simp [update_sliders, hwb, hib, hgb, gimp_data_thaw, hn] at h2
                · obtain ⟨bt1, h1, _⟩ := thaw_gradient_spec dflt bt gb hgb
                    (fun h0 => hn (List.length_eq_zero.mp h0)) hc
                  rw [h] at h1
                  exact Option.noConfusion h1
        | some bt3 =>
            have c3 := update_gui_count bt2 bt3 h3
            have hpos : bt3.block_handlers_count > 0 := by
              rw [c3, c2]
              exact hc
            simp [thaw_gradient, h2, h3, unblock_handlers, hpos] at h
  · rintro ⟨a, b, c⟩
    have h2 := hus.mpr ⟨a, b, hchain.mpr c⟩
    simp only [thaw_gradient, h2]

theorem endpoint_se_value_changed_eq_none_iff (bt : GimpBlendTool) (x y : ℚ)
    (hc : 0 ≤ bt.block_handlers_count) :
    endpoint_se_value_changed bt x y = none ↔
      bt.block_handlers_count = 0 ∧
      ∀ line, bt.widget = some line →
        line.selection ≠ GIMP_TOOL_LINE_HANDLE_START ∧
        line.selection ≠ GIMP_TOOL_LINE_HANDLE_END := by
  constructor
  · intro h
    rcases endpoint_se_value_changed_count bt x y hc with ⟨bt1, h1, _⟩ | ⟨_, hcause⟩
    · rw [h] at h1
      exact Option.noConfusion h1
    · refine ⟨?_, hcause⟩
      by_contra hne
      have hb : bt.block_handlers_count > 0 := by omega
      simp [endpoint_se_value_changed, are_handlers_blocked, hb] at h
  · rintro ⟨h0, hcause⟩
    have hb : are_handlers_blocked bt = false := by simp [are_handlers_blocked, h0]
    cases hw : bt.widget with
    | none => simp [endpoint_se_value_changed, hb, hw]
    | some line =>
        obtain ⟨hs, he⟩ := hcause line hw
        simp [endpoint_se_value_changed, hb, hw, hs, he]

theorem add_stop_eq_none_iff (dflt : GimpControllerSlider) (bt : GimpBlendTool) (value : ℚ)
    (hc : 0 ≤ bt.block_handlers_count) :
    add_stop dflt bt value = none ↔
      (freeze_gradient bt = none ∨
       ∃ bt1 g1, freeze_gradient bt = some bt1 ∧ bt1.gradient = some g1 ∧
         gimp_gradient_split_at g1.segments value = none) := by
  constructor
  · intro h
    rcases add_stop_count dflt bt value hc with ⟨bt1, stop, h1, _⟩ | ⟨_, hcause⟩
    · rw [h] at h1
      exact Option.noConfusion h1
    · exact hcause
  · rintro (hf | ⟨bt1, g1, hf, hg1, hsp⟩)
    · simp [add_stop, hf]
    · simp [add_stop, hf, hg1, hsp]

theorem line_remove_slider_eq_none_iff (dflt : GimpControllerSlider) (bt : GimpBlendTool)
    (slider : Int) (hc : 0 ≤ bt.block_handlers_count) :
    line_remove_slider dflt bt slider = none ↔
      (freeze_gradient bt = none ∨
       ∃ bt1 g1, freeze_gradient bt = some bt1 ∧ bt1.gradient = some g1 ∧
         ∀ seg, handle_get_segment bt1 slider = some (some seg) →
           ¬ (seg + 1 < g1.segments.length)) := by
  constructor
  · intro h
    rcases line_remove_slider_count dflt bt slider hc with ⟨bt1, h1, _⟩ | ⟨_, hcause⟩
    · rw [h] at h1
      exact Option.noConfusion h1
    · exact hcause
  · rintro (hf | ⟨bt1, g1, hf, hg1, hseg⟩)
    · simp [line_remove_slider, hf]
    · cases hget : handle_get_segment bt1 slider with
      | none => simp [line_remove_slider, hf, hg1, hget]
      | some r =>
          cases r with
          | none => simp [line_remove_slider, hf, hg1, hget]
          | some seg =>
              have := hseg seg hget
              simp [line_remove_slider, hf, hg1, hget, this]

theorem line_changed_eq_none_iff (dflt : GimpControllerSlider) (bt : GimpBlendTool)
    (hc : 0 ≤ bt.block_handlers_count) :
    line_changed dflt bt = none ↔
      bt.block_handlers_count = 0 ∧ bt.options.offset / 100 ≠ 1 ∧
      ∃ g, bt.gradient = some g ∧
        (bt.widget = none ∨
         ∃ line, bt.widget = some line ∧ line.sliders.length ≠ 0 ∧
           (line_changed_midpoints_search bt line.sliders (bt.options.offset / 100)
              bt.options.gradient_reverse g.segments (line.sliders.length / 2) = none ∨
            ∃ bt1 changed1,
              line_changed_midpoints_search bt line.sliders (bt.options.offset / 100)
                bt.options.gradient_reverse g.segments (line.sliders.length / 2)
                = some (bt1, changed1) ∧
              line_changed_stops bt1 line.sliders (bt.options.offset / 100)
                bt.options.gradient_reverse changed1 = none)) := by
  constructor
  · intro h
    have h0 : bt.block_handlers_count = 0 := by
      by_contra hne
      have hb : bt.block_handlers_count > 0 := by omega
      simp [line_changed, are_handlers_blocked, hb] at h
    have hb : are_handlers_blocked bt = false := by simp [are_handlers_blocked, h0]
    cases hg : bt.gradient with
    | none => simp [line_changed, hb, hg] at h
    | some g =>
        have hoff : bt.options.offset / 100 ≠ 1 := by
          intro hoff
          simp [line_changed, hb, hg, hoff] at h
        refine ⟨h0, hoff, g, rfl, ?_⟩
        rcases line_changed_count dflt bt hc with ⟨bt1, h1, _⟩ | ⟨_, hcause⟩
        · rw [h] at h1
          exact Option.noConfusion h1
        · rcases hcause with hw | ⟨g', line, hg', hw, hl⟩
          · exact Or.inl hw
          · right
            have hgg : g' = g := by
              rw [hg] at hg'
              exact (Option.some.inj hg').symm
            subst hgg
            refine ⟨line, hw, ?_, hl⟩
            intro hn
            simp [line_changed, hb, hg, hoff, hw, hn] at h
  · rintro ⟨h0, hoff, g, hg, hcause⟩
    have hb : are_handlers_blocked bt = false := by simp [are_handlers_blocked, h0]
    rcases hcause with hw | ⟨line, hw, hn, hm | ⟨bt1, changed1, hm, hst⟩⟩
    · simp [line_changed, hb, hg, hoff, hw]
    · simp only [line_changed, hb, hg, hoff, hw, hn, hm, Bool.false_eq_true, if_false]
    · simp only [line_changed, hb, hg, hoff, hw, hn, hm, hst, Bool.false_eq_true, if_false]

theorem count_of_some (o : Option GimpBlendTool) (c : Int) (cause : Prop)
    (h : (∃ bt1, o = some bt1 ∧ bt1.block_handlers_count = c) ∨ (o = none ∧ cause)) :
    ∀ bt1, o = some bt1 → bt1.block_handlers_count = c := by
  intro bt1 h1
  rcases h with ⟨bt2, h2, c2⟩ | ⟨hn, _⟩
  · rw [h1] at h2
    rw [Option.some.inj h2]
    exact c2
  · rw [h1] at hn
    exact Option.noConfusion hn

/-- C21: the handlers-blocked counter is balanced and never underflows.  In
every state with `block_handlers_count = c ≥ 0`, each operation that blocks the
handlers returns, on every path, the early returns included, with
`block_handlers_count = c` again, and the states in which it does not return
are exactly those where something else than the assertion
`block_handlers_count > 0` of `unblock_handlers` stops it: a NULL gradient or
an empty chain under a widget outside instant mode (a NULL dereference),
`g_assert_not_reached` on a selection that is not an endpoint, or a step that
fails before any `unblock_handlers` (`freeze_gradient`, the split, the segment
lookup, the loops of `line_changed`).  The operations are `freeze_gradient`
followed by `thaw_gradient` (with any edit in between that leaves the counter
alone), `update_sliders`, `update_gui`, `endpoint_se_value_changed`,
`add_stop`, `line_remove_slider` and `line_changed`. -/
theorem block_handlers_count_balanced (dflt : GimpControllerSlider) (bt : GimpBlendTool)
    (hc : 0 ≤ bt.block_handlers_count) :
    (∀ bt1, freeze_gradient bt = some bt1 →
      bt1.block_handlers_count = bt.block_handlers_count + 1 ∧
      ∀ bt2, bt2.block_handlers_count = bt1.block_handlers_count →
        (∀ bt3, thaw_gradient dflt bt2 = some bt3 →
          bt3.block_handlers_count = bt.block_handlers_count) ∧
        (thaw_gradient dflt bt2 = none ↔
          bt2.widget ≠ none ∧ bt2.options.instant = false ∧
          ∀ g, bt2.gradient = some g → g.segments = [])) ∧
    ((∀ bt1, update_sliders dflt bt = some bt1 →
        bt1.block_handlers_count = bt.block_handlers_count) ∧
      (update_sliders dflt bt = none ↔
        bt.widget ≠ none ∧ bt.options.instant = false ∧
        ∀ g, bt.gradient = some g → g.segments = [])) ∧
    ((∀ bt1, update_gui bt = some bt1 →
        bt1.block_handlers_count = bt.block_handlers_count) ∧
      (update_gui bt = none ↔
        ∃ g line, bt.gradient = some g ∧ bt.widget = some line ∧
          bt.options.instant = false ∧ handle_is_endpoint line.selection = true ∧
          g.segments = [])) ∧
    (∀ x y : ℚ,
      (∀ bt1, endpoint_se_value_changed bt x y = some bt1 →
        bt1.block_handlers_count = bt.block_handlers_count) ∧
      (endpoint_se_value_changed bt x y = none ↔
        bt.block_handlers_count = 0 ∧
        ∀ line, bt.widget = some line →
          line.selection ≠ GIMP_TOOL_LINE_HANDLE_START ∧
          line.selection ≠ GIMP_TOOL_LINE_HANDLE_END)) ∧
    (∀ value : ℚ,
      (∀ bt1 stop, add_stop dflt bt value = some (bt1, stop) →
        bt1.block_handlers_count = bt.block_handlers_count) ∧
      (add_stop dflt bt value = none ↔
        (freeze_gradient bt = none ∨
         ∃ bt1 g1, freeze_gradient bt = some bt1 ∧ bt1.gradient = some g1 ∧
           gimp_gradient_split_at g1.segments value = none))) ∧
    (∀ slider : Int,
      (∀ bt1, line_remove_slider dflt bt slider = some bt1 →
        bt1.block_handlers_count = bt.block_handlers_count) ∧
      (line_remove_slider dflt bt slider = none ↔
        (freeze_gradient bt = none ∨
         ∃ bt1 g1, freeze_gradient bt = some bt1 ∧ bt1.gradient = some g1 ∧
           ∀ seg, handle_get_segment bt1 slider = some (some seg) →
             ¬ (seg + 1 < g1.segments.length)))) ∧
    ((∀ bt1, line_changed dflt bt = some bt1 →
        bt1.block_handlers_count = bt.block_handlers_count) ∧
      (line_changed dflt bt = none ↔
        bt.block_handlers_count = 0 ∧ bt.options.offset / 100 ≠ 1 ∧
        ∃ g, bt.gradient = some g ∧
          (bt.widget = none ∨
           ∃ line, bt.widget = some line ∧ line.sliders.length ≠ 0 ∧
             (line_changed_midpoints_search bt line.sliders (bt.options.offset / 100)
                bt.options.gradient_reverse g.segments (line.sliders.length / 2) = none ∨
              ∃ bt1 changed1,
                line_changed_midpoints_search bt line.sliders (bt.options.offset / 100)
                  bt.options.gradient_reverse g.segments (line.sliders.length / 2)
                  = some (bt1, changed1) ∧
                line_changed_stops bt1 line.sliders (bt.options.offset / 100)
                  bt.options.gradient_reverse changed1 = none)))) := by
  refine ⟨?_, ⟨update_sliders_count dflt bt, update_sliders_eq_none_iff dflt bt hc⟩,
    ⟨update_gui_count bt, update_gui_eq_none_iff bt hc⟩,
    fun x y => ⟨count_of_some _ _ _ (endpoint_se_value_changed_count bt x y hc),
      endpoint_se_value_changed_eq_none_iff bt x y hc⟩,
    fun value => ⟨?_, add_stop_eq_none_iff dflt bt value hc⟩,
    fun slider => ⟨count_of_some _ _ _ (line_remove_slider_count dflt bt slider hc),
      line_remove_slider_eq_none_iff dflt bt slider hc⟩,
    ⟨count_of_some _ _ _ (line_changed_count dflt bt hc), line_changed_eq_none_iff dflt bt hc⟩⟩
  · intro bt1 hf
    have hc1 := (freeze_gradient_count bt bt1 hf).1
    refine ⟨hc1, ?_⟩
    intro bt2 hc2
    refine ⟨?_, thaw_gradient_eq_none_iff dflt bt2 (by omega)⟩
    intro bt3 ht
    rw [thaw_gradient_count dflt bt2 bt3 ht]
    omega
  · intro bt1 stop h1
    rcases add_stop_count dflt bt value hc with ⟨bt2, stop2, h2, c2⟩ | ⟨hn, _⟩
    · rw [h1] at h2
      have := (Prod.mk.inj (Option.some.inj h2)).1
      rw [this]
      exact c2
    · rw [h1] at hn
      exact Option.noConfusion hn

/-- C21, a concrete instance: the sample tool with `START` selected and the
counter at `0`; the endpoint position entry changes the start point and
returns with the counter at `0`. -/
theorem block_handlers_count_balanced_witness :
    0 ≤ start_selected_tool.block_handlers_count ∧
    ∃ bt1, endpoint_se_value_changed start_selected_tool 3 4 = some bt1 ∧
      bt1.block_handlers_count = start_selected_tool.block_handlers_count := by
  refine ⟨by decide, ?_⟩
  have h := (block_handlers_count_balanced sample_slider_default start_selected_tool
    (by decide)).2.2.2.1 3 4
  cases hr : endpoint_se_value_changed start_selected_tool 3 4 with
  | none => exact absurd rfl ((h.2.mp hr).2 _ rfl).1
  | some bt1 => exact ⟨bt1, rfl, h.1 bt1 hr⟩

end BlendEditor
